import Mathlib

/-!
The routine ex_get_object_truth_vector (tools/exolib/cbind/src/exgotv.c).

A shallow embedding of the truth-vector reader.  The routine is a C function
that talks to the EXODUS II / netCDF library through four calls
(`ex_id_lkup`, `ex_get_dimension`, `ncvarid`, `ncvarget`), reports through
`ex_err`, and communicates through two globals (`exerrval`, `ncerr`) and the
caller's `int* var_vec`.  The library is not part of the sources: an `ExoFile`
gives the answer of every library call, and the routine is a function on an
explicit state that also records every call it makes.
-/

namespace Exgotv

/-! ## Constants and names of the headers -/

/-- Constants of exodusII.h used by the routine.  The header is not among the
sources, so their values are parameters of the embedding. -/
structure ExodusHeader where
  EX_NOERR : Int
  EX_WARN : Int
  EX_FATAL : Int
  EX_BADPARAM : Int
  EX_NULLENTITY : Int
  deriving DecidableEq, Repr

/-- The values the published exodusII.h gives to the constants; used where a
concrete header is needed to evaluate the routine. -/
def exodusII_h : ExodusHeader :=
  ⟨0, 1, -1, 1005, -1006⟩

/-- The type `ex_entity_type` of the `obj_type` argument: the eight case labels
of the switch, and `other v` for every value `v` that is none of them (a C enum
parameter can hold any int). -/
inductive ex_entity_type where
  | EX_EDGE_BLOCK
  | EX_FACE_BLOCK
  | EX_ELEM_BLOCK
  | EX_NODE_SET
  | EX_EDGE_SET
  | EX_FACE_SET
  | EX_SIDE_SET
  | EX_ELEM_SET
  | other (value : Int)
  deriving DecidableEq, Repr

/-- Names of netCDF dimensions and variables: the macros of exodusII_int.h that
the routine passes to the library (kept symbolic, the header is not among the
sources) and the names built by `ex_catstr2 (var_name, i+1, ent_type, ent_ndx)`. -/
inductive NcName where
  | VAR_ID_ED_BLK | VAR_ID_FA_BLK | VAR_ID_EL_BLK
  | VAR_NS_IDS | VAR_ES_IDS | VAR_FS_IDS | VAR_SS_IDS | VAR_ELS_IDS
  | DIM_NUM_EDG_VAR | DIM_NUM_FAC_VAR | DIM_NUM_ELE_VAR
  | DIM_NUM_NSET_VAR | DIM_NUM_ESET_VAR | DIM_NUM_FSET_VAR
  | DIM_NUM_SSET_VAR | DIM_NUM_ELSET_VAR
  | VAR_EBLK_TAB | VAR_FBLK_TAB | VAR_ELEM_TAB
  | VAR_NSET_TAB | VAR_ESET_TAB | VAR_FSET_TAB | VAR_SSET_TAB | VAR_ELSET_TAB
  | ex_catstr2 (var_name : String) (ordinal : Int) (ent_type : String) (ent_ndx : Int)
  deriving DecidableEq, Repr

/-! ## The library as seen by the routine -/

/-- Answer of `ex_id_lkup (exoid, id_var, entity_id)`: the returned index, the
content of `exerrval` after the call (the routine calls it with `exerrval = 0`,
so `0` means the lookup reported nothing), and the code it left in `ncerr`, if
any. -/
structure IdLkup where
  ret : Int
  exerrval : Int
  ncerr : Option Int
  deriving DecidableEq, Repr

/-- Answer of `ex_get_dimension (exoid, dim, label, &num_var_db, routine)`: the
returned dimension id (`-1` on failure), the value stored in `num_var_db`, and
the code left in `ncerr`, if any. -/
structure GetDim where
  dimid : Int
  count : Int
  ncerr : Option Int
  deriving DecidableEq, Repr

/-- Answer of `ncvarid (exoid, name)`: the variable id (`-1` when there is no
such variable) and the code left in `ncerr`, if any. -/
structure VarId where
  varid : Int
  ncerr : Option Int
  deriving DecidableEq, Repr

/-- A failing `ncvarget`: the code it leaves in `ncerr` and the values it had
already stored at the start of the destination buffer when it gave up. -/
structure ReadFail where
  ncerr : Int
  wrote : List Int
  deriving DecidableEq, Repr

/-- An open EXODUS II file together with the library that reads it: the answer
of each library call the routine can make. -/
structure ExoFile where
  ex_id_lkup : NcName → Int → IdLkup
  ex_get_dimension : NcName → GetDim
  ncvarid : NcName → VarId
  /-- The stored value of variable `varid` at `(row, column)`. -/
  table : Int → Int → Int → Int
  /-- Whether `ncvarget (exoid, varid, start, count, _)` fails, by
  `varid start[0] start[1] count[0] count[1]`. -/
  ncvarget_fail : Int → Int → Int → Int → Int → Option ReadFail

/-- The messages the routine hands to `ex_err`, with the arguments of their
format strings. -/
inductive ErrMsg where
  /-- "Error: Invalid variable type %d specified in file id %d" -/
  | invalid_variable_type (obj_type : ex_entity_type) (exoid : Int)
  /-- "Warning: no %s variables for NULL block %d in file id %d" -/
  | no_variables_for_NULL_block (obj_type : ex_entity_type) (entity_id exoid : Int)
  /-- "Error: failed to locate %s id %d in id variable in file id %d" -/
  | failed_to_locate_id (obj_type : ex_entity_type) (entity_id exoid : Int)
  /-- "Error: # of variables doesn't match those defined in file id %d" -/
  | num_variables_mismatch (exoid : Int)
  /-- "Error: failed to get truth vector from file id %d" -/
  | failed_to_get_truth_vector (exoid : Int)
  deriving DecidableEq, Repr

/-- What the routine does that is visible outside it: the library calls with
their arguments, and the calls of `ex_err`. -/
inductive Event where
  | ex_id_lkup (id_var : NcName) (entity_id : Int)
  | ex_get_dimension (dim : NcName) (label : String)
  | ncvarid (name : NcName)
  | ncvarget (varid start0 start1 count0 count1 : Int)
  | ex_err (routine : String) (msg : ErrMsg) (err_num : Int)
  deriving DecidableEq, Repr

/-- Whether an event reads the file (everything but `ex_err`). -/
def Event.isFileAccess : Event → Bool
  | .ex_err _ _ _ => false
  | _ => true

/-- The globals `exerrval` and `ncerr`, the cells `var_vec[0], var_vec[1], ...`
of the caller's buffer, and the events so far. -/
structure State where
  exerrval : Int
  ncerr : Int
  var_vec : Nat → Int
  trace : List Event

/-- Return value of the routine and the state it leaves. -/
structure Result where
  status : Int
  st : State

/-! ## Library calls as state transformers -/

/-- A library call stores a code in `ncerr` or leaves it alone. -/
def setNcerr (e : Option Int) (s : State) : State :=
  match e with
  | none => s
  | some c => { s with ncerr := c }

/-- Append an event to the trace. -/
def log (e : Event) (s : State) : State :=
  { s with trace := s.trace ++ [e] }

/-- Storing `vals` at the start of a buffer. -/
def store (v : Nat → Int) (vals : List Int) : Nat → Int :=
  fun i => (vals.get? i).getD (v i)

/-- Call `ex_id_lkup (exoid, id_var, entity_id)`. -/
def call_ex_id_lkup (F : ExoFile) (id_var : NcName) (entity_id : Int) (s : State) :
    Int × State :=
  let a := F.ex_id_lkup id_var entity_id
  (a.ret, setNcerr a.ncerr (log (.ex_id_lkup id_var entity_id) { s with exerrval := a.exerrval }))

/-- Call `ex_get_dimension (exoid, dim, label, &num_var_db, routine)`; the
result is `(varid, num_var_db)`.  On failure the library stores `ncerr` in
`exerrval`, which the routine does again itself on that path. -/
def call_ex_get_dimension (F : ExoFile) (dim : NcName) (label : String) (s : State) :
    (Int × Int) × State :=
  let a := F.ex_get_dimension dim
  ((a.dimid, a.count), setNcerr a.ncerr (log (.ex_get_dimension dim label) s))

/-- Call `ncvarid (exoid, name)`. -/
def call_ncvarid (F : ExoFile) (name : NcName) (s : State) : Int × State :=
  let a := F.ncvarid name
  (a.varid, setNcerr a.ncerr (log (.ncvarid name) s))

/-- The values of the hyperslab `start, count` of a two-dimensional variable,
in row-major order. -/
def hyperslab (F : ExoFile) (varid start0 start1 count0 count1 : Int) : List Int :=
  (List.range count0.toNat).flatMap fun (r : Nat) =>
    (List.range count1.toNat).map fun (c : Nat) => F.table varid (start0 + r) (start1 + c)

/-- Call `ncvarget (exoid, varid, start, count, var_vec)`: `0` and the hyperslab
in the buffer, or `-1`, a code in `ncerr` and whatever had been stored by
then (never more than the hyperslab holds). -/
def call_ncvarget (F : ExoFile) (varid start0 start1 count0 count1 : Int) (s : State) :
    Int × State :=
  let s1 := log (.ncvarget varid start0 start1 count0 count1) s
  match F.ncvarget_fail varid start0 start1 count0 count1 with
  | some f =>
    (-1, { s1 with ncerr := f.ncerr,
                   var_vec := store s1.var_vec (f.wrote.take (count0.toNat * count1.toNat)) })
  | none =>
    (0, { s1 with var_vec := store s1.var_vec (hyperslab F varid start0 start1 count0 count1) })

/-- Call `ex_err (routine, errmsg, exerrval)`. -/
def call_ex_err (routine : String) (msg : ErrMsg) (s : State) : State :=
  log (.ex_err routine msg s.exerrval) s

/-! ## The routine -/

/-- What one case of the switch fixes: the arguments of the three library calls
and the two strings the variable names are built from. -/
structure Category where
  id_var : NcName
  dim : NcName
  label : String
  tab : NcName
  var_name : String
  ent_type : String
  deriving DecidableEq, Repr

/-- The cases of `switch (obj_type)`; `none` is the default case. -/
def category : ex_entity_type → Option Category
  | .EX_EDGE_BLOCK =>
    some ⟨.VAR_ID_ED_BLK, .DIM_NUM_EDG_VAR, "edge variables", .VAR_EBLK_TAB, "vals_edge_var", "eb"⟩
  | .EX_FACE_BLOCK =>
    some ⟨.VAR_ID_FA_BLK, .DIM_NUM_FAC_VAR, "face variables", .VAR_FBLK_TAB, "vals_face_var", "eb"⟩
  | .EX_ELEM_BLOCK =>
    some ⟨.VAR_ID_EL_BLK, .DIM_NUM_ELE_VAR, "element variables", .VAR_ELEM_TAB, "vals_elem_var", "eb"⟩
  | .EX_NODE_SET =>
    some ⟨.VAR_NS_IDS, .DIM_NUM_NSET_VAR, "nodeset variables", .VAR_NSET_TAB, "vals_nset_var", "ns"⟩
  | .EX_EDGE_SET =>
    some ⟨.VAR_ES_IDS, .DIM_NUM_ESET_VAR, "edgeset variables", .VAR_ESET_TAB, "vals_eset_var", "ns"⟩
  | .EX_FACE_SET =>
    some ⟨.VAR_FS_IDS, .DIM_NUM_FSET_VAR, "faceset variables", .VAR_FSET_TAB, "vals_fset_var", "ns"⟩
  | .EX_SIDE_SET =>
    some ⟨.VAR_SS_IDS, .DIM_NUM_SSET_VAR, "sideset variables", .VAR_SSET_TAB, "vals_sset_var", "ss"⟩
  | .EX_ELEM_SET =>
    some ⟨.VAR_ELS_IDS, .DIM_NUM_ELSET_VAR, "elemset variables", .VAR_ELSET_TAB, "vals_elset_var", "els"⟩
  | .other _ => none

/-- The string `routine`. -/
def routine : String := "ex_get_object_truth_vector"

/-- The loop `for (i=0; i<num_var; i++)` of the fallback path, over the values
of `i` still to come: one `ncvarid` per variable, `var_vec[i]` set to 0 when it
returns `-1` and to 1 otherwise. -/
def probe_loop (F : ExoFile) (var_name : String) (ent_type : String) (ent_ndx : Int) :
    List Nat → State → State
  | [], s => s
  | i :: rest, s =>
    let p := call_ncvarid F (.ex_catstr2 var_name ((i : Int) + 1) ent_type ent_ndx) s
    if p.1 = -1 then
      probe_loop F var_name ent_type ent_ndx rest
        { p.2 with var_vec := Function.update p.2.var_vec i 0 }
    else
      probe_loop F var_name ent_type ent_ndx rest
        { p.2 with var_vec := Function.update p.2.var_vec i 1 }

/-- The routine `ex_get_object_truth_vector (exoid, obj_type, entity_id, num_var,
var_vec)`, run on file `F` from state `s`.  The C integers are `Int`: the only
arithmetic of the routine is `-ent_ndx`, `ent_ndx-1` (in a `long`) and `i+1` with
`i < num_var`, none of which leaves the range of its type unless `ex_id_lkup`
returns `INT_MIN`. -/
def ex_get_object_truth_vector (H : ExodusHeader) (F : ExoFile) (exoid : Int)
    (obj_type : ex_entity_type) (entity_id num_var : Int) (s : State) : Result :=
  -- exerrval = 0;
  let s := { s with exerrval := 0 }
  match category obj_type with
  | none =>
    let s := { s with exerrval := H.EX_BADPARAM }
    ⟨H.EX_WARN, call_ex_err routine (.invalid_variable_type obj_type exoid) s⟩
  | some c =>
    let l := call_ex_id_lkup F c.id_var entity_id s
    let ent_ndx := l.1
    let d := call_ex_get_dimension F c.dim c.label l.2
    let varid := d.1.1
    let num_var_db := d.1.2
    let t := call_ncvarid F c.tab d.2
    let tabid := t.1
    let s := t.2
    if varid = -1 then
      ⟨H.EX_WARN, { s with exerrval := s.ncerr }⟩
    else if s.exerrval ≠ 0 then
      if s.exerrval = H.EX_NULLENTITY then
        ⟨H.EX_WARN, call_ex_err routine (.no_variables_for_NULL_block obj_type entity_id exoid) s⟩
      else
        ⟨H.EX_FATAL, call_ex_err routine (.failed_to_locate_id obj_type entity_id exoid) s⟩
    else
      let ent_ndx := if ent_ndx < 0 then -ent_ndx else ent_ndx
      if num_var_db ≠ num_var then
        let s := { s with exerrval := H.EX_FATAL }
        ⟨H.EX_FATAL, call_ex_err routine (.num_variables_mismatch exoid) s⟩
      else if tabid = -1 then
        ⟨H.EX_NOERR, probe_loop F c.var_name c.ent_type ent_ndx (List.range num_var.toNat) s⟩
      else
        let g := call_ncvarget F tabid (ent_ndx - 1) 0 1 num_var s
        let s := g.2
        if g.1 = -1 then
          let s := { s with exerrval := s.ncerr }
          ⟨H.EX_FATAL, call_ex_err routine (.failed_to_get_truth_vector exoid) s⟩
        else
          ⟨H.EX_NOERR, s⟩

/-- The state in which the routine leaves the switch for category `c`: after
`ex_id_lkup`, `ex_get_dimension` and the `ncvarid` of the truth table. -/
def after_switch (F : ExoFile) (c : Category) (entity_id : Int) (s : State) : State :=
  (call_ncvarid F c.tab
    (call_ex_get_dimension F c.dim c.label
      (call_ex_id_lkup F c.id_var entity_id { s with exerrval := 0 }).2).2).2

/-- The index the routine works with once the id is looked up: `ent_ndx` after
`if (ent_ndx < 0) ent_ndx = -ent_ndx;`. -/
def resolved_index (F : ExoFile) (c : Category) (entity_id : Int) : Int :=
  if (F.ex_id_lkup c.id_var entity_id).ret < 0 then -(F.ex_id_lkup c.id_var entity_id).ret
  else (F.ex_id_lkup c.id_var entity_id).ret

/-- The events of one call: what the call added to the trace of `s`. -/
def events_of (s : State) (r : Result) : List Event :=
  r.st.trace.drop s.trace.length

/-! ## The error kinds of the specification -/

/-- The five error kinds the specification names. -/
inductive ErrorKind where
  | InvalidCategory
  | EntityNotFound
  | NullEntityWarning
  | VariableCountMismatch
  | ReadFailure
  deriving DecidableEq, Repr

/-- The kind each message of the routine stands for. -/
def ErrMsg.kind : ErrMsg → ErrorKind
  | .invalid_variable_type _ _ => .InvalidCategory
  | .no_variables_for_NULL_block _ _ _ => .NullEntityWarning
  | .failed_to_locate_id _ _ _ => .EntityNotFound
  | .num_variables_mismatch _ => .VariableCountMismatch
  | .failed_to_get_truth_vector _ => .ReadFailure

/-- The kinds a list of events reports: one for each call of `ex_err`. -/
def reported : List Event → List ErrorKind
  | [] => []
  | .ex_err _ msg _ :: rest => msg.kind :: reported rest
  | _ :: rest => reported rest

/-! ## Concrete files for the scenarios -/

/-- A state before a call: stale codes in the globals, every cell of the buffer
holding 5, nothing traced. -/
def s0 : State := ⟨17, -33, fun _ => 5, []⟩

/-- Element block 7 is the third block, four element variables, a stored truth
table whose row 2 is `1 0 1 1`. -/
def storedFile : ExoFile where
  ex_id_lkup := fun _ id => if id = 7 then ⟨3, 0, none⟩ else ⟨1004, 1004, none⟩
  ex_get_dimension := fun _ => ⟨2, 4, none⟩
  ncvarid := fun _ => ⟨9, none⟩
  table := fun _ row col => if row = 2 then [1, 0, 1, 1].getD col.toNat 0 else 0
  ncvarget_fail := fun _ _ _ _ _ => none

/-- No stored truth table, two variables, the entity is the fifth of its kind;
only the variable of ordinal 1 exists for it. -/
def probeFile : ExoFile where
  ex_id_lkup := fun _ _ => ⟨5, 0, none⟩
  ex_get_dimension := fun _ => ⟨2, 2, none⟩
  ncvarid := fun nm =>
    match nm with
    | .ex_catstr2 _ ordinal _ ent_ndx =>
      if ordinal = 1 ∧ ent_ndx = 5 then ⟨11, none⟩ else ⟨-1, some (-49)⟩
    | _ => ⟨-1, some (-49)⟩
  table := fun _ _ _ => 0
  ncvarget_fail := fun _ _ _ _ _ => none

/-- The entity is a null placeholder (the lookup leaves `EX_NULLENTITY` in
`exerrval` and returns the negated index); three variables are recorded. -/
def nullEntityFile : ExoFile where
  ex_id_lkup := fun _ _ => ⟨-2, -1006, none⟩
  ex_get_dimension := fun _ => ⟨2, 3, none⟩
  ncvarid := fun _ => ⟨9, none⟩
  table := fun _ _ _ => 1
  ncvarget_fail := fun _ _ _ _ _ => none

/-- A file without variables of the category and without the entity: the lookup
fails with code 1004, the dimension query fails (code -46), there is no truth
table (code -49). -/
def noVariablesFile : ExoFile where
  ex_id_lkup := fun _ _ => ⟨1004, 1004, none⟩
  ex_get_dimension := fun _ => ⟨-1, 0, some (-46)⟩
  ncvarid := fun _ => ⟨-1, some (-49)⟩
  table := fun _ _ _ => 0
  ncvarget_fail := fun _ _ _ _ _ => none

/-- A file whose truth table cannot be read: the row read gives up with code
-31 after storing two values. -/
def failingReadFile : ExoFile where
  ex_id_lkup := fun _ _ => ⟨3, 0, none⟩
  ex_get_dimension := fun _ => ⟨2, 4, none⟩
  ncvarid := fun _ => ⟨9, none⟩
  table := fun _ _ _ => 1
  ncvarget_fail := fun _ _ _ _ _ => some ⟨-31, [1, 0]⟩

/-- The file `storedFile` read through a lookup that answers with the negated
index for block 7 and reports nothing in `exerrval`. -/
def negatedIndexFile : ExoFile where
  ex_id_lkup := fun _ id => if id = 7 then ⟨-3, 0, none⟩ else ⟨1004, 1004, none⟩
  ex_get_dimension := fun _ => ⟨2, 4, none⟩
  ncvarid := fun _ => ⟨9, none⟩
  table := fun _ row col => if row = 2 then [1, 0, 1, 1].getD col.toNat 0 else 0
  ncvarget_fail := fun _ _ _ _ _ => none

end Exgotv

/-!
The forwarding functions of tools/exolib/exomod/exomod.c.  Each `exm_` function
checks its arguments, marshals buffers and calls the EXODUS II library; it
returns a `const char*` that is `NULL` on success.  The library is not part of
the sources: the answers of the library functions an `exm_` function calls are
arguments of its embedding, and the embedding records the calls it makes.
-/

namespace Exomod

/-! ## Constants, return values and library calls -/

/-- Constants of exodusII.h used by exomod.c.  The header is not among the
sources, so their values are parameters of the embedding. -/
structure ExodusII_h where
  MAX_STR_LENGTH : Nat
  MAX_LINE_LENGTH : Nat
  EX_ELEM_BLOCK : Int
  EX_NODE_SET : Int
  EX_SIDE_SET : Int
  EX_EDGE_BLOCK : Int
  EX_EDGE_SET : Int
  EX_FACE_BLOCK : Int
  EX_FACE_SET : Int
  EX_ELEM_SET : Int
  EX_GLOBAL : Int
  EX_NODAL : Int
  deriving DecidableEq, Repr

/-- The values the published exodusII.h gives to the constants (with `EX_NODAL`
15, as the comment of `exm_put_vars` has it); used where a concrete header is
needed to evaluate a function. -/
def exodusII_h : ExodusII_h :=
  ⟨32, 80, 1, 2, 3, 6, 7, 8, 9, 10, 13, 15⟩

/-- The enumerators of the five set types are pairwise different (they are
enumerators of one C enum with different meanings). -/
def ExodusII_h.set_types_distinct (H : ExodusII_h) : Prop :=
  [H.EX_NODE_SET, H.EX_EDGE_SET, H.EX_FACE_SET, H.EX_SIDE_SET, H.EX_ELEM_SET].Nodup

/-- The macro `MAX_QA_RECORDS` of exomod.c. -/
def MAX_QA_RECORDS : Int := 1024

/-- The `const char*` an `exm_` function returns: `NULL`, a string literal of
exomod.c, or the string built by `exm_get_error_string ()` from the error the
library reports. -/
inductive Ret where
  | NULL
  | literal (msg : String)
  | exm_get_error_string
  deriving DecidableEq, Repr

/-- The record `ex_init_params` of exodusII.h, as far as exomod.c uses it: the
title (a `char [MAX_LINE_LENGTH + 1]`, as its bytes) and the seventeen counts. -/
structure ex_init_params where
  title : List Nat
  num_dim : Int
  num_nodes : Int
  num_edge : Int
  num_edge_blk : Int
  num_face : Int
  num_face_blk : Int
  num_elem : Int
  num_elem_blk : Int
  num_node_sets : Int
  num_edge_sets : Int
  num_face_sets : Int
  num_side_sets : Int
  num_elem_sets : Int
  num_node_maps : Int
  num_edge_maps : Int
  num_face_maps : Int
  num_elem_maps : Int
  deriving DecidableEq, Repr

/-- The library calls of the `exm_` functions embedded here, with the arguments
they are made with.  Pointers into a caller's buffer are byte (or element)
offsets from its start; a null pointer is `none`; a string read by the library
is given by its characters. -/
inductive Call where
  | ex_create (filename : String) (mode comp_ws io_ws : Int)
  | ex_open (filename : String) (mode comp_ws io_ws : Int) (returned : Int)
  | ex_close (exoid : Int)
  | ex_put_init_ext (exoid : Int) (params : ex_init_params)
  | ex_get_init_ext (exoid : Int)
  | ex_get_info (exoid : Int) (infop : List Nat)
  | ex_get_qa (exoid : Int) (qarec : List (List Nat))
  | ex_get_set (exoid st set_id : Int) (auxiliary : Option (List Int))
  | ex_put_set (exoid st set_id : Int) (set_values : List Int) (auxiliary : Option (List Int))
  | ex_get_var (exoid time_step t var_idx block_id num_objects values : Int)
  | ex_put_variable_param (exoid t num_vars : Int)
  | ex_put_variable_names (exoid t num_vars : Int) (names : List (List Nat))
  | ex_get_coord_names (exoid : Int) (coordnames : List (Option Nat))
  deriving DecidableEq, Repr

/-! ## exm_create and exm_open -/

/-- What `exm_create` leaves: the returned string, the content of `*exoid` and
the library calls made. -/
structure CreateResult where
  ret : Ret
  exoid : Int
  calls : List Call
  deriving DecidableEq, Repr

/-- The function `exm_create (filename, mode, convert_word_size, file_word_size,
exoid)`; `ex_create` is the answer of the library (the new file descriptor,
negative on failure) and `exoid` the content of `*exoid` before the call. -/
def exm_create (ex_create : String → Int → Int → Int → Int)
    (filename : String) (mode convert_word_size file_word_size exoid : Int) : CreateResult :=
  if convert_word_size ≠ 4 ∧ convert_word_size ≠ 8 then
    ⟨.literal "invalid 'convert_word_size' given to exm_create()", exoid, []⟩
  else if file_word_size ≠ 4 ∧ file_word_size ≠ 8 then
    ⟨.literal "invalid 'file_word_size' given to exm_create()", exoid, []⟩
  else
    let e := ex_create filename mode convert_word_size file_word_size
    if e < 0 then
      ⟨.exm_get_error_string, e, [.ex_create filename mode convert_word_size file_word_size]⟩
    else
      ⟨.NULL, e, [.ex_create filename mode convert_word_size file_word_size]⟩

/-- Answer of `ex_open (filename, mode, &comp_ws, &io_ws, version)`: the file
descriptor (negative on failure) and the contents of `io_ws` and `*version`
after the call.  The library leaves a compute word size of 4 or 8 as it is. -/
structure OpenAnswer where
  exoid : Int
  io_ws : Int
  version : Rat
  deriving DecidableEq, Repr

/-- What `exm_open` leaves: the returned string, the contents of
`*file_word_size`, `*version` and `*exoid`, and the library calls made. -/
structure OpenResult where
  ret : Ret
  file_word_size : Int
  version : Rat
  exoid : Int
  calls : List Call
  deriving DecidableEq, Repr

/-- The function `exm_open (filename, mode, convert_word_size, file_word_size,
version, exoid)`; `ex_open filename mode comp_ws io_ws` is the answer of the
library and `exoid` the content of `*exoid` before the call.  The `float` in
`*version` is only stored, so it is kept as a number. -/
def exm_open (ex_open : String → Int → Int → Int → OpenAnswer)
    (filename : String) (mode convert_word_size exoid : Int) : OpenResult :=
  -- *file_word_size = 0; *version = 0.0;
  if convert_word_size = 0 then
    let comp_ws : Int := 8
    let a := ex_open filename mode comp_ws 0
    let calls := [Call.ex_open filename mode comp_ws 0 a.exoid]
    if a.exoid < 0 ∨ a.io_ws ≠ comp_ws then
      let calls := if 0 ≤ a.exoid then calls ++ [Call.ex_close a.exoid] else calls
      let comp_ws : Int := 4
      let b := ex_open filename mode comp_ws 0
      let calls := calls ++ [Call.ex_open filename mode comp_ws 0 b.exoid]
      if b.exoid < 0 then
        ⟨.exm_get_error_string, 0, b.version, b.exoid, calls⟩
      else
        ⟨.NULL, b.io_ws, b.version, b.exoid, calls⟩
    else
      if a.exoid < 0 then
        ⟨.exm_get_error_string, 0, a.version, a.exoid, calls⟩
      else
        ⟨.NULL, a.io_ws, a.version, a.exoid, calls⟩
  else if convert_word_size = 4 ∨ convert_word_size = 8 then
    let a := ex_open filename mode convert_word_size 0
    if a.exoid < 0 then
      ⟨.exm_get_error_string, 0, a.version, a.exoid,
        [.ex_open filename mode convert_word_size 0 a.exoid]⟩
    else
      ⟨.NULL, a.io_ws, a.version, a.exoid, [.ex_open filename mode convert_word_size 0 a.exoid]⟩
  else
    ⟨.literal "invalid 'convert_word_size' given to exm_open()", 0, 0, exoid, []⟩

/-- The handles a sequence of library calls leaves open, each with the compute
word size it was opened with: a successful `ex_open` adds its handle, `ex_close`
removes the handle it is given. -/
def open_handles (calls : List Call) : List (Int × Int) :=
  calls.foldl
    (fun hs c =>
      match c with
      | .ex_open _ _ comp_ws _ returned => if 0 ≤ returned then hs ++ [(returned, comp_ws)] else hs
      | .ex_close h => hs.filter (fun x => x.1 ≠ h)
      | _ => hs)
    []

/-! ## exm_get_set and exm_put_set -/

/-- Answer of `ex_get_set (exoid, st, set_id, set_values, auxiliary)`: the status
and what the library stores through the two pointers (through `auxiliary` only
when it is not null). -/
structure GetSetAnswer where
  status : Int
  set_values : List Int
  auxiliary : List Int
  deriving DecidableEq, Repr

/-- What `exm_get_set` leaves: the returned string, the caller's two buffers and
the library calls made. -/
structure GetSetResult where
  ret : Ret
  set_values : List Int
  auxiliary : List Int
  calls : List Call
  deriving DecidableEq, Repr

/-- The function `exm_get_set (exoid, set_type, set_id, set_values, auxiliary)`.
The library is given the set type, the set id, the buffer `set_values` and the
auxiliary buffer or a null pointer (`none`); `set_values` and `auxiliary` are
the contents of the caller's buffers before the call. -/
def exm_get_set (H : ExodusII_h)
    (ex_get_set : Int → Int → Int → List Int → Option (List Int) → GetSetAnswer)
    (exoid set_type set_id : Int) (set_values auxiliary : List Int) : GetSetResult :=
  let run := fun (st : Int) (aux : Option (List Int)) =>
    let a := ex_get_set exoid st set_id set_values aux
    let auxiliary := match aux with
      | none => auxiliary
      | some _ => a.auxiliary
    if a.status < 0 then
      (⟨.exm_get_error_string, a.set_values, auxiliary, [.ex_get_set exoid st set_id aux]⟩ :
        GetSetResult)
    else
      ⟨.NULL, a.set_values, auxiliary, [.ex_get_set exoid st set_id aux]⟩
  if set_type = H.EX_NODE_SET then run H.EX_NODE_SET none
  else if set_type = H.EX_EDGE_SET then run H.EX_EDGE_SET (some auxiliary)
  else if set_type = H.EX_FACE_SET then run H.EX_FACE_SET (some auxiliary)
  else if set_type = H.EX_SIDE_SET then run H.EX_SIDE_SET (some auxiliary)
  else if set_type = H.EX_ELEM_SET then run H.EX_ELEM_SET none
  else ⟨.literal "invalid set type given to exm_get_set()", set_values, auxiliary, []⟩

/-- What `exm_put_set` leaves: the returned string and the library calls made
(its buffers are `const`). -/
structure PutSetResult where
  ret : Ret
  calls : List Call
  deriving DecidableEq, Repr

/-- The function `exm_put_set (exoid, set_type, set_id, set_values, auxiliary)`;
`ex_put_set` is the status the library answers with. -/
def exm_put_set (H : ExodusII_h)
    (ex_put_set : Int → Int → Int → List Int → Option (List Int) → Int)
    (exoid set_type set_id : Int) (set_values auxiliary : List Int) : PutSetResult :=
  let run := fun (st : Int) (aux : Option (List Int)) =>
    if ex_put_set exoid st set_id set_values aux < 0 then
      (⟨.exm_get_error_string, [.ex_put_set exoid st set_id set_values aux]⟩ : PutSetResult)
    else
      ⟨.NULL, [.ex_put_set exoid st set_id set_values aux]⟩
  if set_type = H.EX_NODE_SET then run H.EX_NODE_SET none
  else if set_type = H.EX_EDGE_SET then run H.EX_EDGE_SET (some auxiliary)
  else if set_type = H.EX_FACE_SET then run H.EX_FACE_SET (some auxiliary)
  else if set_type = H.EX_SIDE_SET then run H.EX_SIDE_SET (some auxiliary)
  else if set_type = H.EX_ELEM_SET then run H.EX_ELEM_SET none
  else ⟨.literal "invalid set type given to exm_get_set()", []⟩

/-! ## Character buffers -/

/-- The byte at offset `a` of a buffer. -/
def peek (mem : List Nat) (a : Nat) : Nat := mem.getD a 0

/-- The assignment `mem[a] = v`. -/
def poke (mem : List Nat) (a v : Nat) : List Nat := mem.set a v

/-- The C string that starts a sequence of bytes: the bytes before the first
NUL. -/
def cstring (src : List Nat) : List Nat := src.takeWhile (· ≠ 0)

/-- The call `strlen (mem + p)`: the number of bytes from offset `p` to the next
NUL (to the end of the buffer if there is none; C would read on). -/
def strlen (mem : List Nat) (p : Nat) : Nat := (cstring (mem.drop p)).length

/-- The loop `for (k = k0; k < k0 + count; ++k) (mem + p)[k] = 0`. -/
def fill_zero (mem : List Nat) (p : Nat) : Nat → Nat → List Nat
  | _, 0 => mem
  | k, count + 1 => fill_zero (poke mem (p + k) 0) p (k + 1) count

/-- The `n` bytes that `strncpy (dest, src, n)` stores at `dest`: the characters
of the string `src`, at most `n`, then NULs up to `n` bytes. -/
def strncpy_bytes (src : List Nat) (n : Nat) : List Nat :=
  (cstring src).take n ++ List.replicate (n - ((cstring src).take n).length) 0

/-- The call `strncpy (dest, src, n)` on a buffer `dest` of at least `n` bytes. -/
def strncpy (dest src : List Nat) (n : Nat) : List Nat :=
  strncpy_bytes src n ++ dest.drop n

/-! ## exm_put_init and exm_get_init -/

/-- The record `exm_put_init` builds from its arguments: `strncpy` of the title
into the local `ex_params.title`, a NUL at `MAX_LINE_LENGTH`, and the seventeen
assignments from `counts`. -/
def put_init_params (H : ExodusII_h) (title : List Nat) (counts : Nat → Int) : ex_init_params where
  title := strncpy_bytes title H.MAX_LINE_LENGTH ++ [0]
  num_dim := counts 0
  num_nodes := counts 1
  num_edge := counts 2
  num_edge_blk := counts 3
  num_face := counts 4
  num_face_blk := counts 5
  num_elem := counts 6
  num_elem_blk := counts 7
  num_node_sets := counts 8
  num_edge_sets := counts 9
  num_face_sets := counts 10
  num_side_sets := counts 11
  num_elem_sets := counts 12
  num_node_maps := counts 13
  num_edge_maps := counts 14
  num_face_maps := counts 15
  num_elem_maps := counts 16

/-- The function `exm_put_init (exoid, title, counts)`: the returned string and
the library call; `ex_put_init_ext` is the status the library answers with. -/
def exm_put_init (H : ExodusII_h) (ex_put_init_ext : Int → ex_init_params → Int)
    (exoid : Int) (title : List Nat) (counts : Nat → Int) : Ret × List Call :=
  let ex_params := put_init_params H title counts
  if ex_put_init_ext exoid ex_params < 0 then
    (.exm_get_error_string, [.ex_put_init_ext exoid ex_params])
  else
    (.NULL, [.ex_put_init_ext exoid ex_params])

/-- What `exm_get_init` leaves: the returned string, the caller's `title` buffer
and `counts` array, and the library calls made. -/
structure GetInitResult where
  ret : Ret
  title : List Nat
  counts : Nat → Int
  calls : List Call

/-- The assignments `counts[i] = v`, in order. -/
def assign (counts : Nat → Int) (vals : List (Nat × Int)) : Nat → Int :=
  vals.foldl (fun c iv => Function.update c iv.1 iv.2) counts

/-- The function `exm_get_init (exoid, title, counts)`; `ex_get_init_ext` is the
answer of the library (status and the record it fills), `title` and `counts` are
the contents of the caller's buffers before the call. -/
def exm_get_init (H : ExodusII_h) (ex_get_init_ext : Int → Int × ex_init_params)
    (exoid : Int) (title : List Nat) (counts : Nat → Int) : GetInitResult :=
  let a := ex_get_init_ext exoid
  let ex_params := a.2
  if 0 ≤ a.1 then
    let title := strncpy title ex_params.title H.MAX_LINE_LENGTH
    let title := poke title H.MAX_LINE_LENGTH 0
    let title := fill_zero title 0 (strlen title 0) (H.MAX_LINE_LENGTH - strlen title 0)
    let counts := assign counts
      [(0, ex_params.num_dim), (1, ex_params.num_nodes), (2, ex_params.num_edge),
        (3, ex_params.num_edge_blk), (4, ex_params.num_face), (5, ex_params.num_face_blk),
        (6, ex_params.num_elem), (7, ex_params.num_elem_blk), (8, ex_params.num_node_sets),
        (9, ex_params.num_edge_sets), (10, ex_params.num_face_sets),
        (11, ex_params.num_side_sets), (12, ex_params.num_elem_sets),
        (13, ex_params.num_node_maps), (14, ex_params.num_edge_maps),
        (15, ex_params.num_face_maps), (16, ex_params.num_elem_maps)]
    ⟨.NULL, title, counts, [.ex_get_init_ext exoid]⟩
  else
    ⟨.exm_get_error_string, title, counts, [.ex_get_init_ext exoid]⟩

/-! ## exm_get_block_var -/

/-- Answer of `ex_get_var (exoid, time_step, t, var_idx, block_id, num_objects,
values)`: the status and the values the library reads for the block, the `i`-th
for its `i`-th object.  On a status that is not negative the library has stored
the first `num_objects` of them at `values`. -/
structure GetVarAnswer (V : Type) where
  status : Int
  vals : Nat → V

/-- The size of a `float` in bytes. -/
def sizeof_float : Int := 4

/-- The size of a `double` in bytes. -/
def sizeof_double : Int := 8

/-- Storing `f i, f (i+1), ...`, `count` of them, as the elements `i, i+1, ...`
of an array of elements of `w` bytes that starts at byte offset `p`: the loop
`for (; i < n; ++i) vals[i] = ...`.  The buffer `values` is given by the value of
the element that starts at each byte offset. -/
def store_elems {V : Type} (p w : Int) (f : Nat → V) : Nat → Nat → (Int → V) → (Int → V)
  | _, 0, mem => mem
  | i, count + 1, mem => store_elems p w f (i + 1) count (Function.update mem (p + w * i) (f i))

/-- What `exm_get_block_var` leaves: the returned string, the buffer `values`
and the library calls made. -/
structure BlockVarResult (V : Type) where
  ret : Ret
  values : Int → V
  calls : List Call

/-- The `if ... else if` chain of `exm_get_block_var` that sets `t` from
`var_type`; `none` stands for the final `else`. -/
def block_var_type (H : ExodusII_h) (var_type : Int) : Option Int :=
  if var_type = H.EX_ELEM_BLOCK then some H.EX_ELEM_BLOCK
  else if var_type = H.EX_EDGE_BLOCK then some H.EX_EDGE_BLOCK
  else if var_type = H.EX_FACE_BLOCK then some H.EX_FACE_BLOCK
  else if var_type = H.EX_NODE_SET then some H.EX_NODE_SET
  else if var_type = H.EX_EDGE_SET then some H.EX_EDGE_SET
  else if var_type = H.EX_FACE_SET then some H.EX_FACE_SET
  else if var_type = H.EX_ELEM_SET then some H.EX_ELEM_SET
  else if var_type = H.EX_SIDE_SET then some H.EX_SIDE_SET
  else none

/-- The loop `for (b = 0; b < num_ids; ++b)` of `exm_get_block_var`, from block
`b` on with `count` blocks to go; `values` is the pointer `values` as a byte
offset from the start of the caller's buffer.  The library stores in elements of
the type that `storage` names. -/
def block_var_loop {V : Type} [Zero V]
    (ex_get_var : Int → Int → Int → Int → Int → Int → GetVarAnswer V)
    (exoid time_step t var_idx : Int) (block_ids num_objects is_stored : Nat → Int)
    (storage : Char) : Nat → Nat → Int → (Int → V) → List Call → BlockVarResult V
  | _, 0, _, mem, calls => ⟨.NULL, mem, calls⟩
  | b, count + 1, values, mem, calls =>
    let next := if storage = 'f' then values + sizeof_float * num_objects b
      else values + sizeof_double * num_objects b
    if is_stored b ≠ 0 then
      let a := ex_get_var exoid time_step t var_idx (block_ids b) (num_objects b)
      let calls := calls ++
        [.ex_get_var exoid time_step t var_idx (block_ids b) (num_objects b) values]
      if a.status < 0 then
        ⟨.exm_get_error_string, mem, calls⟩
      else
        block_var_loop ex_get_var exoid time_step t var_idx block_ids num_objects is_stored
          storage (b + 1) count next
          (store_elems values (if storage = 'f' then sizeof_float else sizeof_double) a.vals 0
            (num_objects b).toNat mem)
          calls
    else if storage = 'f' then
      block_var_loop ex_get_var exoid time_step t var_idx block_ids num_objects is_stored
        storage (b + 1) count next
        (store_elems values sizeof_float (fun _ => 0) 0 (num_objects b).toNat mem) calls
    else
      block_var_loop ex_get_var exoid time_step t var_idx block_ids num_objects is_stored
        storage (b + 1) count next
        (store_elems values sizeof_double (fun _ => 0) 0 (num_objects b).toNat mem) calls

/-- The function `exm_get_block_var (exoid, time_step, var_type, var_idx, num_ids,
block_ids, num_objects, is_stored, storage, values)`; `mem` is the content of
the buffer `values` before the call. -/
def exm_get_block_var {V : Type} [Zero V] (H : ExodusII_h)
    (ex_get_var : Int → Int → Int → Int → Int → Int → GetVarAnswer V)
    (exoid time_step var_type var_idx num_ids : Int)
    (block_ids num_objects is_stored : Nat → Int) (storage : Char) (mem : Int → V) :
    BlockVarResult V :=
  if 0 < num_ids then
    match block_var_type H var_type with
    | none => ⟨.literal "invalid variable type given to exm_get_block_var()", mem, []⟩
    | some t =>
      block_var_loop ex_get_var exoid time_step t var_idx block_ids num_objects is_stored
        storage 0 num_ids.toNat 0 mem []
  else
    ⟨.NULL, mem, []⟩

/-- The element offset of the segment of block `b`:
`num_objects[0] + ... + num_objects[b-1]`. -/
def segment_offset (num_objects : Nat → Int) : Nat → Int
  | 0 => 0
  | b + 1 => segment_offset num_objects b + num_objects b

/-- The width of the elements of `values`: that of `float` when `storage` is
`'f'`, that of `double` otherwise. -/
def element_width (storage : Char) : Int :=
  if storage = 'f' then sizeof_float else sizeof_double

/-- A library that reads the value `100 * block_id + i` for object `i` of a
block. -/
def someVar : Int → Int → Int → Int → Int → Int → GetVarAnswer Int :=
  fun _ _ _ _ block_id _ => ⟨0, fun i => 100 * block_id + i⟩

/-! ## exm_get_info and exm_get_qa -/

/-- A caller's character buffer after a library call that was handed pointers
into it: the library may have stored any byte anywhere in it; `cells a` is the
byte at offset `a` after the call. -/
def lib_store (mem : List Nat) (cells : Nat → Nat) : List Nat :=
  (List.range mem.length).map cells

/-- What an `exm_` function with one character buffer leaves: the returned
string, the buffer and the library calls made. -/
structure BufResult where
  ret : Ret
  buf : List Nat
  calls : List Call
  deriving DecidableEq, Repr

/-- The loop `for (k = strlen (infop[i]); k <= MAX_LINE_LENGTH; ++k)
infop[i][k] = 0` for the line at offset `p`. -/
def pad_line (H : ExodusII_h) (mem : List Nat) (p : Nat) : List Nat :=
  fill_zero mem p (strlen mem p) (H.MAX_LINE_LENGTH + 1 - strlen mem p)

/-- The function `exm_get_info (exoid, num_info, info)`; `ex_get_info exoid infop
info` is the answer of the library to the call with the pointer table `infop`
(offsets into `info`): its status and the bytes of the buffer after the call. -/
def exm_get_info (H : ExodusII_h) (ex_get_info : Int → List Nat → List Nat → Int × (Nat → Nat))
    (exoid num_info : Int) (info : List Nat) : BufResult :=
  if 0 < num_info then
    let infop := (List.range num_info.toNat).map fun i => i * (H.MAX_LINE_LENGTH + 1)
    let a := ex_get_info exoid infop info
    let info := lib_store info a.2
    if a.1 < 0 then
      ⟨.exm_get_error_string, info, [.ex_get_info exoid infop]⟩
    else
      ⟨.NULL, infop.foldl (pad_line H) info, [.ex_get_info exoid infop]⟩
  else
    ⟨.NULL, info, []⟩

/-- The statements `qarec[i][j][MAX_STR_LENGTH] = 0; for (k = strlen
(qarec[i][j]); k < MAX_STR_LENGTH; ++k) qarec[i][j][k] = 0;` for the entry at
offset `p`. -/
def terminate_entry (H : ExodusII_h) (mem : List Nat) (p : Nat) : List Nat :=
  fill_zero (poke mem (p + H.MAX_STR_LENGTH) 0) p
    (strlen (poke mem (p + H.MAX_STR_LENGTH) 0) p)
    (H.MAX_STR_LENGTH - strlen (poke mem (p + H.MAX_STR_LENGTH) 0) p)

/-- The pointer table `qarec[i][j] = qabuf + i*4*(MAX_STR_LENGTH+1) +
j*(MAX_STR_LENGTH+1)` for `i < nrec`, `j < 4`, as offsets into `qabuf`. -/
def qarec (H : ExodusII_h) (nrec : Nat) : List (List Nat) :=
  (List.range nrec).map fun i =>
    (List.range 4).map fun j => i * 4 * (H.MAX_STR_LENGTH + 1) + j * (H.MAX_STR_LENGTH + 1)

/-- The function `exm_helper_get_qa_8 (exoid, nrec, qabuf)`: the status of
`ex_get_qa`, the buffer and the library call.  `ex_get_qa exoid qarec qabuf` is
the answer of the library: its status and the bytes of the buffer after the
call.  The two nested loops go through the table row by row. -/
def exm_helper_get_qa_8 (H : ExodusII_h)
    (ex_get_qa : Int → List (List Nat) → List Nat → Int × (Nat → Nat))
    (exoid nrec : Int) (qabuf : List Nat) : Int × List Nat × List Call :=
  let a := ex_get_qa exoid (qarec H nrec.toNat) qabuf
  let qabuf := lib_store qabuf a.2
  if 0 ≤ a.1 then
    (a.1, (qarec H nrec.toNat).flatten.foldl (terminate_entry H) qabuf,
      [.ex_get_qa exoid (qarec H nrec.toNat)])
  else
    (a.1, qabuf, [.ex_get_qa exoid (qarec H nrec.toNat)])

/-- The function `exm_helper_get_qa_alloc (exoid, nrec, qabuf)`: the same
statements as `exm_helper_get_qa_8` with the table in allocated memory. -/
def exm_helper_get_qa_alloc (H : ExodusII_h)
    (ex_get_qa : Int → List (List Nat) → List Nat → Int × (Nat → Nat))
    (exoid nrec : Int) (qabuf : List Nat) : Int × List Nat × List Call :=
  let a := ex_get_qa exoid (qarec H nrec.toNat) qabuf
  let qabuf := lib_store qabuf a.2
  if 0 ≤ a.1 then
    (a.1, (qarec H nrec.toNat).flatten.foldl (terminate_entry H) qabuf,
      [.ex_get_qa exoid (qarec H nrec.toNat)])
  else
    (a.1, qabuf, [.ex_get_qa exoid (qarec H nrec.toNat)])

/-- The function `exm_get_qa (exoid, num_qa, qabuf)`. -/
def exm_get_qa (H : ExodusII_h)
    (ex_get_qa : Int → List (List Nat) → List Nat → Int × (Nat → Nat))
    (exoid num_qa : Int) (qabuf : List Nat) : BufResult :=
  if 0 < num_qa then
    if num_qa ≤ 8 then
      let r := exm_helper_get_qa_8 H ex_get_qa exoid num_qa qabuf
      if r.1 < 0 then ⟨.exm_get_error_string, r.2.1, r.2.2⟩ else ⟨.NULL, r.2.1, r.2.2⟩
    else if num_qa < MAX_QA_RECORDS then
      let r := exm_helper_get_qa_alloc H ex_get_qa exoid num_qa qabuf
      if r.1 < 0 then ⟨.exm_get_error_string, r.2.1, r.2.2⟩ else ⟨.NULL, r.2.1, r.2.2⟩
    else
      ⟨.literal "maximum number of QA records exceeded for exomod.c", qabuf, []⟩
  else if num_qa < 0 then
    ⟨.literal "argument 'num_qa' was negative sent into exm_get_qa()", qabuf, []⟩
  else
    ⟨.NULL, qabuf, []⟩

/-- A library that stores the character 65 in every byte of the buffer it is
handed pointers into, and answers with status 0. -/
def fillWithA : Int × (Nat → Nat) := (0, fun _ => 65)

/-- A library that stores the line "Hi" (NUL-terminated) at the start of a
buffer and the character 65 everywhere else, and answers with status 0. -/
def lineHi : Int × (Nat → Nat) :=
  (0, fun a => if a = 0 then 72 else if a = 1 then 105 else if a = 2 then 0 else 65)

/-! ## exm_put_vars -/

/-- The `if ... else if` chain of `exm_put_vars` that sets `t` from `var_type`;
`none` stands for the final `else`. -/
def put_vars_type (H : ExodusII_h) (var_type : Int) : Option Int :=
  if var_type = H.EX_GLOBAL then some H.EX_GLOBAL
  else if var_type = 15 then some H.EX_NODAL
  else if var_type = H.EX_ELEM_BLOCK then some H.EX_ELEM_BLOCK
  else if var_type = H.EX_EDGE_BLOCK then some H.EX_EDGE_BLOCK
  else if var_type = H.EX_FACE_BLOCK then some H.EX_FACE_BLOCK
  else if var_type = H.EX_NODE_SET then some H.EX_NODE_SET
  else if var_type = H.EX_EDGE_SET then some H.EX_EDGE_SET
  else if var_type = H.EX_FACE_SET then some H.EX_FACE_SET
  else if var_type = H.EX_ELEM_SET then some H.EX_ELEM_SET
  else if var_type = H.EX_SIDE_SET then some H.EX_SIDE_SET
  else none

/-- The loop `for (j = 0; j < num_vars; ++j)` of `exm_put_vars` with `count` names
to go: `namebuf` is the pointer `namebuf` as an offset into the caller's buffer
`mem`, `names` the pointers stored so far.  The result is the table `names` and
the buffer. -/
def name_loop (H : ExodusII_h) : Nat → Nat → List Nat → List Nat → List Nat × List Nat
  | 0, _, mem, names => (names, mem)
  | count + 1, namebuf, mem, names =>
    name_loop H count (namebuf + (strlen mem namebuf + 1))
      (if H.MAX_STR_LENGTH < strlen mem namebuf then poke mem (namebuf + H.MAX_STR_LENGTH) 0
        else mem)
      (names ++ [namebuf])

/-- The function `exm_put_vars (exoid, var_type, num_vars, namebuf)`;
`ex_put_variable_param` and `ex_put_variable_names` are the statuses the library
answers with.  The library reads each name as the string at its pointer. -/
def exm_put_vars (H : ExodusII_h) (ex_put_variable_param : Int → Int → Int → Int)
    (ex_put_variable_names : Int → Int → Int → List (List Nat) → Int)
    (exoid var_type num_vars : Int) (namebuf : List Nat) : BufResult :=
  match put_vars_type H var_type with
  | none => ⟨.literal "invalid var type given to exm_put_vars()", namebuf, []⟩
  | some t =>
    let names_part := fun (calls : List Call) =>
      if 0 < num_vars then
        let r := name_loop H num_vars.toNat 0 namebuf []
        let names := r.1.map fun p => cstring (r.2.drop p)
        if ex_put_variable_names exoid t num_vars names < 0 then
          (⟨.exm_get_error_string, r.2,
            calls ++ [.ex_put_variable_names exoid t num_vars names]⟩ : BufResult)
        else
          ⟨.NULL, r.2, calls ++ [.ex_put_variable_names exoid t num_vars names]⟩
      else
        ⟨.NULL, namebuf, calls⟩
    if 0 ≤ num_vars then
      if ex_put_variable_param exoid t num_vars < 0 then
        ⟨.exm_get_error_string, namebuf, [.ex_put_variable_param exoid t num_vars]⟩
      else
        names_part [.ex_put_variable_param exoid t num_vars]
    else if num_vars < 0 then
      ⟨.literal "number of variables is negative given to exm_put_vars()", namebuf, []⟩
    else
      names_part []

/-- A name buffer made of the names `ss`, each followed by its NUL. -/
def name_buffer (ss : List (List Nat)) : List Nat :=
  (ss.map (· ++ [0])).flatten

/-- A name with a NUL stored at offset `MAX_STR_LENGTH` when it is longer than
`MAX_STR_LENGTH`. -/
def truncate_name (H : ExodusII_h) (s : List Nat) : List Nat :=
  if H.MAX_STR_LENGTH < s.length then poke s H.MAX_STR_LENGTH 0 else s

/-- The offsets at which the names `ss` start in a buffer in which the first
starts at `p`. -/
def name_offsets : Nat → List (List Nat) → List Nat
  | _, [] => []
  | p, s :: ss => p :: name_offsets (p + s.length + 1) ss

/-! ## exm_get_coord_names -/

/-- The characters of a string literal of exomod.c as bytes (the literals are
ASCII), without the closing NUL. -/
def literal_bytes (s : String) : List Nat :=
  s.toList.map Char.toNat

/-- The call `strcpy (dest, src)` on a buffer `dest` with room for the string
`src` and its NUL: the string, a NUL, and the rest of `dest` as it was. -/
def strcpy (dest src : List Nat) : List Nat :=
  cstring src ++ 0 :: dest.drop ((cstring src).length + 1)

/-- The table `coordnames` of `exm_get_coord_names` when the library is called:
`{ names, ndim > 1 ? names + (MAX_STR_LENGTH+1) : 0, ndim > 2 ? names +
2*(MAX_STR_LENGTH+1) : 0 }`, as offsets into `names`. -/
def coordnames (H : ExodusII_h) (ndim : Int) : List (Option Nat) :=
  [some 0,
    if 1 < ndim then some (H.MAX_STR_LENGTH + 1) else none,
    if 2 < ndim then some (2 * (H.MAX_STR_LENGTH + 1)) else none]

/-- The function `exm_get_coord_names (exoid, ndim, names)`; `ex_get_coord_names
exoid coordnames names` is the answer of the library to the call with the
pointer table `coordnames`: its status and the bytes of the buffer after the
call.  The body of the loop over `i < ndim` holds the statements of
`terminate_entry`, for the entry at `coordnames[i]`. -/
def exm_get_coord_names (H : ExodusII_h)
    (ex_get_coord_names : Int → List (Option Nat) → List Nat → Int × (Nat → Nat))
    (exoid ndim : Int) (names : List Nat) : BufResult :=
  if 0 < ndim ∧ ndim ≤ 3 then
    let a := ex_get_coord_names exoid (coordnames H ndim) names
    let names := lib_store names a.2
    if a.1 = 0 then
      ⟨.NULL,
        (((coordnames H ndim).take ndim.toNat).filterMap id).foldl (terminate_entry H) names,
        [.ex_get_coord_names exoid (coordnames H ndim)]⟩
    else if 0 < a.1 then
      ⟨.NULL, strcpy names (literal_bytes "_not_stored_"),
        [.ex_get_coord_names exoid (coordnames H ndim)]⟩
    else
      ⟨.exm_get_error_string, names, [.ex_get_coord_names exoid (coordnames H ndim)]⟩
  else
    ⟨.literal "invalid spatial dimension given to exm_get_coord_names()", names, []⟩

/-! ## Concrete libraries for the scenarios -/

/-- A library answer for `ex_get_set`: status 0, two set values, two auxiliary
values. -/
def someSet : Int → Int → Int → List Int → Option (List Int) → GetSetAnswer :=
  fun _ _ _ _ _ => ⟨0, [11, 12], [1, -1]⟩

/-- A file that stores doubles and an `ex_open` that fails when asked for a
compute word size of 8 and opens the file (descriptor 5) when asked for 4. -/
def doubleFileFailingFirst : String → Int → Int → Int → OpenAnswer :=
  fun _ _ comp_ws _ => if comp_ws = 8 then ⟨-1, 0, 0⟩ else ⟨5, 8, 2⟩

/-- A file that stores floats: every `ex_open` succeeds and reports a word size
of 4; the descriptor is 3 for a compute word size of 8 and 4 otherwise. -/
def floatFile : String → Int → Int → Int → OpenAnswer :=
  fun _ _ comp_ws _ => if comp_ws = 8 then ⟨3, 4, 2⟩ else ⟨4, 4, 2⟩

/-- A library whose `ex_get_init_ext` hands back the record that `exm_put_init`
builds from the title "Hi" and the counts 1, 2, ..., 17. -/
def echoInit : Int → Int × ex_init_params :=
  fun _ => (0, put_init_params exodusII_h [72, 105] (fun i => (i : Int) + 1))

/-- A library that finds no coordinate names in the file: it stores nothing
but the character 65 in every byte and answers with the positive status 1. -/
def namesNotStored : Int → List (Option Nat) → List Nat → Int × (Nat → Nat) :=
  fun _ _ _ => (1, fun _ => 65)

end Exomod

/-!
The Python bindings of the forwarding functions (tools/exolib/exomod/exomod_lib.c).

The file declares the `exm_` functions of exomod.c, defines for each a doc
string and a wrapper that parses the arguments and calls it, and lists the
wrappers in the method table of the module.  The embedding is the content of
these declarations, by name.
-/

namespace ExomodLib

/-! ## The functions of exomod.c and the declarations of exomod_lib.c -/

/-- A function defined in exomod.c: its name, and whether the comment before it
holds a `GENMOD: DOC:` block (which then starts with the name of the function). -/
structure CFunction where
  name : String
  genmod_doc : Bool
  deriving DecidableEq, Repr

/-- The functions defined in exomod.c, in the order of the file. -/
def exomod_c : List CFunction :=
  [⟨"exm_get_error_string", false⟩, ⟨"exm_create", true⟩, ⟨"exm_open", true⟩, ⟨"exm_close", true⟩,
   ⟨"exm_get_init", true⟩, ⟨"exm_inquire_counts", true⟩, ⟨"exm_get_info", true⟩,
   ⟨"exm_get_ids", true⟩, ⟨"exm_get_block", true⟩, ⟨"exm_get_set_param", true⟩,
   ⟨"exm_helper_get_qa_8", false⟩, ⟨"exm_helper_get_qa_alloc", false⟩, ⟨"exm_get_qa", true⟩,
   ⟨"exm_get_all_times", true⟩, ⟨"exm_get_var_params", true⟩, ⟨"exm_get_all_var_names", true⟩,
   ⟨"exm_get_truth_table", true⟩, ⟨"exm_get_coord_names", true⟩, ⟨"exm_get_coord", true⟩,
   ⟨"exm_get_conn", true⟩, ⟨"exm_get_set", true⟩, ⟨"exm_get_set_dist_fact", true⟩,
   ⟨"exm_get_map", true⟩, ⟨"exm_get_glob_vars", true⟩, ⟨"exm_get_nodal_var", true⟩,
   ⟨"exm_get_var", true⟩, ⟨"exm_get_block_var", true⟩, ⟨"exm_get_var_time", true⟩,
   ⟨"exm_put_init", true⟩, ⟨"exm_helper_put_qa_8", false⟩, ⟨"exm_helper_put_qa_alloc", false⟩,
   ⟨"exm_put_qa", true⟩, ⟨"exm_put_info", true⟩, ⟨"exm_put_coord_names", true⟩,
   ⟨"exm_put_coord", true⟩, ⟨"exm_put_block", true⟩, ⟨"exm_put_conn", true⟩,
   ⟨"exm_put_set_param", true⟩, ⟨"exm_put_set", true⟩, ⟨"exm_put_set_dist_fact", true⟩,
   ⟨"exm_put_map", true⟩, ⟨"exm_put_vars", true⟩, ⟨"exm_put_truth_table", true⟩,
   ⟨"exm_put_time", true⟩, ⟨"exm_put_glob_vars", true⟩, ⟨"exm_put_nodal_var", true⟩,
   ⟨"exm_put_var", true⟩]

/-- The prototypes `const char * exm_... (...)` at the head of exomod_lib.c, by
the name of the function declared, in the order of the file. -/
def prototypes : List String :=
  ["exm_create", "exm_open", "exm_close", "exm_get_init", "exm_inquire_counts", "exm_get_info",
   "exm_get_ids", "exm_get_block", "exm_get_set_param", "exm_get_qa", "exm_get_all_times",
   "exm_get_var_params", "exm_get_all_var_names", "exm_get_truth_table", "exm_get_coord_names",
   "exm_get_coord", "exm_get_conn", "exm_get_set", "exm_get_set_dist_fact", "exm_get_map",
   "exm_get_glob_vars", "exm_get_nodal_var", "exm_get_var", "exm_get_block_var",
   "exm_get_var_time", "exm_put_init", "exm_put_qa", "exm_put_info", "exm_put_coord_names",
   "exm_put_coord", "exm_put_block", "exm_put_conn", "exm_put_set_param", "exm_put_set",
   "exm_put_set_dist_fact", "exm_put_map", "exm_put_vars", "exm_put_truth_table", "exm_put_time",
   "exm_put_glob_vars", "exm_put_nodal_var", "exm_put_var"]

/-- The character arrays `static char ..._lib_doc[]` defined in exomod_lib.c, in
the order of the file. -/
def doc_strings : List String :=
  ["exm_create_lib_doc", "exm_open_lib_doc", "exm_close_lib_doc", "exm_get_init_lib_doc",
   "exm_inquire_counts_lib_doc", "exm_get_info_lib_doc", "exm_get_ids_lib_doc",
   "exm_get_block_lib_doc", "exm_get_set_param_lib_doc", "exm_get_qa_lib_doc",
   "exm_get_all_times_lib_doc", "exm_get_var_params_lib_doc", "exm_get_all_var_names_lib_doc",
   "exm_get_truth_table_lib_doc", "exm_get_coord_names_lib_doc", "exm_get_coord_lib_doc",
   "exm_get_conn_lib_doc", "exm_get_set_lib_doc", "exm_get_set_dist_fact_lib_doc",
   "exm_get_map_lib_doc", "exm_get_glob_vars_lib_doc", "exm_get_nodal_var_lib_doc",
   "exm_get_var_lib_doc", "exm_get_block_var_lib_doc", "exm_get_var_time_lib_doc",
   "exm_put_init_lib_doc", "exm_put_qa_lib_doc", "exm_put_info_lib_doc",
   "exm_put_coord_names_lib_doc", "exm_put_coord_lib_doc", "exm_put_block_lib_doc",
   "exm_put_conn_lib_doc", "exm_put_set_param_lib_doc", "exm_put_set_lib_doc",
   "exm_put_set_dist_fact_lib_doc", "exm_put_map_lib_doc", "exm_put_vars_lib_doc",
   "exm_put_truth_table_lib_doc", "exm_put_time_lib_doc", "exm_put_glob_vars_lib_doc",
   "exm_put_nodal_var_lib_doc", "exm_put_var_lib_doc"]

/-- A wrapper `static PyObject * name (PyObject* self, PyObject* args)` of
exomod_lib.c: its name and the function of exomod.c it calls (each wrapper
holds one call, `serr = exm_... (...)`). -/
structure Wrapper where
  name : String
  calls : String
  deriving DecidableEq, Repr

/-- The wrappers defined in exomod_lib.c, in the order of the file. -/
def wrappers : List Wrapper :=
  [⟨"exm_create_lib", "exm_create"⟩, ⟨"exm_open_lib", "exm_open"⟩, ⟨"exm_close_lib", "exm_close"⟩,
   ⟨"exm_get_init_lib", "exm_get_init"⟩, ⟨"exm_inquire_counts_lib", "exm_inquire_counts"⟩,
   ⟨"exm_get_info_lib", "exm_get_info"⟩, ⟨"exm_get_ids_lib", "exm_get_ids"⟩,
   ⟨"exm_get_block_lib", "exm_get_block"⟩, ⟨"exm_get_set_param_lib", "exm_get_set_param"⟩,
   ⟨"exm_get_qa_lib", "exm_get_qa"⟩, ⟨"exm_get_all_times_lib", "exm_get_all_times"⟩,
   ⟨"exm_get_var_params_lib", "exm_get_var_params"⟩,
   ⟨"exm_get_all_var_names_lib", "exm_get_all_var_names"⟩,
   ⟨"exm_get_truth_table_lib", "exm_get_truth_table"⟩,
   ⟨"exm_get_coord_names_lib", "exm_get_coord_names"⟩, ⟨"exm_get_coord_lib", "exm_get_coord"⟩,
   ⟨"exm_get_conn_lib", "exm_get_conn"⟩, ⟨"exm_get_set_lib", "exm_get_set"⟩,
   ⟨"exm_get_set_dist_fact_lib", "exm_get_set_dist_fact"⟩, ⟨"exm_get_map_lib", "exm_get_map"⟩,
   ⟨"exm_get_glob_vars_lib", "exm_get_glob_vars"⟩, ⟨"exm_get_nodal_var_lib", "exm_get_nodal_var"⟩,
   ⟨"exm_get_var_lib", "exm_get_var"⟩, ⟨"exm_get_block_var_lib", "exm_get_block_var"⟩,
   ⟨"exm_get_var_time_lib", "exm_get_var_time"⟩, ⟨"exm_put_init_lib", "exm_put_init"⟩,
   ⟨"exm_put_qa_lib", "exm_put_qa"⟩, ⟨"exm_put_info_lib", "exm_put_info"⟩,
   ⟨"exm_put_coord_names_lib", "exm_put_coord_names"⟩, ⟨"exm_put_coord_lib", "exm_put_coord"⟩,
   ⟨"exm_put_block_lib", "exm_put_block"⟩, ⟨"exm_put_conn_lib", "exm_put_conn"⟩,
   ⟨"exm_put_set_param_lib", "exm_put_set_param"⟩, ⟨"exm_put_set_lib", "exm_put_set"⟩,
   ⟨"exm_put_set_dist_fact_lib", "exm_put_set_dist_fact"⟩, ⟨"exm_put_map_lib", "exm_put_map"⟩,
   ⟨"exm_put_vars_lib", "exm_put_vars"⟩, ⟨"exm_put_truth_table_lib", "exm_put_truth_table"⟩,
   ⟨"exm_put_time_lib", "exm_put_time"⟩, ⟨"exm_put_glob_vars_lib", "exm_put_glob_vars"⟩,
   ⟨"exm_put_nodal_var_lib", "exm_put_nodal_var"⟩, ⟨"exm_put_var_lib", "exm_put_var"⟩]

/-- The values in the flags column of the method table: the macro
`METH_VARARGS` of Python.h, or the literal `0` of the sentinel. -/
inductive Flags where
  | METH_VARARGS
  | zero
  deriving DecidableEq, Repr

/-- A row `{ ml_name, ml_meth, ml_flags, ml_doc }` of a `PyMethodDef` table.  The
name is a string literal, the method and the doc are identifiers of
exomod_lib.c; `none` is `NULL`. -/
structure PyMethodDef where
  ml_name : Option String
  ml_meth : Option String
  ml_flags : Flags
  ml_doc : Option String
  deriving DecidableEq, Repr

/-- The table `static PyMethodDef exomod_lib_methods[]`, row by row. -/
def exomod_lib_methods : List PyMethodDef :=
  [⟨some "exm_create", some "exm_create_lib", .METH_VARARGS, some "exm_create_lib_doc"⟩,
   ⟨some "exm_open", some "exm_open_lib", .METH_VARARGS, some "exm_open_lib_doc"⟩,
   ⟨some "exm_close", some "exm_close_lib", .METH_VARARGS, some "exm_close_lib_doc"⟩,
   ⟨some "exm_get_init", some "exm_get_init_lib", .METH_VARARGS, some "exm_get_init_lib_doc"⟩,
   ⟨some "exm_inquire_counts", some "exm_inquire_counts_lib", .METH_VARARGS, some "exm_inquire_counts_lib_doc"⟩,
   ⟨some "exm_get_info", some "exm_get_info_lib", .METH_VARARGS, some "exm_get_info_lib_doc"⟩,
   ⟨some "exm_get_ids", some "exm_get_ids_lib", .METH_VARARGS, some "exm_get_ids_lib_doc"⟩,
   ⟨some "exm_get_block", some "exm_get_block_lib", .METH_VARARGS, some "exm_get_block_lib_doc"⟩,
   ⟨some "exm_get_set_param", some "exm_get_set_param_lib", .METH_VARARGS, some "exm_get_set_param_lib_doc"⟩,
   ⟨some "exm_get_qa", some "exm_get_qa_lib", .METH_VARARGS, some "exm_get_qa_lib_doc"⟩,
   ⟨some "exm_get_all_times", some "exm_get_all_times_lib", .METH_VARARGS, some "exm_get_all_times_lib_doc"⟩,
   ⟨some "exm_get_var_params", some "exm_get_var_params_lib", .METH_VARARGS, some "exm_get_var_params_lib_doc"⟩,
   ⟨some "exm_get_all_var_names", some "exm_get_all_var_names_lib", .METH_VARARGS, some "exm_get_all_var_names_lib_doc"⟩,
   ⟨some "exm_get_truth_table", some "exm_get_truth_table_lib", .METH_VARARGS, some "exm_get_truth_table_lib_doc"⟩,
   ⟨some "exm_get_coord_names", some "exm_get_coord_names_lib", .METH_VARARGS, some "exm_get_coord_names_lib_doc"⟩,
   ⟨some "exm_get_coord", some "exm_get_coord_lib", .METH_VARARGS, some "exm_get_coord_lib_doc"⟩,
   ⟨some "exm_get_conn", some "exm_get_conn_lib", .METH_VARARGS, some "exm_get_conn_lib_doc"⟩,
   ⟨some "exm_get_set", some "exm_get_set_lib", .METH_VARARGS, some "exm_get_set_lib_doc"⟩,
   ⟨some "exm_get_set_dist_fact", some "exm_get_set_dist_fact_lib", .METH_VARARGS, some "exm_get_set_dist_fact_lib_doc"⟩,
   ⟨some "exm_get_map", some "exm_get_map_lib", .METH_VARARGS, some "exm_get_map_lib_doc"⟩,
   ⟨some "exm_get_glob_vars", some "exm_get_glob_vars_lib", .METH_VARARGS, some "exm_get_glob_vars_lib_doc"⟩,
   ⟨some "exm_get_nodal_var", some "exm_get_nodal_var_lib", .METH_VARARGS, some "exm_get_nodal_var_lib_doc"⟩,
   ⟨some "exm_get_var", some "exm_get_var_lib", .METH_VARARGS, some "exm_get_var_lib_doc"⟩,
   ⟨some "exm_get_block_var", some "exm_get_block_var_lib", .METH_VARARGS, some "exm_get_block_var_lib_doc"⟩,
   ⟨some "exm_get_var_time", some "exm_get_var_time_lib", .METH_VARARGS, some "exm_get_var_time_lib_doc"⟩,
   ⟨some "exm_put_init", some "exm_put_init_lib", .METH_VARARGS, some "exm_put_init_lib_doc"⟩,
   ⟨some "exm_put_qa", some "exm_put_qa_lib", .METH_VARARGS, some "exm_put_qa_lib_doc"⟩,
   ⟨some "exm_put_info", some "exm_put_info_lib", .METH_VARARGS, some "exm_put_info_lib_doc"⟩,
   ⟨some "exm_put_coord_names", some "exm_put_coord_names_lib", .METH_VARARGS, some "exm_put_coord_names_lib_doc"⟩,
   ⟨some "exm_put_coord", some "exm_put_coord_lib", .METH_VARARGS, some "exm_put_coord_lib_doc"⟩,
   ⟨some "exm_put_block", some "exm_put_block_lib", .METH_VARARGS, some "exm_put_block_lib_doc"⟩,
   ⟨some "exm_put_conn", some "exm_put_conn_lib", .METH_VARARGS, some "exm_put_conn_lib_doc"⟩,
   ⟨some "exm_put_set_param", some "exm_put_set_param_lib", .METH_VARARGS, some "exm_put_set_param_lib_doc"⟩,
   ⟨some "exm_put_set", some "exm_put_set_lib", .METH_VARARGS, some "exm_put_set_lib_doc"⟩,
   ⟨some "exm_put_set_dist_fact", some "exm_put_set_dist_fact_lib", .METH_VARARGS, some "exm_put_set_dist_fact_lib_doc"⟩,
   ⟨some "exm_put_map", some "exm_put_map_lib", .METH_VARARGS, some "exm_put_map_lib_doc"⟩,
   ⟨some "exm_put_vars", some "exm_put_vars_lib", .METH_VARARGS, some "exm_put_vars_lib_doc"⟩,
   ⟨some "exm_put_truth_table", some "exm_put_truth_table_lib", .METH_VARARGS, some "exm_put_truth_table_lib_doc"⟩,
   ⟨some "exm_put_time", some "exm_put_time_lib", .METH_VARARGS, some "exm_put_time_lib_doc"⟩,
   ⟨some "exm_put_glob_vars", some "exm_put_glob_vars_lib", .METH_VARARGS, some "exm_put_glob_vars_lib_doc"⟩,
   ⟨some "exm_put_nodal_var", some "exm_put_nodal_var_lib", .METH_VARARGS, some "exm_put_nodal_var_lib_doc"⟩,
   ⟨some "exm_put_var", some "exm_put_var_lib", .METH_VARARGS, some "exm_put_var_lib_doc"⟩,
   ⟨none, none, .zero, none⟩]

end ExomodLib

namespace Exgotv

/-! ## Lemmas on the library calls and the loop -/

theorem setNcerr_exerrval (e : Option Int) (s : State) :
    (setNcerr e s).exerrval = s.exerrval := by
  cases e <;> rfl

theorem setNcerr_var_vec (e : Option Int) (s : State) :
    (setNcerr e s).var_vec = s.var_vec := by
  cases e <;> rfl

theorem setNcerr_trace (e : Option Int) (s : State) :
    (setNcerr e s).trace = s.trace := by
  cases e <;> rfl

theorem call_ncvarid_exerrval (F : ExoFile) (nm : NcName) (s : State) :
    (call_ncvarid F nm s).2.exerrval = s.exerrval := by
  simp [call_ncvarid, setNcerr_exerrval, log]

theorem call_ncvarid_var_vec (F : ExoFile) (nm : NcName) (s : State) :
    (call_ncvarid F nm s).2.var_vec = s.var_vec := by
  simp [call_ncvarid, setNcerr_var_vec, log]

theorem call_ncvarid_fst (F : ExoFile) (nm : NcName) (s : State) :
    (call_ncvarid F nm s).1 = (F.ncvarid nm).varid := rfl

theorem probe_loop_exerrval (F : ExoFile) (vn et : String) (k : Int) (l : List Nat) (s : State) :
    (probe_loop F vn et k l s).exerrval = s.exerrval := by
  induction l generalizing s with
  | nil => rfl
  | cons i rest ih =>
    simp only [probe_loop]
    split <;> rw [ih] <;> simp [call_ncvarid_exerrval]

/-- The loop only adds file accesses to the trace. -/
theorem probe_loop_trace (F : ExoFile) (vn et : String) (k : Int) (l : List Nat) (s : State)
    (e : Event) (he : e ∈ (probe_loop F vn et k l s).trace) :
    e ∈ s.trace ∨ e.isFileAccess = true := by
  induction l generalizing s with
  | nil => exact Or.inl he
  | cons i rest ih =>
    simp only [probe_loop] at he
    have key : ∀ b : Int, e ∈ (probe_loop F vn et k rest
        { (call_ncvarid F (.ex_catstr2 vn ((i : Int) + 1) et k) s).2 with
          var_vec := Function.update
            (call_ncvarid F (.ex_catstr2 vn ((i : Int) + 1) et k) s).2.var_vec i b }).trace →
        e ∈ s.trace ∨ e.isFileAccess = true := by
      intro b hb
      rcases ih _ hb with h | h
      · simp only [call_ncvarid, setNcerr_trace, log] at h
        rcases List.mem_append.mp h with h | h
        · exact Or.inl h
        · right
          rw [List.mem_singleton.mp h]
          rfl
      · exact Or.inr h
    split at he
    · exact key 0 he
    · exact key 1 he

/-- The cells the loop leaves: `var_vec[i]` is 0 or 1 by the probe of ordinal
`i+1` for the values of `i` the loop runs through, and untouched elsewhere. -/
theorem probe_loop_var_vec (F : ExoFile) (vn et : String) (k : Int) (l : List Nat)
    (hl : l.Nodup) (s : State) (j : Nat) :
    (probe_loop F vn et k l s).var_vec j =
      if j ∈ l then
        (if (F.ncvarid (.ex_catstr2 vn ((j : Int) + 1) et k)).varid = -1 then 0 else 1)
      else s.var_vec j := by
  induction l generalizing s with
  | nil => simp [probe_loop]
  | cons i rest ih =>
    have hi : i ∉ rest := (List.nodup_cons.mp hl).1
    have hr : rest.Nodup := (List.nodup_cons.mp hl).2
    simp only [probe_loop, call_ncvarid_fst]
    by_cases hj : j = i
    · subst hj
      split <;> rename_i hp <;> rw [ih hr] <;> simp [hi, hp]
    · have hji : ¬ (j = i ∨ j ∈ rest) ↔ j ∉ rest := by simp [hj]
      split <;> rw [ih hr] <;>
        by_cases hm : j ∈ rest <;>
        simp [hj, hm, Function.update, call_ncvarid_var_vec]

/-- One row of a table, read as a hyperslab of one row. -/
theorem hyperslab_row (F : ExoFile) (varid row n : Int) :
    hyperslab F varid row 0 1 n =
      (List.range n.toNat).map fun (c : Nat) => F.table varid row c := by
  have h1 : List.range (1 : Int).toNat = [0] := rfl
  unfold hyperslab
  rw [h1]
  simp only [List.flatMap_cons, List.flatMap_nil, List.append_nil, Nat.cast_zero, add_zero,
    zero_add]

/-- Storing a row puts its values in the first cells. -/
theorem store_map_range (v : Nat → Int) (f : Nat → Int) (m i : Nat) (hi : i < m) :
    store v ((List.range m).map f) i = f i := by
  simp [store, hi]

theorem after_switch_exerrval (F : ExoFile) (c : Category) (entity_id : Int) (s : State) :
    (after_switch F c entity_id s).exerrval = (F.ex_id_lkup c.id_var entity_id).exerrval := by
  simp [after_switch, call_ncvarid, call_ex_get_dimension, call_ex_id_lkup, setNcerr_exerrval, log]

theorem after_switch_var_vec (F : ExoFile) (c : Category) (entity_id : Int) (s : State) :
    (after_switch F c entity_id s).var_vec = s.var_vec := by
  simp [after_switch, call_ncvarid, call_ex_get_dimension, call_ex_id_lkup, setNcerr_var_vec, log]

theorem after_switch_trace (F : ExoFile) (c : Category) (entity_id : Int) (s : State) :
    (after_switch F c entity_id s).trace =
      s.trace ++ [.ex_id_lkup c.id_var entity_id, .ex_get_dimension c.dim c.label,
        .ncvarid c.tab] := by
  simp [after_switch, call_ncvarid, call_ex_get_dimension, call_ex_id_lkup, setNcerr_trace, log]

/-- The routine on a supported category, written over `after_switch`. -/
theorem routine_of_category (H : ExodusHeader) (F : ExoFile) (exoid : Int)
    (obj_type : ex_entity_type) (c : Category) (entity_id num_var : Int) (s : State)
    (hc : category obj_type = some c) :
    ex_get_object_truth_vector H F exoid obj_type entity_id num_var s =
      let a := after_switch F c entity_id s
      if (F.ex_get_dimension c.dim).dimid = -1 then
        ⟨H.EX_WARN, { a with exerrval := a.ncerr }⟩
      else if a.exerrval ≠ 0 then
        if a.exerrval = H.EX_NULLENTITY then
          ⟨H.EX_WARN,
            call_ex_err routine (.no_variables_for_NULL_block obj_type entity_id exoid) a⟩
        else
          ⟨H.EX_FATAL, call_ex_err routine (.failed_to_locate_id obj_type entity_id exoid) a⟩
      else
        let k := (F.ex_id_lkup c.id_var entity_id).ret
        let ent_ndx := if k < 0 then -k else k
        if (F.ex_get_dimension c.dim).count ≠ num_var then
          ⟨H.EX_FATAL,
            call_ex_err routine (.num_variables_mismatch exoid) { a with exerrval := H.EX_FATAL }⟩
        else if (F.ncvarid c.tab).varid = -1 then
          ⟨H.EX_NOERR,
            probe_loop F c.var_name c.ent_type ent_ndx (List.range num_var.toNat) a⟩
        else
          let g := call_ncvarget F (F.ncvarid c.tab).varid (ent_ndx - 1) 0 1 num_var a
          if g.1 = -1 then
            ⟨H.EX_FATAL,
              call_ex_err routine (.failed_to_get_truth_vector exoid)
                { g.2 with exerrval := g.2.ncerr }⟩
          else
            ⟨H.EX_NOERR, g.2⟩ := by
  simp only [ex_get_object_truth_vector, hc]
  rfl

/-- The events of a call, read off the trace it leaves. -/
theorem events_of_eq (s : State) (r : Result) (evs : List Event)
    (h : r.st.trace = s.trace ++ evs) : events_of s r = evs := by
  simp [events_of, h]

theorem call_ex_err_trace (rt : String) (m : ErrMsg) (a : State) :
    (call_ex_err rt m a).trace = a.trace ++ [.ex_err rt m a.exerrval] := rfl

theorem call_ex_err_exerrval (rt : String) (m : ErrMsg) (a : State) :
    (call_ex_err rt m a).exerrval = a.exerrval := rfl

theorem call_ex_err_var_vec (rt : String) (m : ErrMsg) (a : State) :
    (call_ex_err rt m a).var_vec = a.var_vec := rfl

theorem call_ex_err_ncerr (rt : String) (m : ErrMsg) (a : State) :
    (call_ex_err rt m a).ncerr = a.ncerr := rfl

/-- Every way the routine returns: with `EX_NOERR`, or on one of its six error
returns, each with the kinds it reported, its status, the code in `exerrval`
and the content of the buffer. -/
theorem routine_cases (H : ExodusHeader) (F : ExoFile) (exoid : Int)
    (obj_type : ex_entity_type) (entity_id n : Int) (s : State) :
    (ex_get_object_truth_vector H F exoid obj_type entity_id n s).status = H.EX_NOERR ∨
    (reported (events_of s (ex_get_object_truth_vector H F exoid obj_type entity_id n s)) =
        [.InvalidCategory] ∧
      (ex_get_object_truth_vector H F exoid obj_type entity_id n s).status = H.EX_WARN ∧
      (ex_get_object_truth_vector H F exoid obj_type entity_id n s).st.exerrval = H.EX_BADPARAM ∧
      (ex_get_object_truth_vector H F exoid obj_type entity_id n s).st.var_vec = s.var_vec) ∨
    (reported (events_of s (ex_get_object_truth_vector H F exoid obj_type entity_id n s)) = [] ∧
      (ex_get_object_truth_vector H F exoid obj_type entity_id n s).status = H.EX_WARN ∧
      (ex_get_object_truth_vector H F exoid obj_type entity_id n s).st.exerrval =
        (ex_get_object_truth_vector H F exoid obj_type entity_id n s).st.ncerr ∧
      (ex_get_object_truth_vector H F exoid obj_type entity_id n s).st.var_vec = s.var_vec) ∨
    (reported (events_of s (ex_get_object_truth_vector H F exoid obj_type entity_id n s)) =
        [.NullEntityWarning] ∧
      (ex_get_object_truth_vector H F exoid obj_type entity_id n s).status = H.EX_WARN ∧
      (ex_get_object_truth_vector H F exoid obj_type entity_id n s).st.exerrval =
        H.EX_NULLENTITY ∧
      (ex_get_object_truth_vector H F exoid obj_type entity_id n s).st.var_vec = s.var_vec) ∨
    (reported (events_of s (ex_get_object_truth_vector H F exoid obj_type entity_id n s)) =
        [.EntityNotFound] ∧
      (ex_get_object_truth_vector H F exoid obj_type entity_id n s).status = H.EX_FATAL ∧
      (ex_get_object_truth_vector H F exoid obj_type entity_id n s).st.exerrval ≠ 0 ∧
      (ex_get_object_truth_vector H F exoid obj_type entity_id n s).st.var_vec = s.var_vec) ∨
    (reported (events_of s (ex_get_object_truth_vector H F exoid obj_type entity_id n s)) =
        [.VariableCountMismatch] ∧
      (ex_get_object_truth_vector H F exoid obj_type entity_id n s).status = H.EX_FATAL ∧
      (ex_get_object_truth_vector H F exoid obj_type entity_id n s).st.exerrval = H.EX_FATAL ∧
      (ex_get_object_truth_vector H F exoid obj_type entity_id n s).st.var_vec = s.var_vec) ∨
    (reported (events_of s (ex_get_object_truth_vector H F exoid obj_type entity_id n s)) =
        [.ReadFailure] ∧
      (ex_get_object_truth_vector H F exoid obj_type entity_id n s).status = H.EX_FATAL ∧
      (ex_get_object_truth_vector H F exoid obj_type entity_id n s).st.exerrval =
        (ex_get_object_truth_vector H F exoid obj_type entity_id n s).st.ncerr ∧
      ∃ c f, category obj_type = some c ∧
        F.ncvarget_fail (F.ncvarid c.tab).varid (resolved_index F c entity_id - 1) 0 1 n
          = some f ∧
        (ex_get_object_truth_vector H F exoid obj_type entity_id n s).st.var_vec =
          store s.var_vec (f.wrote.take n.toNat)) := by
  cases hc : category obj_type with
  | none =>
    right; left
    have hev : events_of s (ex_get_object_truth_vector H F exoid obj_type entity_id n s) =
        [.ex_err routine (.invalid_variable_type obj_type exoid) H.EX_BADPARAM] := by
      apply events_of_eq
      simp only [ex_get_object_truth_vector, hc, call_ex_err_trace]
    refine ⟨by rw [hev]; rfl, ?_, ?_, ?_⟩ <;>
      simp only [ex_get_object_truth_vector, hc, call_ex_err_exerrval, call_ex_err_var_vec]
  | some c =>
    by_cases hdim : (F.ex_get_dimension c.dim).dimid = -1
    · right; right; left
      have hev : events_of s (ex_get_object_truth_vector H F exoid obj_type entity_id n s) =
          [.ex_id_lkup c.id_var entity_id, .ex_get_dimension c.dim c.label,
            .ncvarid c.tab] := by
        apply events_of_eq
        rw [routine_of_category H F exoid obj_type c entity_id n s hc]
        simp only [hdim, if_true, after_switch_trace]
      refine ⟨by rw [hev]; rfl, ?_, ?_, ?_⟩ <;>
        rw [routine_of_category H F exoid obj_type c entity_id n s hc] <;>
        simp only [hdim, if_true, after_switch_var_vec]
    · by_cases herr : (F.ex_id_lkup c.id_var entity_id).exerrval = 0
      · by_cases hcount : (F.ex_get_dimension c.dim).count = n
        · by_cases htab : (F.ncvarid c.tab).varid = -1
          · left
            rw [routine_of_category H F exoid obj_type c entity_id n s hc]
            simp only [hdim, after_switch_exerrval, herr, hcount, htab, if_false, if_true,
              ne_eq, not_true_eq_false, not_false_eq_true]
          · cases hread : F.ncvarget_fail (F.ncvarid c.tab).varid
                (resolved_index F c entity_id - 1) 0 1 n with
            | none =>
              left
              have h01 : ¬ (0 : Int) = -1 := by decide
              unfold resolved_index at hread
              rw [routine_of_category H F exoid obj_type c entity_id n s hc]
              simp only [hdim, after_switch_exerrval, herr, hcount, htab, if_false, if_true,
                ne_eq, not_true_eq_false, not_false_eq_true, call_ncvarget, hread, h01]
            | some f =>
              right; right; right; right; right; right
              have h1 : (1 : Int).toNat * n.toNat = n.toNat := by
                have : (1 : Int).toNat = 1 := rfl
                rw [this, Nat.one_mul]
              have hev : events_of s
                  (ex_get_object_truth_vector H F exoid obj_type entity_id n s) =
                  [.ex_id_lkup c.id_var entity_id, .ex_get_dimension c.dim c.label,
                    .ncvarid c.tab,
                    .ncvarget (F.ncvarid c.tab).varid (resolved_index F c entity_id - 1) 0 1 n,
                    .ex_err routine (.failed_to_get_truth_vector exoid) f.ncerr] := by
                apply events_of_eq
                unfold resolved_index at hread ⊢
                rw [routine_of_category H F exoid obj_type c entity_id n s hc]
                simp only [hdim, after_switch_exerrval, herr, hcount, htab, if_false, if_true,
                  ne_eq, not_true_eq_false, not_false_eq_true, call_ncvarget, hread,
                  call_ex_err_trace, log, after_switch_trace, List.append_assoc,
                  List.cons_append, List.nil_append]
              refine ⟨by rw [hev]; rfl, ?_, ?_, c, f, rfl, hread, ?_⟩ <;>
                unfold resolved_index at hread <;>
                rw [routine_of_category H F exoid obj_type c entity_id n s hc] <;>
                simp only [hdim, after_switch_exerrval, herr, hcount, htab, if_false, if_true,
                  ne_eq, not_true_eq_false, not_false_eq_true, call_ncvarget, hread,
                  call_ex_err_exerrval, call_ex_err_var_vec, call_ex_err_ncerr, log,
                  after_switch_var_vec, h1]
        · right; right; right; right; right; left
          have hev : events_of s (ex_get_object_truth_vector H F exoid obj_type entity_id n s) =
              [.ex_id_lkup c.id_var entity_id, .ex_get_dimension c.dim c.label, .ncvarid c.tab,
                .ex_err routine (.num_variables_mismatch exoid) H.EX_FATAL] := by
            apply events_of_eq
            rw [routine_of_category H F exoid obj_type c entity_id n s hc]
            simp only [hdim, after_switch_exerrval, herr, hcount, if_false, if_true, ne_eq,
              not_true_eq_false, not_false_eq_true, call_ex_err_trace, after_switch_trace,
              List.append_assoc, List.cons_append, List.nil_append]
          refine ⟨by rw [hev]; rfl, ?_, ?_, ?_⟩ <;>
            rw [routine_of_category H F exoid obj_type c entity_id n s hc] <;>
            simp only [hdim, after_switch_exerrval, herr, hcount, if_false, if_true, ne_eq,
              not_true_eq_false, not_false_eq_true, call_ex_err_exerrval, call_ex_err_var_vec,
              after_switch_var_vec]
      · by_cases hnull : (F.ex_id_lkup c.id_var entity_id).exerrval = H.EX_NULLENTITY
        · right; right; right; left
          have hnz : ¬ H.EX_NULLENTITY = 0 := hnull ▸ herr
          have hev : events_of s (ex_get_object_truth_vector H F exoid obj_type entity_id n s) =
              [.ex_id_lkup c.id_var entity_id, .ex_get_dimension c.dim c.label, .ncvarid c.tab,
                .ex_err routine (.no_variables_for_NULL_block obj_type entity_id exoid)
                  H.EX_NULLENTITY] := by
            apply events_of_eq
            rw [routine_of_category H F exoid obj_type c entity_id n s hc]
            simp only [hdim, after_switch_exerrval, hnz, hnull, if_false, if_true, ne_eq,
              not_true_eq_false, not_false_eq_true, call_ex_err_trace, after_switch_trace,
              List.append_assoc, List.cons_append, List.nil_append]
          refine ⟨by rw [hev]; rfl, ?_, ?_, ?_⟩ <;>
            rw [routine_of_category H F exoid obj_type c entity_id n s hc] <;>
            simp only [hdim, after_switch_exerrval, hnz, hnull, if_false, if_true, ne_eq,
              not_true_eq_false, not_false_eq_true, call_ex_err_exerrval, call_ex_err_var_vec,
              after_switch_var_vec]
        · right; right; right; right; left
          have hev : events_of s (ex_get_object_truth_vector H F exoid obj_type entity_id n s) =
              [.ex_id_lkup c.id_var entity_id, .ex_get_dimension c.dim c.label, .ncvarid c.tab,
                .ex_err routine (.failed_to_locate_id obj_type entity_id exoid)
                  (F.ex_id_lkup c.id_var entity_id).exerrval] := by
            apply events_of_eq
            rw [routine_of_category H F exoid obj_type c entity_id n s hc]
            simp only [hdim, after_switch_exerrval, herr, hnull, if_false, if_true, ne_eq,
              not_true_eq_false, not_false_eq_true, call_ex_err_trace, after_switch_trace,
              List.append_assoc, List.cons_append, List.nil_append]
          refine ⟨by rw [hev]; rfl, ?_, ?_, ?_⟩ <;>
            rw [routine_of_category H F exoid obj_type c entity_id n s hc] <;>
            simp only [hdim, after_switch_exerrval, herr, hnull, if_false, if_true, ne_eq,
              not_true_eq_false, not_false_eq_true, call_ex_err_exerrval, call_ex_err_var_vec,
              after_switch_var_vec]

/-! ## The stored-table path and the fallback path -/

/-- C1: for a file with a stored truth table, for every supported category,
when the entity id resolves to the 1-based index `k`, the recorded variable
count equals the expected count `n` and the row read succeeds, the routine
returns `EX_NOERR` with `exerrval = 0`, and entry `i` of the vector is the
stored table value at row `k-1`, column `i`, for every `i < n`. -/
theorem stored_table_row_returned (H : ExodusHeader) (F : ExoFile) (exoid : Int)
    (obj_type : ex_entity_type) (c : Category) (entity_id n k : Int) (s : State)
    (hc : category obj_type = some c)
    (hk : 1 ≤ k)
    (hret : (F.ex_id_lkup c.id_var entity_id).ret = k)
    (herr : (F.ex_id_lkup c.id_var entity_id).exerrval = 0)
    (hdim : (F.ex_get_dimension c.dim).dimid ≠ -1)
    (hcount : (F.ex_get_dimension c.dim).count = n)
    (htab : (F.ncvarid c.tab).varid ≠ -1)
    (hread : F.ncvarget_fail (F.ncvarid c.tab).varid (k - 1) 0 1 n = none) :
    (ex_get_object_truth_vector H F exoid obj_type entity_id n s).status = H.EX_NOERR ∧
    (ex_get_object_truth_vector H F exoid obj_type entity_id n s).st.exerrval = 0 ∧
    ∀ i : Nat, (i : Int) < n →
      (ex_get_object_truth_vector H F exoid obj_type entity_id n s).st.var_vec i =
        F.table (F.ncvarid c.tab).varid (k - 1) i := by
  have hk0 : ¬ k < 0 := by omega
  rw [routine_of_category H F exoid obj_type c entity_id n s hc]
  have h01 : ¬ (0 : Int) = -1 := by decide
  simp only [hdim, after_switch_exerrval, herr, hret, hcount, htab, hk0, if_false, ne_eq,
    not_true_eq_false, call_ncvarget, hread, h01]
  refine ⟨trivial, by simp only [log, after_switch_exerrval, herr], ?_⟩
  intro i hi
  have hi2 : i < n.toNat := by omega
  simp only [log, after_switch_var_vec, hyperslab_row]
  exact store_map_range _ (fun j => F.table (F.ncvarid c.tab).varid (k - 1) j) _ _ hi2

/-- C1, at the scenario of the specification: element block 7 resolves to index
3, four variables, row 2 of the stored table is `1 0 1 1`. -/
theorem stored_table_row_returned_witness :
    (category .EX_ELEM_BLOCK = some
      ⟨.VAR_ID_EL_BLK, .DIM_NUM_ELE_VAR, "element variables", .VAR_ELEM_TAB,
        "vals_elem_var", "eb"⟩ ∧
     (1 : Int) ≤ 3 ∧
     (storedFile.ex_id_lkup .VAR_ID_EL_BLK 7).ret = 3 ∧
     (storedFile.ex_id_lkup .VAR_ID_EL_BLK 7).exerrval = 0 ∧
     (storedFile.ex_get_dimension .DIM_NUM_ELE_VAR).dimid ≠ -1 ∧
     (storedFile.ex_get_dimension .DIM_NUM_ELE_VAR).count = 4 ∧
     (storedFile.ncvarid .VAR_ELEM_TAB).varid ≠ -1 ∧
     storedFile.ncvarget_fail (storedFile.ncvarid .VAR_ELEM_TAB).varid (3 - 1) 0 1 4 = none) ∧
    (ex_get_object_truth_vector exodusII_h storedFile 1 .EX_ELEM_BLOCK 7 4 s0).status = 0 ∧
    (ex_get_object_truth_vector exodusII_h storedFile 1 .EX_ELEM_BLOCK 7 4 s0).st.exerrval = 0 ∧
    (List.range 4).map
      (ex_get_object_truth_vector exodusII_h storedFile 1 .EX_ELEM_BLOCK 7 4 s0).st.var_vec
      = [1, 0, 1, 1] := by
  have h := stored_table_row_returned exodusII_h storedFile 1 .EX_ELEM_BLOCK
    ⟨.VAR_ID_EL_BLK, .DIM_NUM_ELE_VAR, "element variables", .VAR_ELEM_TAB, "vals_elem_var", "eb"⟩
    7 4 3 s0 rfl (by decide) rfl rfl (by decide) rfl (by decide) rfl
  refine ⟨⟨rfl, by decide, rfl, rfl, by decide, rfl, by decide, rfl⟩, h.1, h.2.1, ?_⟩
  have h0 := h.2.2 0 (by decide)
  have h1 := h.2.2 1 (by decide)
  have h2 := h.2.2 2 (by decide)
  have h3 := h.2.2 3 (by decide)
  simp only [List.range, List.range.loop, List.map, h0, h1, h2, h3]
  decide

/-- C2: for a file without a stored truth table, for every supported category,
when the entity id resolves to the 1-based index `k` and the recorded count
equals the expected count `n`, the routine returns `EX_NOERR` and, for every
`i < n`, entry `i` of the vector is 1 or 0, and it is 1 exactly when the variable
named `ex_catstr2 (var_name, i+1, ent_type, k)`, with the two strings of the
category, exists in the file. -/
theorem fallback_entry_iff_variable_exists (H : ExodusHeader) (F : ExoFile) (exoid : Int)
    (obj_type : ex_entity_type) (c : Category) (entity_id n k : Int) (s : State)
    (hc : category obj_type = some c)
    (hk : 1 ≤ k)
    (hret : (F.ex_id_lkup c.id_var entity_id).ret = k)
    (herr : (F.ex_id_lkup c.id_var entity_id).exerrval = 0)
    (hdim : (F.ex_get_dimension c.dim).dimid ≠ -1)
    (hcount : (F.ex_get_dimension c.dim).count = n)
    (htab : (F.ncvarid c.tab).varid = -1) :
    (ex_get_object_truth_vector H F exoid obj_type entity_id n s).status = H.EX_NOERR ∧
    ∀ i : Nat, (i : Int) < n →
      ((ex_get_object_truth_vector H F exoid obj_type entity_id n s).st.var_vec i = 1 ∨
        (ex_get_object_truth_vector H F exoid obj_type entity_id n s).st.var_vec i = 0) ∧
      ((ex_get_object_truth_vector H F exoid obj_type entity_id n s).st.var_vec i = 1 ↔
        (F.ncvarid (.ex_catstr2 c.var_name ((i : Int) + 1) c.ent_type k)).varid ≠ -1) := by
  have hk0 : ¬ k < 0 := by omega
  rw [routine_of_category H F exoid obj_type c entity_id n s hc]
  simp only [hdim, after_switch_exerrval, herr, hret, hcount, htab, hk0, if_false, if_true,
    ne_eq, not_true_eq_false, not_false_eq_true]
  refine ⟨trivial, ?_⟩
  intro i hi
  have hi2 : i ∈ List.range n.toNat := List.mem_range.mpr (by omega)
  rw [probe_loop_var_vec F c.var_name c.ent_type k _ (List.nodup_range _) _ i, if_pos hi2]
  by_cases hp : (F.ncvarid (.ex_catstr2 c.var_name ((i : Int) + 1) c.ent_type k)).varid = -1
  · simp [hp]
  · simp [hp]

/-- C2, at the scenario of the specification: no stored table, two variables,
the entity resolves to index 5, the name of ordinal 1 is found and the name of
ordinal 2 is not: the vector is `1 0`. -/
theorem fallback_entry_iff_variable_exists_witness :
    (category .EX_NODE_SET = some
      ⟨.VAR_NS_IDS, .DIM_NUM_NSET_VAR, "nodeset variables", .VAR_NSET_TAB,
        "vals_nset_var", "ns"⟩ ∧
     (1 : Int) ≤ 5 ∧
     (probeFile.ex_id_lkup .VAR_NS_IDS 40).ret = 5 ∧
     (probeFile.ex_id_lkup .VAR_NS_IDS 40).exerrval = 0 ∧
     (probeFile.ex_get_dimension .DIM_NUM_NSET_VAR).dimid ≠ -1 ∧
     (probeFile.ex_get_dimension .DIM_NUM_NSET_VAR).count = 2 ∧
     (probeFile.ncvarid .VAR_NSET_TAB).varid = -1) ∧
    (probeFile.ncvarid (.ex_catstr2 "vals_nset_var" 1 "ns" 5)).varid ≠ -1 ∧
    (probeFile.ncvarid (.ex_catstr2 "vals_nset_var" 2 "ns" 5)).varid = -1 ∧
    (ex_get_object_truth_vector exodusII_h probeFile 1 .EX_NODE_SET 40 2 s0).status = 0 ∧
    (ex_get_object_truth_vector exodusII_h probeFile 1 .EX_NODE_SET 40 2 s0).st.var_vec 0 = 1 ∧
    (ex_get_object_truth_vector exodusII_h probeFile 1 .EX_NODE_SET 40 2 s0).st.var_vec 1 = 0 := by
  have h := fallback_entry_iff_variable_exists exodusII_h probeFile 1 .EX_NODE_SET
    ⟨.VAR_NS_IDS, .DIM_NUM_NSET_VAR, "nodeset variables", .VAR_NSET_TAB, "vals_nset_var", "ns"⟩
    40 2 5 s0 rfl (by decide) rfl rfl (by decide) rfl rfl
  have p1 : (probeFile.ncvarid (.ex_catstr2 "vals_nset_var" 1 "ns" 5)).varid ≠ -1 := by decide
  have p2 : (probeFile.ncvarid (.ex_catstr2 "vals_nset_var" 2 "ns" 5)).varid = -1 := by decide
  have h0 := h.2 0 (by decide)
  have h1 := h.2 1 (by decide)
  refine ⟨⟨rfl, by decide, rfl, rfl, by decide, rfl, rfl⟩, p1, p2, h.1, h0.2.mpr p1, ?_⟩
  rcases h1.1 with h11 | h10
  · exact absurd p2 (h1.2.mp h11)
  · exact h10

/-- C9: on the fallback path (supported category, entity resolved, counts
equal, no stored truth table) the routine returns `EX_NOERR` and leaves
`exerrval = 0` whatever the name probes answer, without a call of `ex_err`; a
probe that does not find its variable sets that entry to 0. -/
theorem fallback_never_fails (H : ExodusHeader) (F : ExoFile) (exoid : Int)
    (obj_type : ex_entity_type) (c : Category) (entity_id n : Int) (s : State)
    (hc : category obj_type = some c)
    (herr : (F.ex_id_lkup c.id_var entity_id).exerrval = 0)
    (hdim : (F.ex_get_dimension c.dim).dimid ≠ -1)
    (hcount : (F.ex_get_dimension c.dim).count = n)
    (htab : (F.ncvarid c.tab).varid = -1) :
    (ex_get_object_truth_vector H F exoid obj_type entity_id n s).status = H.EX_NOERR ∧
    (ex_get_object_truth_vector H F exoid obj_type entity_id n s).st.exerrval = 0 ∧
    (∀ e ∈ (ex_get_object_truth_vector H F exoid obj_type entity_id n s).st.trace,
      e ∈ s.trace ∨ e.isFileAccess = true) ∧
    ∀ i : Nat, (i : Int) < n →
      (F.ncvarid (.ex_catstr2 c.var_name ((i : Int) + 1) c.ent_type
        (resolved_index F c entity_id))).varid = -1 →
      (ex_get_object_truth_vector H F exoid obj_type entity_id n s).st.var_vec i = 0 := by
  unfold resolved_index
  rw [routine_of_category H F exoid obj_type c entity_id n s hc]
  simp only [hdim, after_switch_exerrval, herr, hcount, htab, if_false, if_true,
    ne_eq, not_true_eq_false, not_false_eq_true]
  refine ⟨trivial, ?_, ?_, ?_⟩
  · rw [probe_loop_exerrval, after_switch_exerrval, herr]
  · intro e he
    rcases probe_loop_trace F c.var_name c.ent_type _ _ _ e he with h | h
    · rw [after_switch_trace] at h
      rcases List.mem_append.mp h with h | h
      · exact Or.inl h
      · right
        simp only [List.mem_cons, List.mem_singleton, List.not_mem_nil, or_false] at h
        rcases h with h | h | h <;> subst h <;> rfl
    · exact Or.inr h
  · intro i hi hp
    have hi2 : i ∈ List.range n.toNat := List.mem_range.mpr (by omega)
    rw [probe_loop_var_vec F c.var_name c.ent_type _ _ (List.nodup_range _) _ i, if_pos hi2,
      if_pos hp]

/-- C9, on the file without a stored table whose second probe finds nothing:
the call succeeds, `exerrval` is 0 and the second entry is 0. -/
theorem fallback_never_fails_witness :
    (category .EX_NODE_SET = some
      ⟨.VAR_NS_IDS, .DIM_NUM_NSET_VAR, "nodeset variables", .VAR_NSET_TAB,
        "vals_nset_var", "ns"⟩ ∧
     (probeFile.ex_id_lkup .VAR_NS_IDS 40).exerrval = 0 ∧
     (probeFile.ex_get_dimension .DIM_NUM_NSET_VAR).dimid ≠ -1 ∧
     (probeFile.ex_get_dimension .DIM_NUM_NSET_VAR).count = 2 ∧
     (probeFile.ncvarid .VAR_NSET_TAB).varid = -1) ∧
    (ex_get_object_truth_vector exodusII_h probeFile 1 .EX_NODE_SET 40 2 s0).status = 0 ∧
    (ex_get_object_truth_vector exodusII_h probeFile 1 .EX_NODE_SET 40 2 s0).st.exerrval = 0 ∧
    (ex_get_object_truth_vector exodusII_h probeFile 1 .EX_NODE_SET 40 2 s0).st.var_vec 1 = 0 := by
  have h := fallback_never_fails exodusII_h probeFile 1 .EX_NODE_SET
    ⟨.VAR_NS_IDS, .DIM_NUM_NSET_VAR, "nodeset variables", .VAR_NSET_TAB, "vals_nset_var", "ns"⟩
    40 2 s0 rfl rfl (by decide) rfl rfl
  exact ⟨⟨rfl, rfl, by decide, rfl, rfl⟩, h.1, h.2.1, h.2.2.2 1 (by decide) (by decide)⟩

/-! ## The failure paths -/

/-- C4: for every category value that is none of the eight case labels, the
routine fails (returns `EX_WARN`, which is not `EX_NOERR`) with `exerrval =
EX_BADPARAM`, and the only thing it does is the call of `ex_err` with the
invalid-type message: no id lookup, no dimension query, no variable probe and no
table read, for every file, entity id and expected count; the buffer and
`ncerr` are as before. -/
theorem invalid_category_no_file_access (H : ExodusHeader) (F : ExoFile) (exoid : Int)
    (obj_type : ex_entity_type) (entity_id n : Int) (s : State)
    (hc : category obj_type = none)
    (hw : H.EX_WARN ≠ H.EX_NOERR) :
    (ex_get_object_truth_vector H F exoid obj_type entity_id n s).status ≠ H.EX_NOERR ∧
    (ex_get_object_truth_vector H F exoid obj_type entity_id n s).status = H.EX_WARN ∧
    (ex_get_object_truth_vector H F exoid obj_type entity_id n s).st.exerrval = H.EX_BADPARAM ∧
    events_of s (ex_get_object_truth_vector H F exoid obj_type entity_id n s) =
      [.ex_err routine (.invalid_variable_type obj_type exoid) H.EX_BADPARAM] ∧
    (∀ e ∈ events_of s (ex_get_object_truth_vector H F exoid obj_type entity_id n s),
      e.isFileAccess = false) ∧
    (ex_get_object_truth_vector H F exoid obj_type entity_id n s).st.var_vec = s.var_vec ∧
    (ex_get_object_truth_vector H F exoid obj_type entity_id n s).st.ncerr = s.ncerr := by
  have hev : events_of s (ex_get_object_truth_vector H F exoid obj_type entity_id n s) =
      [.ex_err routine (.invalid_variable_type obj_type exoid) H.EX_BADPARAM] := by
    apply events_of_eq
    simp only [ex_get_object_truth_vector, hc, call_ex_err_trace]
  refine ⟨?_, ?_, ?_, hev, ?_, ?_, ?_⟩
  · simp only [ex_get_object_truth_vector, hc]
    exact hw
  · simp only [ex_get_object_truth_vector, hc]
  · simp only [ex_get_object_truth_vector, hc, call_ex_err_exerrval]
  · intro e he
    rw [hev, List.mem_singleton] at he
    rw [he]
    rfl
  · simp only [ex_get_object_truth_vector, hc, call_ex_err_var_vec]
  · simp only [ex_get_object_truth_vector, hc, call_ex_err_ncerr]

/-- C4, at the scenario of the specification: category value 999. -/
theorem invalid_category_no_file_access_witness :
    (category (.other 999) = none ∧ exodusII_h.EX_WARN ≠ exodusII_h.EX_NOERR) ∧
    (ex_get_object_truth_vector exodusII_h storedFile 1 (.other 999) 7 4 s0).status ≠ 0 ∧
    (ex_get_object_truth_vector exodusII_h storedFile 1 (.other 999) 7 4 s0).st.exerrval = 1005 ∧
    events_of s0 (ex_get_object_truth_vector exodusII_h storedFile 1 (.other 999) 7 4 s0) =
      [.ex_err routine (.invalid_variable_type (.other 999) 1) 1005] := by
  have h := invalid_category_no_file_access exodusII_h storedFile 1 (.other 999) 7 4 s0 rfl
    (by decide)
  exact ⟨⟨rfl, by decide⟩, h.1, h.2.2.1, h.2.2.2.1⟩

/-- C3, as the routine has it: for every supported category, when the id lookup
reports no error and the variable-count query succeeds, an expected count that
differs from the recorded one makes the routine fail with the count-mismatch
message, status `EX_FATAL` and `exerrval = EX_FATAL`, whether or not a stored
truth table exists; it reads nothing further and leaves the buffer alone. -/
theorem count_mismatch_is_fatal (H : ExodusHeader) (F : ExoFile) (exoid : Int)
    (obj_type : ex_entity_type) (c : Category) (entity_id n : Int) (s : State)
    (hc : category obj_type = some c)
    (herr : (F.ex_id_lkup c.id_var entity_id).exerrval = 0)
    (hdim : (F.ex_get_dimension c.dim).dimid ≠ -1)
    (hcount : (F.ex_get_dimension c.dim).count ≠ n) :
    (ex_get_object_truth_vector H F exoid obj_type entity_id n s).status = H.EX_FATAL ∧
    (ex_get_object_truth_vector H F exoid obj_type entity_id n s).st.exerrval = H.EX_FATAL ∧
    events_of s (ex_get_object_truth_vector H F exoid obj_type entity_id n s) =
      [.ex_id_lkup c.id_var entity_id, .ex_get_dimension c.dim c.label, .ncvarid c.tab,
        .ex_err routine (.num_variables_mismatch exoid) H.EX_FATAL] ∧
    reported (events_of s (ex_get_object_truth_vector H F exoid obj_type entity_id n s)) =
      [.VariableCountMismatch] ∧
    (ex_get_object_truth_vector H F exoid obj_type entity_id n s).st.var_vec = s.var_vec := by
  have hev : events_of s (ex_get_object_truth_vector H F exoid obj_type entity_id n s) =
      [.ex_id_lkup c.id_var entity_id, .ex_get_dimension c.dim c.label, .ncvarid c.tab,
        .ex_err routine (.num_variables_mismatch exoid) H.EX_FATAL] := by
    apply events_of_eq
    rw [routine_of_category H F exoid obj_type c entity_id n s hc]
    simp only [hdim, after_switch_exerrval, herr, hcount, if_false, if_true, ne_eq,
      not_true_eq_false, not_false_eq_true, call_ex_err_trace, after_switch_trace,
      List.append_assoc, List.cons_append, List.nil_append]
  refine ⟨?_, ?_, hev, ?_, ?_⟩
  · rw [routine_of_category H F exoid obj_type c entity_id n s hc]
    simp only [hdim, after_switch_exerrval, herr, hcount, if_false, if_true, ne_eq,
      not_true_eq_false, not_false_eq_true]
  · rw [routine_of_category H F exoid obj_type c entity_id n s hc]
    simp only [hdim, after_switch_exerrval, herr, hcount, if_false, if_true, ne_eq,
      not_true_eq_false, not_false_eq_true, call_ex_err_exerrval]
  · rw [hev]
    rfl
  · rw [routine_of_category H F exoid obj_type c entity_id n s hc]
    simp only [hdim, after_switch_exerrval, herr, hcount, if_false, if_true, ne_eq,
      not_true_eq_false, not_false_eq_true, call_ex_err_var_vec, after_switch_var_vec]

/-- C3 as the routine has it, on the file with four recorded element variables and an
expected count of three. -/
theorem count_mismatch_is_fatal_witness :
    (category .EX_ELEM_BLOCK = some
      ⟨.VAR_ID_EL_BLK, .DIM_NUM_ELE_VAR, "element variables", .VAR_ELEM_TAB,
        "vals_elem_var", "eb"⟩ ∧
     (storedFile.ex_id_lkup .VAR_ID_EL_BLK 7).exerrval = 0 ∧
     (storedFile.ex_get_dimension .DIM_NUM_ELE_VAR).dimid ≠ -1 ∧
     (storedFile.ex_get_dimension .DIM_NUM_ELE_VAR).count ≠ 3) ∧
    (ex_get_object_truth_vector exodusII_h storedFile 1 .EX_ELEM_BLOCK 7 3 s0).status = -1 ∧
    (ex_get_object_truth_vector exodusII_h storedFile 1 .EX_ELEM_BLOCK 7 3 s0).st.exerrval = -1 ∧
    reported (events_of s0
      (ex_get_object_truth_vector exodusII_h storedFile 1 .EX_ELEM_BLOCK 7 3 s0)) =
      [.VariableCountMismatch] := by
  have h := count_mismatch_is_fatal exodusII_h storedFile 1 .EX_ELEM_BLOCK
    ⟨.VAR_ID_EL_BLK, .DIM_NUM_ELE_VAR, "element variables", .VAR_ELEM_TAB, "vals_elem_var", "eb"⟩
    7 3 s0 rfl rfl (by decide) (by decide)
  exact ⟨⟨rfl, rfl, by decide, by decide⟩, h.1, h.2.1, h.2.2.2.1⟩

/-- C3 as stated fails: on a file that records three variables, a call for a
null placeholder entity with an expected count of four returns `EX_WARN`, not
`EX_FATAL`, and reports the null-entity warning, not the count mismatch. -/
theorem count_mismatch_not_reported_for_null_entity :
    category .EX_NODE_SET ≠ none ∧
    (nullEntityFile.ex_get_dimension .DIM_NUM_NSET_VAR).dimid ≠ -1 ∧
    (nullEntityFile.ex_get_dimension .DIM_NUM_NSET_VAR).count ≠ 4 ∧
    (ex_get_object_truth_vector exodusII_h nullEntityFile 1 .EX_NODE_SET 12 4 s0).status
      = exodusII_h.EX_WARN ∧
    (ex_get_object_truth_vector exodusII_h nullEntityFile 1 .EX_NODE_SET 12 4 s0).status
      ≠ exodusII_h.EX_FATAL ∧
    reported (events_of s0
      (ex_get_object_truth_vector exodusII_h nullEntityFile 1 .EX_NODE_SET 12 4 s0)) =
      [.NullEntityWarning] := by
  refine ⟨by decide, by decide, by decide, rfl, by decide, by decide⟩

/-- C5, as the routine has it: for every supported category, when the
variable-count query succeeds and the id lookup leaves an error code that is not
`EX_NULLENTITY` (the id is not in the id table and is no null placeholder), the
routine fails with the failed-to-locate message and status `EX_FATAL`, keeps the
code of the lookup in `exerrval` and leaves the buffer alone. -/
theorem lookup_failure_is_fatal (H : ExodusHeader) (F : ExoFile) (exoid : Int)
    (obj_type : ex_entity_type) (c : Category) (entity_id n : Int) (s : State)
    (hc : category obj_type = some c)
    (hdim : (F.ex_get_dimension c.dim).dimid ≠ -1)
    (herr : (F.ex_id_lkup c.id_var entity_id).exerrval ≠ 0)
    (hnull : (F.ex_id_lkup c.id_var entity_id).exerrval ≠ H.EX_NULLENTITY) :
    (ex_get_object_truth_vector H F exoid obj_type entity_id n s).status = H.EX_FATAL ∧
    (ex_get_object_truth_vector H F exoid obj_type entity_id n s).st.exerrval =
      (F.ex_id_lkup c.id_var entity_id).exerrval ∧
    events_of s (ex_get_object_truth_vector H F exoid obj_type entity_id n s) =
      [.ex_id_lkup c.id_var entity_id, .ex_get_dimension c.dim c.label, .ncvarid c.tab,
        .ex_err routine (.failed_to_locate_id obj_type entity_id exoid)
          (F.ex_id_lkup c.id_var entity_id).exerrval] ∧
    reported (events_of s (ex_get_object_truth_vector H F exoid obj_type entity_id n s)) =
      [.EntityNotFound] ∧
    (ex_get_object_truth_vector H F exoid obj_type entity_id n s).st.var_vec = s.var_vec := by
  have hev : events_of s (ex_get_object_truth_vector H F exoid obj_type entity_id n s) =
      [.ex_id_lkup c.id_var entity_id, .ex_get_dimension c.dim c.label, .ncvarid c.tab,
        .ex_err routine (.failed_to_locate_id obj_type entity_id exoid)
          (F.ex_id_lkup c.id_var entity_id).exerrval] := by
    apply events_of_eq
    rw [routine_of_category H F exoid obj_type c entity_id n s hc]
    simp only [hdim, after_switch_exerrval, herr, hnull, if_false, if_true, ne_eq,
      not_true_eq_false, not_false_eq_true, call_ex_err_trace, after_switch_trace,
      List.append_assoc, List.cons_append, List.nil_append]
  refine ⟨?_, ?_, hev, ?_, ?_⟩
  · rw [routine_of_category H F exoid obj_type c entity_id n s hc]
    simp only [hdim, after_switch_exerrval, herr, hnull, if_false, if_true, ne_eq,
      not_true_eq_false, not_false_eq_true]
  · rw [routine_of_category H F exoid obj_type c entity_id n s hc]
    simp only [hdim, after_switch_exerrval, herr, hnull, if_false, if_true, ne_eq,
      not_true_eq_false, not_false_eq_true, call_ex_err_exerrval]
  · rw [hev]
    rfl
  · rw [routine_of_category H F exoid obj_type c entity_id n s hc]
    simp only [hdim, after_switch_exerrval, herr, hnull, if_false, if_true, ne_eq,
      not_true_eq_false, not_false_eq_true, call_ex_err_var_vec, after_switch_var_vec]

/-- C5 as the routine has it, on a node set whose id is not in the id table of a file that
records node-set variables. -/
theorem lookup_failure_is_fatal_witness :
    (category .EX_NODE_SET = some
      ⟨.VAR_NS_IDS, .DIM_NUM_NSET_VAR, "nodeset variables", .VAR_NSET_TAB,
        "vals_nset_var", "ns"⟩ ∧
     (storedFile.ex_get_dimension .DIM_NUM_NSET_VAR).dimid ≠ -1 ∧
     (storedFile.ex_id_lkup .VAR_NS_IDS 8).exerrval ≠ 0 ∧
     (storedFile.ex_id_lkup .VAR_NS_IDS 8).exerrval ≠ exodusII_h.EX_NULLENTITY) ∧
    (ex_get_object_truth_vector exodusII_h storedFile 1 .EX_NODE_SET 8 4 s0).status = -1 ∧
    reported (events_of s0
      (ex_get_object_truth_vector exodusII_h storedFile 1 .EX_NODE_SET 8 4 s0)) =
      [.EntityNotFound] ∧
    (ex_get_object_truth_vector exodusII_h storedFile 1 .EX_NODE_SET 8 4 s0).st.var_vec
      = s0.var_vec := by
  have h := lookup_failure_is_fatal exodusII_h storedFile 1 .EX_NODE_SET
    ⟨.VAR_NS_IDS, .DIM_NUM_NSET_VAR, "nodeset variables", .VAR_NSET_TAB, "vals_nset_var", "ns"⟩
    8 4 s0 rfl (by decide) (by decide) (by decide)
  exact ⟨⟨rfl, by decide, by decide, by decide⟩, h.1, h.2.2.2.1, h.2.2.2.2⟩

/-- C5 as stated fails: on a file that records no node-set variables (the
variable-count query fails), a call for a node set whose id is not in the id
table and is no null placeholder returns `EX_WARN`, not `EX_FATAL`, without the
failed-to-locate message. -/
theorem lookup_failure_soft_without_variables :
    category .EX_NODE_SET ≠ none ∧
    (noVariablesFile.ex_id_lkup .VAR_NS_IDS 8).exerrval ≠ 0 ∧
    (noVariablesFile.ex_id_lkup .VAR_NS_IDS 8).exerrval ≠ exodusII_h.EX_NULLENTITY ∧
    (ex_get_object_truth_vector exodusII_h noVariablesFile 1 .EX_NODE_SET 8 4 s0).status
      = exodusII_h.EX_WARN ∧
    (ex_get_object_truth_vector exodusII_h noVariablesFile 1 .EX_NODE_SET 8 4 s0).status
      ≠ exodusII_h.EX_FATAL ∧
    reported (events_of s0
      (ex_get_object_truth_vector exodusII_h noVariablesFile 1 .EX_NODE_SET 8 4 s0)) = [] := by
  refine ⟨by decide, by decide, by decide, rfl, by decide, by decide⟩

/-- C6: for every supported category, if the id lookup reports a null
placeholder (it leaves `EX_NULLENTITY` in `exerrval`), the routine returns the
soft status `EX_WARN` and not the fatal status, never with the failed-to-locate
message, and leaves the buffer alone; when the variable-count query succeeds it
is the null-entity warning with `exerrval = EX_NULLENTITY`. -/
theorem null_entity_is_soft (H : ExodusHeader) (F : ExoFile) (exoid : Int)
    (obj_type : ex_entity_type) (c : Category) (entity_id n : Int) (s : State)
    (hc : category obj_type = some c)
    (hnull : (F.ex_id_lkup c.id_var entity_id).exerrval = H.EX_NULLENTITY)
    (hnz : H.EX_NULLENTITY ≠ 0)
    (hwf : H.EX_WARN ≠ H.EX_FATAL) :
    (ex_get_object_truth_vector H F exoid obj_type entity_id n s).status = H.EX_WARN ∧
    (ex_get_object_truth_vector H F exoid obj_type entity_id n s).status ≠ H.EX_FATAL ∧
    ErrorKind.EntityNotFound ∉
      reported (events_of s (ex_get_object_truth_vector H F exoid obj_type entity_id n s)) ∧
    (ex_get_object_truth_vector H F exoid obj_type entity_id n s).st.var_vec = s.var_vec ∧
    ((F.ex_get_dimension c.dim).dimid ≠ -1 →
      reported (events_of s (ex_get_object_truth_vector H F exoid obj_type entity_id n s)) =
        [.NullEntityWarning] ∧
      (ex_get_object_truth_vector H F exoid obj_type entity_id n s).st.exerrval =
        H.EX_NULLENTITY) := by
  by_cases hdim : (F.ex_get_dimension c.dim).dimid = -1
  · have hev : events_of s (ex_get_object_truth_vector H F exoid obj_type entity_id n s) =
        [.ex_id_lkup c.id_var entity_id, .ex_get_dimension c.dim c.label, .ncvarid c.tab] := by
      apply events_of_eq
      rw [routine_of_category H F exoid obj_type c entity_id n s hc]
      simp only [hdim, if_true, after_switch_trace]
    have hst : (ex_get_object_truth_vector H F exoid obj_type entity_id n s).status
        = H.EX_WARN := by
      rw [routine_of_category H F exoid obj_type c entity_id n s hc]
      simp only [hdim, if_true]
    refine ⟨hst, by rw [hst]; exact hwf, ?_, ?_, fun h => absurd hdim h⟩
    · rw [hev]
      simp [reported]
    · rw [routine_of_category H F exoid obj_type c entity_id n s hc]
      simp only [hdim, if_true, after_switch_var_vec]
  · have hev : events_of s (ex_get_object_truth_vector H F exoid obj_type entity_id n s) =
        [.ex_id_lkup c.id_var entity_id, .ex_get_dimension c.dim c.label, .ncvarid c.tab,
          .ex_err routine (.no_variables_for_NULL_block obj_type entity_id exoid)
            H.EX_NULLENTITY] := by
      apply events_of_eq
      rw [routine_of_category H F exoid obj_type c entity_id n s hc]
      simp only [hdim, after_switch_exerrval, hnull, hnz, if_false, if_true, ne_eq,
        not_true_eq_false, not_false_eq_true, call_ex_err_trace, after_switch_trace,
        List.append_assoc, List.cons_append, List.nil_append]
    have hst : (ex_get_object_truth_vector H F exoid obj_type entity_id n s).status
        = H.EX_WARN := by
      rw [routine_of_category H F exoid obj_type c entity_id n s hc]
      simp only [hdim, after_switch_exerrval, hnull, hnz, if_false, if_true, ne_eq,
        not_true_eq_false, not_false_eq_true]
    refine ⟨hst, by rw [hst]; exact hwf, ?_, ?_, fun _ => ⟨?_, ?_⟩⟩
    · rw [hev]
      simp [reported, ErrMsg.kind]
    · rw [routine_of_category H F exoid obj_type c entity_id n s hc]
      simp only [hdim, after_switch_exerrval, hnull, hnz, if_false, if_true, ne_eq,
        not_true_eq_false, not_false_eq_true, call_ex_err_var_vec, after_switch_var_vec]
    · rw [hev]
      rfl
    · rw [routine_of_category H F exoid obj_type c entity_id n s hc]
      simp only [hdim, after_switch_exerrval, hnull, hnz, if_false, if_true, ne_eq,
        not_true_eq_false, not_false_eq_true, call_ex_err_exerrval]

/-- C6, on a file whose side set 12 is a null placeholder. -/
theorem null_entity_is_soft_witness :
    (category .EX_SIDE_SET = some
      ⟨.VAR_SS_IDS, .DIM_NUM_SSET_VAR, "sideset variables", .VAR_SSET_TAB,
        "vals_sset_var", "ss"⟩ ∧
     (nullEntityFile.ex_id_lkup .VAR_SS_IDS 12).exerrval = exodusII_h.EX_NULLENTITY ∧
     exodusII_h.EX_NULLENTITY ≠ 0 ∧
     exodusII_h.EX_WARN ≠ exodusII_h.EX_FATAL) ∧
    (ex_get_object_truth_vector exodusII_h nullEntityFile 1 .EX_SIDE_SET 12 3 s0).status = 1 ∧
    (ex_get_object_truth_vector exodusII_h nullEntityFile 1 .EX_SIDE_SET 12 3 s0).status ≠ -1 := by
  have h := null_entity_is_soft exodusII_h nullEntityFile 1 .EX_SIDE_SET
    ⟨.VAR_SS_IDS, .DIM_NUM_SSET_VAR, "sideset variables", .VAR_SSET_TAB, "vals_sset_var", "ss"⟩
    12 3 s0 rfl rfl (by decide) (by decide)
  exact ⟨⟨rfl, rfl, by decide, by decide⟩, h.1, h.2.1⟩

/-- C7, as the routine has it: every return that is not `EX_NOERR` is the
invalid-category error (with `exerrval = EX_BADPARAM`), one of the four other
kinds, or a sixth outcome, the failed variable-count query, which reports no
kind, has the soft status `EX_WARN` and leaves `ncerr` in `exerrval`; the
null-entity warning has the soft status `EX_WARN`; entity-not-found, count
mismatch and read failure have the status `EX_FATAL`. -/
theorem error_kinds_and_status (H : ExodusHeader) (F : ExoFile) (exoid : Int)
    (obj_type : ex_entity_type) (entity_id n : Int) (s : State) :
    (ex_get_object_truth_vector H F exoid obj_type entity_id n s).status = H.EX_NOERR ∨
    (reported (events_of s (ex_get_object_truth_vector H F exoid obj_type entity_id n s)) =
        [.InvalidCategory] ∧
      (ex_get_object_truth_vector H F exoid obj_type entity_id n s).st.exerrval =
        H.EX_BADPARAM) ∨
    (reported (events_of s (ex_get_object_truth_vector H F exoid obj_type entity_id n s)) = [] ∧
      (ex_get_object_truth_vector H F exoid obj_type entity_id n s).status = H.EX_WARN ∧
      (ex_get_object_truth_vector H F exoid obj_type entity_id n s).st.exerrval =
        (ex_get_object_truth_vector H F exoid obj_type entity_id n s).st.ncerr) ∨
    (reported (events_of s (ex_get_object_truth_vector H F exoid obj_type entity_id n s)) =
        [.NullEntityWarning] ∧
      (ex_get_object_truth_vector H F exoid obj_type entity_id n s).status = H.EX_WARN ∧
      (ex_get_object_truth_vector H F exoid obj_type entity_id n s).st.exerrval =
        H.EX_NULLENTITY) ∨
    (reported (events_of s (ex_get_object_truth_vector H F exoid obj_type entity_id n s)) =
        [.EntityNotFound] ∧
      (ex_get_object_truth_vector H F exoid obj_type entity_id n s).status = H.EX_FATAL) ∨
    (reported (events_of s (ex_get_object_truth_vector H F exoid obj_type entity_id n s)) =
        [.VariableCountMismatch] ∧
      (ex_get_object_truth_vector H F exoid obj_type entity_id n s).status = H.EX_FATAL ∧
      (ex_get_object_truth_vector H F exoid obj_type entity_id n s).st.exerrval = H.EX_FATAL) ∨
    (reported (events_of s (ex_get_object_truth_vector H F exoid obj_type entity_id n s)) =
        [.ReadFailure] ∧
      (ex_get_object_truth_vector H F exoid obj_type entity_id n s).status = H.EX_FATAL ∧
      (ex_get_object_truth_vector H F exoid obj_type entity_id n s).st.exerrval =
        (ex_get_object_truth_vector H F exoid obj_type entity_id n s).st.ncerr) := by
  rcases routine_cases H F exoid obj_type entity_id n s with
    h | h | h | h | h | h | h
  · exact Or.inl h
  · exact Or.inr (Or.inl ⟨h.1, h.2.2.1⟩)
  · exact Or.inr (Or.inr (Or.inl ⟨h.1, h.2.1, h.2.2.1⟩))
  · exact Or.inr (Or.inr (Or.inr (Or.inl ⟨h.1, h.2.1, h.2.2.1⟩)))
  · exact Or.inr (Or.inr (Or.inr (Or.inr (Or.inl ⟨h.1, h.2.1⟩))))
  · exact Or.inr (Or.inr (Or.inr (Or.inr (Or.inr (Or.inl ⟨h.1, h.2.1, h.2.2.1⟩)))))
  · exact Or.inr (Or.inr (Or.inr (Or.inr (Or.inr (Or.inr ⟨h.1, h.2.1, h.2.2.1⟩)))))

/-- C7 as stated fails twice: category value 999 is the invalid-category error
and returns `EX_WARN`, not `EX_FATAL`; and on a file that records no node-set
variables the routine returns `EX_WARN`, which is not `EX_NOERR`, having
reported none of the five kinds. -/
theorem soft_status_beyond_null_entity :
    (reported (events_of s0
        (ex_get_object_truth_vector exodusII_h storedFile 1 (.other 999) 7 4 s0)) =
        [.InvalidCategory] ∧
      (ex_get_object_truth_vector exodusII_h storedFile 1 (.other 999) 7 4 s0).status
        = exodusII_h.EX_WARN ∧
      (ex_get_object_truth_vector exodusII_h storedFile 1 (.other 999) 7 4 s0).status
        ≠ exodusII_h.EX_FATAL) ∧
    ((ex_get_object_truth_vector exodusII_h noVariablesFile 1 .EX_NODE_SET 8 4 s0).status
        = exodusII_h.EX_WARN ∧
      (ex_get_object_truth_vector exodusII_h noVariablesFile 1 .EX_NODE_SET 8 4 s0).status
        ≠ exodusII_h.EX_NOERR ∧
      reported (events_of s0
        (ex_get_object_truth_vector exodusII_h noVariablesFile 1 .EX_NODE_SET 8 4 s0)) = []) := by
  refine ⟨⟨by decide, rfl, by decide⟩, rfl, by decide, by decide⟩

/-- C8, as the routine has it: whenever the routine returns a status other than
`EX_NOERR` it has itself stored nothing in the vector.  Unless the failure is a
read failure, the buffer holds exactly what it held before the call; after a
read failure it holds what the failed `ncvarget`, which was given the caller's
buffer, left in it: the values that read had stored in the first cells, at most
`n` of them, and the old content elsewhere. -/
theorem failure_leaves_vector_unless_read_failed (H : ExodusHeader) (F : ExoFile)
    (exoid : Int) (obj_type : ex_entity_type) (entity_id n : Int) (s : State)
    (hfail : (ex_get_object_truth_vector H F exoid obj_type entity_id n s).status
      ≠ H.EX_NOERR) :
    (ErrorKind.ReadFailure ∉
        reported (events_of s (ex_get_object_truth_vector H F exoid obj_type entity_id n s)) ∧
      (ex_get_object_truth_vector H F exoid obj_type entity_id n s).st.var_vec = s.var_vec) ∨
    (reported (events_of s (ex_get_object_truth_vector H F exoid obj_type entity_id n s)) =
        [.ReadFailure] ∧
      ∃ c f, category obj_type = some c ∧
        F.ncvarget_fail (F.ncvarid c.tab).varid (resolved_index F c entity_id - 1) 0 1 n
          = some f ∧
        (ex_get_object_truth_vector H F exoid obj_type entity_id n s).st.var_vec =
          store s.var_vec (f.wrote.take n.toNat)) := by
  rcases routine_cases H F exoid obj_type entity_id n s with
    h | h | h | h | h | h | h
  · exact absurd h hfail
  · exact Or.inl ⟨by rw [h.1]; decide, h.2.2.2⟩
  · exact Or.inl ⟨by rw [h.1]; decide, h.2.2.2⟩
  · exact Or.inl ⟨by rw [h.1]; decide, h.2.2.2⟩
  · exact Or.inl ⟨by rw [h.1]; decide, h.2.2.2⟩
  · exact Or.inl ⟨by rw [h.1]; decide, h.2.2.2⟩
  · exact Or.inr ⟨h.1, h.2.2.2⟩

/-- C8 as the routine has it, on a call that fails because the id is not in the id table:
the buffer is as before. -/
theorem failure_leaves_vector_unless_read_failed_witness :
    (ex_get_object_truth_vector exodusII_h storedFile 1 .EX_NODE_SET 8 4 s0).status
      ≠ exodusII_h.EX_NOERR ∧
    ((ErrorKind.ReadFailure ∉ reported (events_of s0
          (ex_get_object_truth_vector exodusII_h storedFile 1 .EX_NODE_SET 8 4 s0)) ∧
        (ex_get_object_truth_vector exodusII_h storedFile 1 .EX_NODE_SET 8 4 s0).st.var_vec
          = s0.var_vec) ∨
      (reported (events_of s0
          (ex_get_object_truth_vector exodusII_h storedFile 1 .EX_NODE_SET 8 4 s0)) =
          [.ReadFailure] ∧
        ∃ c f, category .EX_NODE_SET = some c ∧
          storedFile.ncvarget_fail (storedFile.ncvarid c.tab).varid
            (resolved_index storedFile c 8 - 1) 0 1 4 = some f ∧
          (ex_get_object_truth_vector exodusII_h storedFile 1 .EX_NODE_SET 8 4 s0).st.var_vec =
            store s0.var_vec (f.wrote.take (4 : Int).toNat))) :=
  ⟨by decide,
    failure_leaves_vector_unless_read_failed exodusII_h storedFile 1 .EX_NODE_SET 8 4 s0
      (by decide)⟩

/-- C8 as stated fails: when the row read gives up after storing two values,
the routine returns `EX_FATAL` and the first cell of the caller's buffer, which
held 5 before the call, holds 1. -/
theorem read_failure_leaves_partial_vector :
    (ex_get_object_truth_vector exodusII_h failingReadFile 1 .EX_ELEM_BLOCK 7 4 s0).status
      = exodusII_h.EX_FATAL ∧
    (ex_get_object_truth_vector exodusII_h failingReadFile 1 .EX_ELEM_BLOCK 7 4 s0).status
      ≠ exodusII_h.EX_NOERR ∧
    s0.var_vec 0 = 5 ∧
    (ex_get_object_truth_vector exodusII_h failingReadFile 1 .EX_ELEM_BLOCK 7 4 s0).st.var_vec 0
      = 1 ∧
    (ex_get_object_truth_vector exodusII_h failingReadFile 1 .EX_ELEM_BLOCK 7 4 s0).st.var_vec
      ≠ s0.var_vec := by
  have h1 : (ex_get_object_truth_vector exodusII_h failingReadFile 1 .EX_ELEM_BLOCK 7 4
      s0).st.var_vec 0 = 1 := by decide
  refine ⟨rfl, by decide, rfl, h1, ?_⟩
  intro h
  rw [h] at h1
  exact absurd h1 (by decide)

/-- C10: when a stored truth table exists and the read of the entity's row
fails (supported category, entity resolved, counts equal, so that the read is
made), the routine returns `EX_FATAL` and `exerrval` holds the code the failed
`ncvarget` left in `ncerr`; the last thing it does is the call of `ex_err` with
that code. -/
theorem read_failure_reports_ncerr (H : ExodusHeader) (F : ExoFile) (exoid : Int)
    (obj_type : ex_entity_type) (c : Category) (entity_id n : Int) (s : State) (f : ReadFail)
    (hc : category obj_type = some c)
    (herr : (F.ex_id_lkup c.id_var entity_id).exerrval = 0)
    (hdim : (F.ex_get_dimension c.dim).dimid ≠ -1)
    (hcount : (F.ex_get_dimension c.dim).count = n)
    (htab : (F.ncvarid c.tab).varid ≠ -1)
    (hread : F.ncvarget_fail (F.ncvarid c.tab).varid (resolved_index F c entity_id - 1) 0 1 n
      = some f) :
    (ex_get_object_truth_vector H F exoid obj_type entity_id n s).status = H.EX_FATAL ∧
    (ex_get_object_truth_vector H F exoid obj_type entity_id n s).st.exerrval = f.ncerr ∧
    (ex_get_object_truth_vector H F exoid obj_type entity_id n s).st.ncerr = f.ncerr ∧
    events_of s (ex_get_object_truth_vector H F exoid obj_type entity_id n s) =
      [.ex_id_lkup c.id_var entity_id, .ex_get_dimension c.dim c.label, .ncvarid c.tab,
        .ncvarget (F.ncvarid c.tab).varid (resolved_index F c entity_id - 1) 0 1 n,
        .ex_err routine (.failed_to_get_truth_vector exoid) f.ncerr] := by
  have hev : events_of s (ex_get_object_truth_vector H F exoid obj_type entity_id n s) =
      [.ex_id_lkup c.id_var entity_id, .ex_get_dimension c.dim c.label, .ncvarid c.tab,
        .ncvarget (F.ncvarid c.tab).varid (resolved_index F c entity_id - 1) 0 1 n,
        .ex_err routine (.failed_to_get_truth_vector exoid) f.ncerr] := by
    apply events_of_eq
    unfold resolved_index at hread ⊢
    rw [routine_of_category H F exoid obj_type c entity_id n s hc]
    simp only [hdim, after_switch_exerrval, herr, hcount, htab, if_false, if_true,
      ne_eq, not_true_eq_false, not_false_eq_true, call_ncvarget, hread,
      call_ex_err_trace, log, after_switch_trace, List.append_assoc,
      List.cons_append, List.nil_append]
  refine ⟨?_, ?_, ?_, hev⟩ <;>
    unfold resolved_index at hread <;>
    rw [routine_of_category H F exoid obj_type c entity_id n s hc] <;>
    simp only [hdim, after_switch_exerrval, herr, hcount, htab, if_false, if_true,
      ne_eq, not_true_eq_false, not_false_eq_true, call_ncvarget, hread,
      call_ex_err_exerrval, call_ex_err_ncerr, log]

/-- C10, on the file whose row read gives up with code -31. -/
theorem read_failure_reports_ncerr_witness :
    (category .EX_ELEM_BLOCK = some
      ⟨.VAR_ID_EL_BLK, .DIM_NUM_ELE_VAR, "element variables", .VAR_ELEM_TAB,
        "vals_elem_var", "eb"⟩ ∧
     (failingReadFile.ex_id_lkup .VAR_ID_EL_BLK 7).exerrval = 0 ∧
     (failingReadFile.ex_get_dimension .DIM_NUM_ELE_VAR).dimid ≠ -1 ∧
     (failingReadFile.ex_get_dimension .DIM_NUM_ELE_VAR).count = 4 ∧
     (failingReadFile.ncvarid .VAR_ELEM_TAB).varid ≠ -1 ∧
     failingReadFile.ncvarget_fail (failingReadFile.ncvarid .VAR_ELEM_TAB).varid
       (resolved_index failingReadFile
         ⟨.VAR_ID_EL_BLK, .DIM_NUM_ELE_VAR, "element variables", .VAR_ELEM_TAB,
           "vals_elem_var", "eb"⟩ 7 - 1) 0 1 4 = some ⟨-31, [1, 0]⟩) ∧
    (ex_get_object_truth_vector exodusII_h failingReadFile 1 .EX_ELEM_BLOCK 7 4 s0).status
      = -1 ∧
    (ex_get_object_truth_vector exodusII_h failingReadFile 1 .EX_ELEM_BLOCK 7 4 s0).st.exerrval
      = -31 ∧
    (ex_get_object_truth_vector exodusII_h failingReadFile 1 .EX_ELEM_BLOCK 7 4 s0).st.ncerr
      = -31 := by
  have h := read_failure_reports_ncerr exodusII_h failingReadFile 1 .EX_ELEM_BLOCK
    ⟨.VAR_ID_EL_BLK, .DIM_NUM_ELE_VAR, "element variables", .VAR_ELEM_TAB, "vals_elem_var", "eb"⟩
    7 4 s0 ⟨-31, [1, 0]⟩ rfl rfl (by decide) rfl (by decide) rfl
  exact ⟨⟨rfl, rfl, by decide, rfl, by decide, rfl⟩, h.1, h.2.1, h.2.2.1⟩

/-! ## Repeated calls and the length of the vector -/

theorem store_store (v : Nat → Int) (l : List Int) : store (store v l) l = store v l := by
  funext i
  simp only [store]
  cases l.get? i <;> rfl

theorem store_of_le (v : Nat → Int) (l : List Int) (j : Nat) (h : l.length ≤ j) :
    store v l j = v j := by
  simp only [store, List.get?_eq_getElem?, List.getElem?_eq_none h, Option.getD_none]

theorem call_ncvarget_fst (F : ExoFile) (varid a b c d : Int) (s : State) :
    (call_ncvarget F varid a b c d s).1 =
      match F.ncvarget_fail varid a b c d with
      | some _ => -1
      | none => 0 := by
  unfold call_ncvarget
  cases F.ncvarget_fail varid a b c d <;> rfl

theorem call_ncvarget_var_vec (F : ExoFile) (varid a b c d : Int) (s : State) :
    (call_ncvarget F varid a b c d s).2.var_vec =
      store s.var_vec
        (match F.ncvarget_fail varid a b c d with
        | some f => f.wrote.take (c.toNat * d.toNat)
        | none => hyperslab F varid a b c d) := by
  unfold call_ncvarget
  cases F.ncvarget_fail varid a b c d <;> rfl

/-- The status of a call and the cells it leaves are fixed by the file, the
arguments and the cells before the call: the status does not depend on the state
at all, and the cells are an idempotent function of the cells before. -/
theorem routine_status_and_cells (H : ExodusHeader) (F : ExoFile) (exoid : Int)
    (obj_type : ex_entity_type) (entity_id n : Int) :
    ∃ (st : Int) (g : (Nat → Int) → (Nat → Int)), (∀ v, g (g v) = g v) ∧
      ∀ s : State,
        (ex_get_object_truth_vector H F exoid obj_type entity_id n s).status = st ∧
        (ex_get_object_truth_vector H F exoid obj_type entity_id n s).st.var_vec
          = g s.var_vec := by
  cases hc : category obj_type with
  | none =>
    refine ⟨H.EX_WARN, id, fun _ => rfl, fun s => ?_⟩
    simp only [ex_get_object_truth_vector, hc, call_ex_err_var_vec, id, and_self]
  | some c =>
    by_cases hdim : (F.ex_get_dimension c.dim).dimid = -1
    · refine ⟨H.EX_WARN, id, fun _ => rfl, fun s => ?_⟩
      rw [routine_of_category H F exoid obj_type c entity_id n s hc]
      simp only [hdim, if_true, after_switch_var_vec, id, and_self]
    · by_cases herr : (F.ex_id_lkup c.id_var entity_id).exerrval = 0
      · by_cases hcount : (F.ex_get_dimension c.dim).count = n
        · by_cases htab : (F.ncvarid c.tab).varid = -1
          · refine ⟨H.EX_NOERR,
              fun v j => if j ∈ List.range n.toNat then
                (if (F.ncvarid (.ex_catstr2 c.var_name ((j : Int) + 1) c.ent_type
                  (resolved_index F c entity_id))).varid = -1 then 0 else 1) else v j,
              fun v => ?_, fun s => ?_⟩
            · funext j
              by_cases hj : j ∈ List.range n.toNat <;> simp only [hj, if_true, if_false]
            · rw [routine_of_category H F exoid obj_type c entity_id n s hc]
              simp only [hdim, after_switch_exerrval, herr, hcount, htab, if_false, if_true,
                ne_eq, not_true_eq_false, not_false_eq_true, true_and]
              funext j
              rw [probe_loop_var_vec F c.var_name c.ent_type _ _ (List.nodup_range _) _ j,
                after_switch_var_vec]
              rfl
          · cases hread : F.ncvarget_fail (F.ncvarid c.tab).varid
                (resolved_index F c entity_id - 1) 0 1 n with
            | none =>
              refine ⟨H.EX_NOERR,
                fun v => store v (hyperslab F (F.ncvarid c.tab).varid
                  (resolved_index F c entity_id - 1) 0 1 n),
                fun v => store_store _ _, fun s => ?_⟩
              have h01 : ¬ (0 : Int) = -1 := by decide
              unfold resolved_index at hread ⊢
              rw [routine_of_category H F exoid obj_type c entity_id n s hc]
              simp only [hdim, after_switch_exerrval, herr, hcount, htab, if_false, if_true,
                ne_eq, not_true_eq_false, not_false_eq_true, call_ncvarget_fst,
                call_ncvarget_var_vec, hread, h01, after_switch_var_vec, and_self]
            | some f =>
              refine ⟨H.EX_FATAL,
                fun v => store v (f.wrote.take ((1 : Int).toNat * n.toNat)),
                fun v => store_store _ _, fun s => ?_⟩
              unfold resolved_index at hread
              rw [routine_of_category H F exoid obj_type c entity_id n s hc]
              simp only [hdim, after_switch_exerrval, herr, hcount, htab, if_false, if_true,
                ne_eq, not_true_eq_false, not_false_eq_true, call_ncvarget_fst,
                call_ncvarget_var_vec, hread, call_ex_err_var_vec, after_switch_var_vec,
                and_self]
        · refine ⟨H.EX_FATAL, id, fun _ => rfl, fun s => ?_⟩
          rw [routine_of_category H F exoid obj_type c entity_id n s hc]
          simp only [hdim, after_switch_exerrval, herr, hcount, if_false, if_true, ne_eq,
            not_true_eq_false, not_false_eq_true, call_ex_err_var_vec, after_switch_var_vec,
            id, and_self]
      · by_cases hnull : (F.ex_id_lkup c.id_var entity_id).exerrval = H.EX_NULLENTITY
        · have hnz : ¬ H.EX_NULLENTITY = 0 := hnull ▸ herr
          refine ⟨H.EX_WARN, id, fun _ => rfl, fun s => ?_⟩
          rw [routine_of_category H F exoid obj_type c entity_id n s hc]
          simp only [hdim, after_switch_exerrval, hnz, hnull, if_false, if_true, ne_eq,
            not_true_eq_false, not_false_eq_true, call_ex_err_var_vec, after_switch_var_vec,
            id, and_self]
        · refine ⟨H.EX_FATAL, id, fun _ => rfl, fun s => ?_⟩
          rw [routine_of_category H F exoid obj_type c entity_id n s hc]
          simp only [hdim, after_switch_exerrval, herr, hnull, if_false, if_true, ne_eq,
            not_true_eq_false, not_false_eq_true, call_ex_err_var_vec, after_switch_var_vec,
            id, and_self]

/-- C11: a second call with the same arguments on the same file, made in the
state the first call left, returns the same status and leaves the same vector
as the first; and so does a call made from any other content `e`, `c` of the
globals `exerrval` and `ncerr` with the same buffer: the code an earlier call
left in the error state has no influence on status or vector. -/
theorem repeated_call_same_status_and_vector (H : ExodusHeader) (F : ExoFile) (exoid : Int)
    (obj_type : ex_entity_type) (entity_id n : Int) (s : State) (e c : Int)
    (t : List Event) :
    (ex_get_object_truth_vector H F exoid obj_type entity_id n
        (ex_get_object_truth_vector H F exoid obj_type entity_id n s).st).status =
      (ex_get_object_truth_vector H F exoid obj_type entity_id n s).status ∧
    (ex_get_object_truth_vector H F exoid obj_type entity_id n
        (ex_get_object_truth_vector H F exoid obj_type entity_id n s).st).st.var_vec =
      (ex_get_object_truth_vector H F exoid obj_type entity_id n s).st.var_vec ∧
    (ex_get_object_truth_vector H F exoid obj_type entity_id n ⟨e, c, s.var_vec, t⟩).status =
      (ex_get_object_truth_vector H F exoid obj_type entity_id n s).status ∧
    (ex_get_object_truth_vector H F exoid obj_type entity_id n
        ⟨e, c, s.var_vec, t⟩).st.var_vec =
      (ex_get_object_truth_vector H F exoid obj_type entity_id n s).st.var_vec := by
  obtain ⟨st, g, hg, h⟩ := routine_status_and_cells H F exoid obj_type entity_id n
  refine ⟨?_, ?_, ?_, ?_⟩
  · rw [(h _).1, (h s).1]
  · rw [(h _).2, (h s).2, hg]
  · rw [(h _).1, (h s).1]
  · rw [(h _).2, (h s).2]

/-- C12: every return with `EX_NOERR` has the recorded variable count equal to
the expected count `n` (the count query succeeded and gave `n`), produces the
entries `0..n-1` (each the answer of its probe on the fallback path, or the
stored value of row `ent_ndx-1` on the stored-table path), and leaves every cell
at index `n` or beyond as it was. -/
theorem success_produces_exactly_n_entries (H : ExodusHeader) (F : ExoFile) (exoid : Int)
    (obj_type : ex_entity_type) (entity_id n : Int) (s : State)
    (hw : H.EX_WARN ≠ H.EX_NOERR)
    (hf : H.EX_FATAL ≠ H.EX_NOERR)
    (hs : (ex_get_object_truth_vector H F exoid obj_type entity_id n s).status = H.EX_NOERR) :
    ∃ c, category obj_type = some c ∧
      (F.ex_get_dimension c.dim).dimid ≠ -1 ∧
      (F.ex_get_dimension c.dim).count = n ∧
      (∀ i : Nat, (i : Int) < n →
        (ex_get_object_truth_vector H F exoid obj_type entity_id n s).st.var_vec i =
          if (F.ncvarid c.tab).varid = -1 then
            (if (F.ncvarid (.ex_catstr2 c.var_name ((i : Int) + 1) c.ent_type
              (resolved_index F c entity_id))).varid = -1 then 0 else 1)
          else F.table (F.ncvarid c.tab).varid (resolved_index F c entity_id - 1) i) ∧
      (∀ j : Nat, n ≤ (j : Int) →
        (ex_get_object_truth_vector H F exoid obj_type entity_id n s).st.var_vec j =
          s.var_vec j) := by
  cases hc : category obj_type with
  | none =>
    exfalso
    simp only [ex_get_object_truth_vector, hc] at hs
    exact hw hs
  | some c =>
    rw [routine_of_category H F exoid obj_type c entity_id n s hc] at hs ⊢
    by_cases hdim : (F.ex_get_dimension c.dim).dimid = -1
    · exfalso
      simp only [hdim, if_true] at hs
      exact hw hs
    · by_cases herr : (F.ex_id_lkup c.id_var entity_id).exerrval = 0
      · by_cases hcount : (F.ex_get_dimension c.dim).count = n
        · refine ⟨c, rfl, hdim, hcount, ?_, ?_⟩
          · intro i hi
            have hi2 : i < n.toNat := by omega
            by_cases htab : (F.ncvarid c.tab).varid = -1
            · simp only [hdim, after_switch_exerrval, herr, hcount, htab, if_false, if_true,
                ne_eq, not_true_eq_false, not_false_eq_true]
              rw [probe_loop_var_vec F c.var_name c.ent_type _ _ (List.nodup_range _) _ i,
                if_pos (List.mem_range.mpr hi2)]
              rfl
            · cases hread : F.ncvarget_fail (F.ncvarid c.tab).varid
                  (resolved_index F c entity_id - 1) 0 1 n with
              | none =>
                have h01 : ¬ (0 : Int) = -1 := by decide
                unfold resolved_index at hread ⊢
                simp only [hdim, after_switch_exerrval, herr, hcount, htab, if_false, if_true,
                  ne_eq, not_true_eq_false, not_false_eq_true, call_ncvarget_fst,
                  call_ncvarget_var_vec, hread, h01, after_switch_var_vec, hyperslab_row]
                exact store_map_range _ (fun j : Nat => F.table (F.ncvarid c.tab).varid
                  ((if (F.ex_id_lkup c.id_var entity_id).ret < 0 then
                    -(F.ex_id_lkup c.id_var entity_id).ret
                    else (F.ex_id_lkup c.id_var entity_id).ret) - 1) j) _ _ hi2
              | some f =>
                exfalso
                unfold resolved_index at hread
                simp only [hdim, after_switch_exerrval, herr, hcount, htab, if_false, if_true,
                  ne_eq, not_true_eq_false, not_false_eq_true, call_ncvarget_fst,
                  hread] at hs
                exact hf hs
          · intro j hj
            have hj2 : n.toNat ≤ j := by omega
            by_cases htab : (F.ncvarid c.tab).varid = -1
            · simp only [hdim, after_switch_exerrval, herr, hcount, htab, if_false, if_true,
                ne_eq, not_true_eq_false, not_false_eq_true]
              have hnot : j ∉ List.range n.toNat := by
                rw [List.mem_range]
                omega
              rw [probe_loop_var_vec F c.var_name c.ent_type _ _ (List.nodup_range _) _ j,
                if_neg hnot, after_switch_var_vec]
            · cases hread : F.ncvarget_fail (F.ncvarid c.tab).varid
                  (resolved_index F c entity_id - 1) 0 1 n with
              | none =>
                have h01 : ¬ (0 : Int) = -1 := by decide
                unfold resolved_index at hread
                simp only [hdim, after_switch_exerrval, herr, hcount, htab, if_false, if_true,
                  ne_eq, not_true_eq_false, not_false_eq_true, call_ncvarget_fst,
                  call_ncvarget_var_vec, hread, h01, after_switch_var_vec, hyperslab_row]
                apply store_of_le
                rw [List.length_map, List.length_range]
                exact hj2
              | some f =>
                exfalso
                unfold resolved_index at hread
                simp only [hdim, after_switch_exerrval, herr, hcount, htab, if_false, if_true,
                  ne_eq, not_true_eq_false, not_false_eq_true, call_ncvarget_fst,
                  hread] at hs
                exact hf hs
        · exfalso
          simp only [hdim, after_switch_exerrval, herr, hcount, if_false, if_true, ne_eq,
            not_true_eq_false, not_false_eq_true] at hs
          exact hf hs
      · exfalso
        by_cases hnull : (F.ex_id_lkup c.id_var entity_id).exerrval = H.EX_NULLENTITY
        · have hnz : ¬ H.EX_NULLENTITY = 0 := hnull ▸ herr
          simp only [hdim, after_switch_exerrval, hnz, hnull, if_false, if_true, ne_eq,
            not_true_eq_false, not_false_eq_true] at hs
          exact hw hs
        · simp only [hdim, after_switch_exerrval, herr, hnull, if_false, if_true, ne_eq,
            not_true_eq_false, not_false_eq_true] at hs
          exact hf hs

/-- C12, on the file without a stored table and with two recorded variables:
the call succeeds, the count is 2, the two entries are `1 0` and cell 2 still
holds the 5 it held before. -/
theorem success_produces_exactly_n_entries_witness :
    (exodusII_h.EX_WARN ≠ exodusII_h.EX_NOERR ∧ exodusII_h.EX_FATAL ≠ exodusII_h.EX_NOERR ∧
      (ex_get_object_truth_vector exodusII_h probeFile 1 .EX_NODE_SET 40 2 s0).status
        = exodusII_h.EX_NOERR) ∧
    ∃ c, category .EX_NODE_SET = some c ∧
      (probeFile.ex_get_dimension c.dim).dimid ≠ -1 ∧
      (probeFile.ex_get_dimension c.dim).count = 2 ∧
      (∀ i : Nat, (i : Int) < 2 →
        (ex_get_object_truth_vector exodusII_h probeFile 1 .EX_NODE_SET 40 2 s0).st.var_vec i =
          if (probeFile.ncvarid c.tab).varid = -1 then
            (if (probeFile.ncvarid (.ex_catstr2 c.var_name ((i : Int) + 1) c.ent_type
              (resolved_index probeFile c 40))).varid = -1 then 0 else 1)
          else probeFile.table (probeFile.ncvarid c.tab).varid
            (resolved_index probeFile c 40 - 1) i) ∧
      (∀ j : Nat, (2 : Int) ≤ (j : Int) →
        (ex_get_object_truth_vector exodusII_h probeFile 1 .EX_NODE_SET 40 2 s0).st.var_vec j =
          s0.var_vec j) :=
  ⟨⟨by decide, by decide, by decide⟩,
    success_produces_exactly_n_entries exodusII_h probeFile 1 .EX_NODE_SET 40 2 s0
      (by decide) (by decide) (by decide)⟩

/-! ## The index and the library calls of the two paths -/

/-- The trace the loop leaves: one `ncvarid` per value of `i`, in the order of
the loop, each for the name of ordinal `i+1`. -/
theorem probe_loop_trace_eq (F : ExoFile) (vn et : String) (k : Int) (l : List Nat) (s : State) :
    (probe_loop F vn et k l s).trace =
      s.trace ++ l.map fun (i : Nat) => Event.ncvarid (.ex_catstr2 vn ((i : Int) + 1) et k) := by
  induction l generalizing s with
  | nil => simp [probe_loop]
  | cons i rest ih =>
    simp only [probe_loop]
    split <;> rw [ih] <;>
      simp only [call_ncvarid, setNcerr_trace, log, List.map_cons, List.append_assoc,
        List.singleton_append]

/-- The loop asks the file only through `ncvarid`. -/
theorem probe_loop_congr (F G : ExoFile) (h : G.ncvarid = F.ncvarid) (vn et : String) (k : Int)
    (l : List Nat) (s : State) : probe_loop G vn et k l s = probe_loop F vn et k l s := by
  induction l generalizing s with
  | nil => rfl
  | cons i rest ih =>
    simp only [probe_loop, call_ncvarid, h]
    split <;> rw [ih]

/-- The row read asks the file only through `table` and `ncvarget_fail`. -/
theorem call_ncvarget_congr (F G : ExoFile) (ht : G.table = F.table)
    (hf : G.ncvarget_fail = F.ncvarget_fail) (v a b c d : Int) (s : State) :
    call_ncvarget G v a b c d s = call_ncvarget F v a b c d s := by
  simp only [call_ncvarget, hyperslab, ht, hf]

/-- The state after the switch depends on the lookup only through the codes it
leaves, not through the index it returns. -/
theorem after_switch_congr (F G : ExoFile) (c : Category) (entity_id : Int) (s : State)
    (he : (G.ex_id_lkup c.id_var entity_id).exerrval = (F.ex_id_lkup c.id_var entity_id).exerrval)
    (hn : (G.ex_id_lkup c.id_var entity_id).ncerr = (F.ex_id_lkup c.id_var entity_id).ncerr)
    (hd : G.ex_get_dimension = F.ex_get_dimension) (hv : G.ncvarid = F.ncvarid) :
    after_switch G c entity_id s = after_switch F c entity_id s := by
  simp only [after_switch, call_ncvarid, call_ex_get_dimension, call_ex_id_lkup, he, hn, hd, hv]

/-- The events of a call that passes the three guards and finds no stored truth
table. -/
theorem fallback_events (H : ExodusHeader) (F : ExoFile) (exoid : Int)
    (obj_type : ex_entity_type) (c : Category) (entity_id n : Int) (s : State)
    (hc : category obj_type = some c)
    (hdim : (F.ex_get_dimension c.dim).dimid ≠ -1)
    (herr : (F.ex_id_lkup c.id_var entity_id).exerrval = 0)
    (hcount : (F.ex_get_dimension c.dim).count = n)
    (htab : (F.ncvarid c.tab).varid = -1) :
    events_of s (ex_get_object_truth_vector H F exoid obj_type entity_id n s) =
      [.ex_id_lkup c.id_var entity_id, .ex_get_dimension c.dim c.label, .ncvarid c.tab] ++
        (List.range n.toNat).map fun (i : Nat) =>
          Event.ncvarid (.ex_catstr2 c.var_name ((i : Int) + 1) c.ent_type
            (resolved_index F c entity_id)) := by
  apply events_of_eq
  rw [routine_of_category H F exoid obj_type c entity_id n s hc]
  simp only [hdim, after_switch_exerrval, herr, hcount, htab, if_false, if_true, ne_eq,
    not_true_eq_false, not_false_eq_true, probe_loop_trace_eq, after_switch_trace,
    List.append_assoc, resolved_index]

/-- The events of a call that passes the three guards and finds a stored truth
table. -/
theorem stored_events (H : ExodusHeader) (F : ExoFile) (exoid : Int)
    (obj_type : ex_entity_type) (c : Category) (entity_id n : Int) (s : State)
    (hc : category obj_type = some c)
    (hdim : (F.ex_get_dimension c.dim).dimid ≠ -1)
    (herr : (F.ex_id_lkup c.id_var entity_id).exerrval = 0)
    (hcount : (F.ex_get_dimension c.dim).count = n)
    (htab : (F.ncvarid c.tab).varid ≠ -1) :
    events_of s (ex_get_object_truth_vector H F exoid obj_type entity_id n s) =
      [.ex_id_lkup c.id_var entity_id, .ex_get_dimension c.dim c.label, .ncvarid c.tab,
        .ncvarget (F.ncvarid c.tab).varid (resolved_index F c entity_id - 1) 0 1 n] ++
        match F.ncvarget_fail (F.ncvarid c.tab).varid (resolved_index F c entity_id - 1) 0 1 n with
        | none => []
        | some f => [.ex_err routine (.failed_to_get_truth_vector exoid) f.ncerr] := by
  apply events_of_eq
  have h01 : ¬ (0 : Int) = -1 := by decide
  rw [routine_of_category H F exoid obj_type c entity_id n s hc]
  unfold resolved_index
  cases hread : F.ncvarget_fail (F.ncvarid c.tab).varid
      ((if (F.ex_id_lkup c.id_var entity_id).ret < 0 then -(F.ex_id_lkup c.id_var entity_id).ret
        else (F.ex_id_lkup c.id_var entity_id).ret) - 1) 0 1 n with
  | none =>
    simp only [hdim, after_switch_exerrval, herr, hcount, htab, if_false, if_true, ne_eq,
      not_true_eq_false, not_false_eq_true, call_ncvarget, hread, h01, log,
      after_switch_trace, List.append_assoc, List.cons_append, List.nil_append, List.append_nil]
  | some f =>
    simp only [hdim, after_switch_exerrval, herr, hcount, htab, if_false, if_true, ne_eq,
      not_true_eq_false, not_false_eq_true, call_ncvarget, hread, call_ex_err_trace, log,
      after_switch_trace, List.append_assoc, List.cons_append, List.nil_append]

/-- C23: the routine discards the sign of the index the lookup returns.  Let
the lookup of file `F` return `-k` with `k ≥ 1`, and let `G` be the same file
with a lookup that returns `k` instead (same codes left in `exerrval` and
`ncerr`, same answers to every other call).  Then the call on `F` returns the
same status and leaves the same state, vector included, as the call on `G`; the
index the routine works with is `k`; and when the call gets past the guards, the
fallback probes are made for the names built with index `k`, and the row read
of the stored-table path starts at row `k-1`. -/
theorem negated_index_same_as_index (H : ExodusHeader) (F G : ExoFile) (exoid : Int)
    (obj_type : ex_entity_type) (c : Category) (entity_id n k : Int) (s : State)
    (hc : category obj_type = some c)
    (hk : 1 ≤ k)
    (hF : (F.ex_id_lkup c.id_var entity_id).ret = -k)
    (hG : G.ex_id_lkup c.id_var entity_id = { F.ex_id_lkup c.id_var entity_id with ret := k })
    (hd : G.ex_get_dimension = F.ex_get_dimension)
    (hv : G.ncvarid = F.ncvarid)
    (ht : G.table = F.table)
    (hf : G.ncvarget_fail = F.ncvarget_fail) :
    ex_get_object_truth_vector H F exoid obj_type entity_id n s =
      ex_get_object_truth_vector H G exoid obj_type entity_id n s ∧
    resolved_index F c entity_id = k ∧
    ((F.ex_get_dimension c.dim).dimid ≠ -1 → (F.ex_id_lkup c.id_var entity_id).exerrval = 0 →
      (F.ex_get_dimension c.dim).count = n → (F.ncvarid c.tab).varid = -1 →
      events_of s (ex_get_object_truth_vector H F exoid obj_type entity_id n s) =
        [.ex_id_lkup c.id_var entity_id, .ex_get_dimension c.dim c.label, .ncvarid c.tab] ++
          (List.range n.toNat).map fun (i : Nat) =>
            Event.ncvarid (.ex_catstr2 c.var_name ((i : Int) + 1) c.ent_type k)) ∧
    ((F.ex_get_dimension c.dim).dimid ≠ -1 → (F.ex_id_lkup c.id_var entity_id).exerrval = 0 →
      (F.ex_get_dimension c.dim).count = n → (F.ncvarid c.tab).varid ≠ -1 →
      events_of s (ex_get_object_truth_vector H F exoid obj_type entity_id n s) =
        [.ex_id_lkup c.id_var entity_id, .ex_get_dimension c.dim c.label, .ncvarid c.tab,
          .ncvarget (F.ncvarid c.tab).varid (k - 1) 0 1 n] ++
          match F.ncvarget_fail (F.ncvarid c.tab).varid (k - 1) 0 1 n with
          | none => []
          | some f => [.ex_err routine (.failed_to_get_truth_vector exoid) f.ncerr]) := by
  have hneg : -k < 0 := by omega
  have hpos : ¬ k < 0 := by omega
  have hidx : resolved_index F c entity_id = k := by
    unfold resolved_index
    rw [hF, if_pos hneg, neg_neg]
  have hGret : (G.ex_id_lkup c.id_var entity_id).ret = k := by rw [hG]
  have hGerr : (G.ex_id_lkup c.id_var entity_id).exerrval =
      (F.ex_id_lkup c.id_var entity_id).exerrval := by rw [hG]
  have hGnc : (G.ex_id_lkup c.id_var entity_id).ncerr =
      (F.ex_id_lkup c.id_var entity_id).ncerr := by rw [hG]
  refine ⟨?_, hidx, ?_, ?_⟩
  · rw [routine_of_category H F exoid obj_type c entity_id n s hc,
      routine_of_category H G exoid obj_type c entity_id n s hc]
    simp only [after_switch_congr F G c entity_id s hGerr hGnc hd hv, hGret, hF, hd, hv,
      if_pos hneg, if_neg hpos, neg_neg, probe_loop_congr F G hv,
      call_ncvarget_congr F G ht hf]
  · intro hdim herr hcount htab
    rw [fallback_events H F exoid obj_type c entity_id n s hc hdim herr hcount htab, hidx]
  · intro hdim herr hcount htab
    rw [stored_events H F exoid obj_type c entity_id n s hc hdim herr hcount htab, hidx]

/-- C23, on the file with a stored table whose lookup answers `-3` for block 7,
against the same file with a lookup that answers `3`: both calls leave the same
result, and the row read starts at row 2. -/
theorem negated_index_same_as_index_witness :
    (category .EX_ELEM_BLOCK =
        some ⟨.VAR_ID_EL_BLK, .DIM_NUM_ELE_VAR, "element variables", .VAR_ELEM_TAB,
          "vals_elem_var", "eb"⟩ ∧
      (1 : Int) ≤ 3 ∧
      (negatedIndexFile.ex_id_lkup .VAR_ID_EL_BLK 7).ret = -3 ∧
      storedFile.ex_id_lkup .VAR_ID_EL_BLK 7 =
        { negatedIndexFile.ex_id_lkup .VAR_ID_EL_BLK 7 with ret := 3 }) ∧
    ex_get_object_truth_vector exodusII_h negatedIndexFile 1 .EX_ELEM_BLOCK 7 4 s0 =
      ex_get_object_truth_vector exodusII_h storedFile 1 .EX_ELEM_BLOCK 7 4 s0 ∧
    events_of s0 (ex_get_object_truth_vector exodusII_h negatedIndexFile 1 .EX_ELEM_BLOCK 7 4 s0) =
      [.ex_id_lkup .VAR_ID_EL_BLK 7, .ex_get_dimension .DIM_NUM_ELE_VAR "element variables",
        .ncvarid .VAR_ELEM_TAB, .ncvarget 9 2 0 1 4] :=
  ⟨⟨rfl, by decide, by decide, by decide⟩,
    (negated_index_same_as_index exodusII_h negatedIndexFile storedFile 1 .EX_ELEM_BLOCK
      ⟨.VAR_ID_EL_BLK, .DIM_NUM_ELE_VAR, "element variables", .VAR_ELEM_TAB, "vals_elem_var",
        "eb"⟩ 7 4 3 s0 rfl (by decide) (by decide) (by decide) rfl rfl rfl rfl).1,
    (negated_index_same_as_index exodusII_h negatedIndexFile storedFile 1 .EX_ELEM_BLOCK
      ⟨.VAR_ID_EL_BLK, .DIM_NUM_ELE_VAR, "element variables", .VAR_ELEM_TAB, "vals_elem_var",
        "eb"⟩ 7 4 3 s0 rfl (by decide) (by decide) (by decide) rfl rfl rfl rfl).2.2.2
      (by decide) (by decide) (by decide) (by decide)⟩

/-- C24: a call that gets past the guards (supported category, the count query
succeeded and gave the expected count `n`, the lookup reported nothing) makes,
after the three calls of the switch, either the probes or the row read and
nothing of the other kind.  On the fallback path (no stored truth table) its
events are exactly one `ncvarid` per variable, for the names of ordinals
`1, 2, ..., n` in this order, and no `ncvarget`; on the stored-table path they
are exactly one `ncvarget` with start `(index-1, 0)` and count `(1, n)`, followed
by the `ex_err` of a failed read if it failed, and no `ncvarid` of a variable
name. -/
theorem one_probe_per_variable_or_one_row_read (H : ExodusHeader) (F : ExoFile)
    (exoid : Int) (obj_type : ex_entity_type) (c : Category) (entity_id n : Int) (s : State)
    (hc : category obj_type = some c)
    (hdim : (F.ex_get_dimension c.dim).dimid ≠ -1)
    (herr : (F.ex_id_lkup c.id_var entity_id).exerrval = 0)
    (hcount : (F.ex_get_dimension c.dim).count = n) :
    ((F.ncvarid c.tab).varid = -1 →
      events_of s (ex_get_object_truth_vector H F exoid obj_type entity_id n s) =
        [.ex_id_lkup c.id_var entity_id, .ex_get_dimension c.dim c.label, .ncvarid c.tab] ++
          (List.range n.toNat).map fun (i : Nat) =>
            Event.ncvarid (.ex_catstr2 c.var_name ((i : Int) + 1) c.ent_type
              (resolved_index F c entity_id))) ∧
    ((F.ncvarid c.tab).varid ≠ -1 →
      events_of s (ex_get_object_truth_vector H F exoid obj_type entity_id n s) =
        [.ex_id_lkup c.id_var entity_id, .ex_get_dimension c.dim c.label, .ncvarid c.tab,
          .ncvarget (F.ncvarid c.tab).varid (resolved_index F c entity_id - 1) 0 1 n] ++
          match F.ncvarget_fail (F.ncvarid c.tab).varid (resolved_index F c entity_id - 1)
            0 1 n with
          | none => []
          | some f => [.ex_err routine (.failed_to_get_truth_vector exoid) f.ncerr]) :=
  ⟨fallback_events H F exoid obj_type c entity_id n s hc hdim herr hcount,
    stored_events H F exoid obj_type c entity_id n s hc hdim herr hcount⟩

/-- C24, on the file without a stored table and with two recorded variables
(node set 40 is the fifth): after the three calls of the switch the call probes
the names of ordinals 1 and 2, in this order, and reads no row. -/
theorem one_probe_per_variable_or_one_row_read_witness :
    (category .EX_NODE_SET =
        some ⟨.VAR_NS_IDS, .DIM_NUM_NSET_VAR, "nodeset variables", .VAR_NSET_TAB,
          "vals_nset_var", "ns"⟩ ∧
      (probeFile.ex_get_dimension .DIM_NUM_NSET_VAR).dimid ≠ -1 ∧
      (probeFile.ex_id_lkup .VAR_NS_IDS 40).exerrval = 0 ∧
      (probeFile.ex_get_dimension .DIM_NUM_NSET_VAR).count = 2 ∧
      (probeFile.ncvarid .VAR_NSET_TAB).varid = -1) ∧
    events_of s0 (ex_get_object_truth_vector exodusII_h probeFile 1 .EX_NODE_SET 40 2 s0) =
      [.ex_id_lkup .VAR_NS_IDS 40, .ex_get_dimension .DIM_NUM_NSET_VAR "nodeset variables",
        .ncvarid .VAR_NSET_TAB, .ncvarid (.ex_catstr2 "vals_nset_var" 1 "ns" 5),
        .ncvarid (.ex_catstr2 "vals_nset_var" 2 "ns" 5)] :=
  ⟨⟨rfl, by decide, by decide, by decide, by decide⟩,
    (one_probe_per_variable_or_one_row_read exodusII_h probeFile 1 .EX_NODE_SET
      ⟨.VAR_NS_IDS, .DIM_NUM_NSET_VAR, "nodeset variables", .VAR_NSET_TAB, "vals_nset_var",
        "ns"⟩ 40 2 s0 rfl (by decide) (by decide) (by decide)).1 (by decide)⟩

end Exgotv

namespace Exomod

/-! ## exm_create -/

/-- C16: `exm_create` returns one of its two "invalid ... given to
exm_create()" literals exactly when `convert_word_size` is not 4 or 8 or
`file_word_size` is not 4 or 8; `convert_word_size` is checked first; on such a
return the library is not called and `*exoid` is as before; otherwise the
library's `ex_create` is called once, with the given word sizes, and `*exoid`
holds its answer. -/
theorem exm_create_checks_word_sizes (ex_create : String → Int → Int → Int → Int)
    (filename : String) (mode convert_word_size file_word_size exoid : Int) :
    ((∃ m, (exm_create ex_create filename mode convert_word_size file_word_size exoid).ret
        = .literal m) ↔
      ((convert_word_size ≠ 4 ∧ convert_word_size ≠ 8) ∨
        (file_word_size ≠ 4 ∧ file_word_size ≠ 8))) ∧
    ((convert_word_size ≠ 4 ∧ convert_word_size ≠ 8) →
      exm_create ex_create filename mode convert_word_size file_word_size exoid =
        ⟨.literal "invalid 'convert_word_size' given to exm_create()", exoid, []⟩) ∧
    (¬ (convert_word_size ≠ 4 ∧ convert_word_size ≠ 8) →
      (file_word_size ≠ 4 ∧ file_word_size ≠ 8) →
      exm_create ex_create filename mode convert_word_size file_word_size exoid =
        ⟨.literal "invalid 'file_word_size' given to exm_create()", exoid, []⟩) ∧
    (¬ (convert_word_size ≠ 4 ∧ convert_word_size ≠ 8) →
      ¬ (file_word_size ≠ 4 ∧ file_word_size ≠ 8) →
      (exm_create ex_create filename mode convert_word_size file_word_size exoid).calls =
        [.ex_create filename mode convert_word_size file_word_size] ∧
      (exm_create ex_create filename mode convert_word_size file_word_size exoid).exoid =
        ex_create filename mode convert_word_size file_word_size) := by
  by_cases hc : convert_word_size ≠ 4 ∧ convert_word_size ≠ 8
  · have e : exm_create ex_create filename mode convert_word_size file_word_size exoid =
        ⟨.literal "invalid 'convert_word_size' given to exm_create()", exoid, []⟩ := by
      unfold exm_create
      rw [if_pos hc]
    exact ⟨⟨fun _ => Or.inl hc, fun _ => ⟨_, by rw [e]⟩⟩, fun _ => e, fun h => absurd hc h,
      fun h => absurd hc h⟩
  · by_cases hf : file_word_size ≠ 4 ∧ file_word_size ≠ 8
    · have e : exm_create ex_create filename mode convert_word_size file_word_size exoid =
          ⟨.literal "invalid 'file_word_size' given to exm_create()", exoid, []⟩ := by
        unfold exm_create
        rw [if_neg hc, if_pos hf]
      exact ⟨⟨fun _ => Or.inr hf, fun _ => ⟨_, by rw [e]⟩⟩, fun h => absurd h hc, fun _ _ => e,
        fun _ h => absurd hf h⟩
    · have e : exm_create ex_create filename mode convert_word_size file_word_size exoid =
          if ex_create filename mode convert_word_size file_word_size < 0 then
            ⟨.exm_get_error_string, ex_create filename mode convert_word_size file_word_size,
              [.ex_create filename mode convert_word_size file_word_size]⟩
          else
            ⟨.NULL, ex_create filename mode convert_word_size file_word_size,
              [.ex_create filename mode convert_word_size file_word_size]⟩ := by
        unfold exm_create
        rw [if_neg hc, if_neg hf]
      refine ⟨⟨fun h => ?_, fun h => ?_⟩, fun h => absurd h hc, fun _ h => absurd h hf,
        fun _ _ => ?_⟩
      · exfalso
        obtain ⟨m, hm⟩ := h
        rw [e] at hm
        split at hm <;> cases hm
      · rcases h with h | h
        · exact absurd h hc
        · exact absurd h hf
      · rw [e]
        split <;> exact ⟨rfl, rfl⟩

/-- C16, evaluated: a compute word size of 5 is rejected before the file word
size 3 is looked at, without a library call; the word sizes 8 and 4 are handed
to the library. -/
theorem exm_create_checks_word_sizes_witness :
    exm_create (fun _ _ _ _ => 7) "mesh.exo" 1 5 3 (-9) =
      ⟨.literal "invalid 'convert_word_size' given to exm_create()", -9, []⟩ ∧
    (exm_create (fun _ _ _ _ => 7) "mesh.exo" 1 8 4 (-9)).calls =
      [.ex_create "mesh.exo" 1 8 4] ∧
    (exm_create (fun _ _ _ _ => 7) "mesh.exo" 1 8 4 (-9)).exoid = 7 :=
  ⟨(exm_create_checks_word_sizes (fun _ _ _ _ => 7) "mesh.exo" 1 5 3 (-9)).2.1
      ⟨by decide, by decide⟩,
    (exm_create_checks_word_sizes (fun _ _ _ _ => 7) "mesh.exo" 1 8 4 (-9)).2.2.2
      (by decide) (by decide)⟩

/-! ## exm_get_set and exm_put_set -/

/-- What the pairwise difference of the set types says, one pair at a time. -/
theorem set_types_ne (H : ExodusII_h) (hH : H.set_types_distinct) :
    H.EX_NODE_SET ≠ H.EX_EDGE_SET ∧ H.EX_NODE_SET ≠ H.EX_FACE_SET ∧
    H.EX_NODE_SET ≠ H.EX_SIDE_SET ∧ H.EX_NODE_SET ≠ H.EX_ELEM_SET ∧
    H.EX_EDGE_SET ≠ H.EX_FACE_SET ∧ H.EX_EDGE_SET ≠ H.EX_SIDE_SET ∧
    H.EX_EDGE_SET ≠ H.EX_ELEM_SET ∧ H.EX_FACE_SET ≠ H.EX_SIDE_SET ∧
    H.EX_FACE_SET ≠ H.EX_ELEM_SET ∧ H.EX_SIDE_SET ≠ H.EX_ELEM_SET := by
  unfold ExodusII_h.set_types_distinct at hH
  simp only [List.nodup_cons, List.mem_cons, List.mem_singleton, List.not_mem_nil, not_or,
    List.nodup_nil, and_true, not_false_eq_true] at hH
  obtain ⟨⟨a, b, c, d⟩, ⟨e, f, g⟩, ⟨h, i⟩, j⟩ := hH
  exact ⟨a, b, c, d, e, f, g, h, i, j⟩

/-- C20: for `EX_NODE_SET` and `EX_ELEM_SET`, `exm_get_set` and `exm_put_set`
hand the library a null auxiliary pointer whatever the caller supplied: the
caller's auxiliary buffer is unchanged and another content `other` of it gives
the same results.  For `EX_EDGE_SET`, `EX_FACE_SET` and `EX_SIDE_SET` the caller's
auxiliary buffer is what the library is handed.  Any other `set_type` is rejected
with a literal and without a library call. -/
theorem auxiliary_null_for_node_and_elem_sets (H : ExodusII_h)
    (ex_get_set : Int → Int → Int → List Int → Option (List Int) → GetSetAnswer)
    (ex_put_set : Int → Int → Int → List Int → Option (List Int) → Int)
    (exoid set_type set_id : Int) (set_values auxiliary other : List Int)
    (hH : H.set_types_distinct) :
    ((set_type = H.EX_NODE_SET ∨ set_type = H.EX_ELEM_SET) →
      (exm_get_set H ex_get_set exoid set_type set_id set_values auxiliary).calls =
        [.ex_get_set exoid set_type set_id none] ∧
      (exm_get_set H ex_get_set exoid set_type set_id set_values auxiliary).auxiliary =
        auxiliary ∧
      (exm_get_set H ex_get_set exoid set_type set_id set_values other).ret =
        (exm_get_set H ex_get_set exoid set_type set_id set_values auxiliary).ret ∧
      (exm_get_set H ex_get_set exoid set_type set_id set_values other).set_values =
        (exm_get_set H ex_get_set exoid set_type set_id set_values auxiliary).set_values ∧
      (exm_put_set H ex_put_set exoid set_type set_id set_values auxiliary).calls =
        [.ex_put_set exoid set_type set_id set_values none] ∧
      exm_put_set H ex_put_set exoid set_type set_id set_values other =
        exm_put_set H ex_put_set exoid set_type set_id set_values auxiliary) ∧
    ((set_type = H.EX_EDGE_SET ∨ set_type = H.EX_FACE_SET ∨ set_type = H.EX_SIDE_SET) →
      (exm_get_set H ex_get_set exoid set_type set_id set_values auxiliary).calls =
        [.ex_get_set exoid set_type set_id (some auxiliary)] ∧
      (exm_put_set H ex_put_set exoid set_type set_id set_values auxiliary).calls =
        [.ex_put_set exoid set_type set_id set_values (some auxiliary)]) ∧
    ((set_type ≠ H.EX_NODE_SET ∧ set_type ≠ H.EX_EDGE_SET ∧ set_type ≠ H.EX_FACE_SET ∧
        set_type ≠ H.EX_SIDE_SET ∧ set_type ≠ H.EX_ELEM_SET) →
      exm_get_set H ex_get_set exoid set_type set_id set_values auxiliary =
        ⟨.literal "invalid set type given to exm_get_set()", set_values, auxiliary, []⟩ ∧
      exm_put_set H ex_put_set exoid set_type set_id set_values auxiliary =
        ⟨.literal "invalid set type given to exm_get_set()", []⟩) := by
  obtain ⟨hne, hnf, hns, hnl, hef, hes, hel, hfs, hfl, hsl⟩ := set_types_ne H hH
  refine ⟨?_, ?_, ?_⟩
  · rintro (h | h)
    · subst h
      simp only [exm_get_set, exm_put_set, if_true]
      refine ⟨?_, ?_, ?_, ?_, ?_, ?_⟩ <;> first | trivial | rfl | (split <;> rfl)
    · subst h
      simp only [exm_get_set, exm_put_set, hnl.symm, hel.symm, hfl.symm, hsl.symm, if_false,
        if_true]
      refine ⟨?_, ?_, ?_, ?_, ?_, ?_⟩ <;> first | trivial | rfl | (split <;> rfl)
  · rintro (h | h | h)
    · subst h
      simp only [exm_get_set, exm_put_set, hne.symm, if_false, if_true]
      refine ⟨?_, ?_⟩ <;> first | trivial | rfl | (split <;> rfl)
    · subst h
      simp only [exm_get_set, exm_put_set, hnf.symm, hef.symm, if_false, if_true]
      refine ⟨?_, ?_⟩ <;> first | trivial | rfl | (split <;> rfl)
    · subst h
      simp only [exm_get_set, exm_put_set, hns.symm, hes.symm, hfs.symm, if_false, if_true]
      refine ⟨?_, ?_⟩ <;> first | trivial | rfl | (split <;> rfl)
  · rintro ⟨h1, h2, h3, h4, h5⟩
    simp only [exm_get_set, exm_put_set, h1, h2, h3, h4, h5, if_false, and_self]

/-- C20, evaluated with the published constants: a node set (type 2) makes the
library see a null pointer and leaves the caller's auxiliary buffer `9 9`; a
side set (type 3) hands the buffer over; type 1 is rejected without a call. -/
theorem auxiliary_null_for_node_and_elem_sets_witness :
    exodusII_h.set_types_distinct ∧
    (exm_get_set exodusII_h someSet 1 2 5 [0, 0] [9, 9]).calls = [.ex_get_set 1 2 5 none] ∧
    (exm_get_set exodusII_h someSet 1 2 5 [0, 0] [9, 9]).auxiliary = [9, 9] ∧
    (exm_get_set exodusII_h someSet 1 3 5 [0, 0] [9, 9]).calls =
      [.ex_get_set 1 3 5 (some [9, 9])] ∧
    (exm_get_set exodusII_h someSet 1 1 5 [0, 0] [9, 9]).calls = [] :=
  have hd : exodusII_h.set_types_distinct := by
    unfold ExodusII_h.set_types_distinct
    decide
  have h2 := auxiliary_null_for_node_and_elem_sets exodusII_h someSet (fun _ _ _ _ _ => 0)
    1 2 5 [0, 0] [9, 9] [] hd
  have h3 := auxiliary_null_for_node_and_elem_sets exodusII_h someSet (fun _ _ _ _ _ => 0)
    1 3 5 [0, 0] [9, 9] [] hd
  have h1 := auxiliary_null_for_node_and_elem_sets exodusII_h someSet (fun _ _ _ _ _ => 0)
    1 1 5 [0, 0] [9, 9] [] hd
  ⟨hd, (h2.1 (Or.inl rfl)).1, (h2.1 (Or.inl rfl)).2.1,
    (h3.2.1 (Or.inr (Or.inr rfl))).1,
    by rw [(h1.2.2 ⟨by decide, by decide, by decide, by decide, by decide⟩).1]⟩

/-! ## exm_open -/

/-- Where `exm_open` does what its comment says: with `convert_word_size = 0`,
for a file whose stored word size `w` is 4 or 8 (every `ex_open` that opens it
reports `w`), a call that returns `NULL` reports `*file_word_size = w` and
leaves exactly one open handle, the one in `*exoid`; that handle has the
compute word size `w` whenever the first attempt (compute word size 8) opened
the file or the file stores floats, and if the first handle did not match it
was closed before the second attempt.  The one case left is a first attempt
that fails on a file that stores doubles. -/
theorem exm_open_uses_file_word_size (ex_open : String → Int → Int → Int → OpenAnswer)
    (filename : String) (mode exoid w : Int)
    (hw : w = 4 ∨ w = 8)
    (hfile : ∀ comp_ws, 0 ≤ (ex_open filename mode comp_ws 0).exoid →
      (ex_open filename mode comp_ws 0).io_ws = w)
    (hok : (exm_open ex_open filename mode 0 exoid).ret = .NULL) :
    (exm_open ex_open filename mode 0 exoid).file_word_size = w ∧
    (∃ c, open_handles (exm_open ex_open filename mode 0 exoid).calls =
        [((exm_open ex_open filename mode 0 exoid).exoid, c)] ∧
      ((0 ≤ (ex_open filename mode 8 0).exoid ∨ w = 4) → c = w)) ∧
    (0 ≤ (ex_open filename mode 8 0).exoid → (ex_open filename mode 8 0).io_ws ≠ 8 →
      (exm_open ex_open filename mode 0 exoid).calls =
        [.ex_open filename mode 8 0 (ex_open filename mode 8 0).exoid,
          .ex_close (ex_open filename mode 8 0).exoid,
          .ex_open filename mode 4 0 (ex_open filename mode 4 0).exoid]) := by
  by_cases h1 : (ex_open filename mode 8 0).exoid < 0
  · -- the first attempt fails
    have h1n : ¬ 0 ≤ (ex_open filename mode 8 0).exoid := by omega
    by_cases h2 : (ex_open filename mode 4 0).exoid < 0
    · simp [exm_open, h1, h2] at hok
    · have h2p : 0 ≤ (ex_open filename mode 4 0).exoid := by omega
      refine ⟨?_, ⟨4, ?_, fun h => h.elim (fun h => absurd h h1n) Eq.symm⟩,
        fun h => absurd h h1n⟩
      · simp [exm_open, h1, h2, hfile 4 h2p]
      · simp [exm_open, h1, h2, h1n, h2p, open_handles]
  · have h1p : 0 ≤ (ex_open filename mode 8 0).exoid := by omega
    have hio := hfile 8 h1p
    by_cases hm : (ex_open filename mode 8 0).io_ws = 8
    · -- the first attempt matches
      have hw8 : w = 8 := by rw [← hio, hm]
      refine ⟨?_, ⟨8, ?_, fun _ => hw8.symm⟩, fun _ h => absurd hm h⟩
      · simp [exm_open, h1, hm, hw8]
      · simp [exm_open, h1, hm, h1p, open_handles]
    · -- the first attempt opens a file that stores another word size
      have hw4 : w = 4 := by
        rcases hw with h | h
        · exact h
        · exact absurd (hio.trans h) hm
      by_cases h2 : (ex_open filename mode 4 0).exoid < 0
      · simp [exm_open, h1, hm, h2] at hok
      · have h2p : 0 ≤ (ex_open filename mode 4 0).exoid := by omega
        refine ⟨?_, ⟨4, ?_, fun _ => hw4.symm⟩, fun _ _ => ?_⟩
        · simp [exm_open, h1, hm, h2, hfile 4 h2p]
        · simp [exm_open, h1, hm, h2, h1p, h2p, open_handles]
        · simp [exm_open, h1, hm, h2, h1p]

/-- On a file that stores floats: the handle 3 of the first attempt is closed,
the file is opened again with a compute word size of 4, and 4 is reported. -/
theorem exm_open_uses_file_word_size_witness :
    (((4 : Int) = 4 ∨ (4 : Int) = 8) ∧
      (∀ comp_ws, 0 ≤ (floatFile "mesh.exo" 0 comp_ws 0).exoid →
        (floatFile "mesh.exo" 0 comp_ws 0).io_ws = 4) ∧
      (exm_open floatFile "mesh.exo" 0 0 (-9)).ret = .NULL) ∧
    (exm_open floatFile "mesh.exo" 0 0 (-9)).file_word_size = 4 ∧
    (exm_open floatFile "mesh.exo" 0 0 (-9)).calls =
      [.ex_open "mesh.exo" 0 8 0 3, .ex_close 3, .ex_open "mesh.exo" 0 4 0 4] := by
  have hfile : ∀ comp_ws, 0 ≤ (floatFile "mesh.exo" 0 comp_ws 0).exoid →
      (floatFile "mesh.exo" 0 comp_ws 0).io_ws = 4 := by
    intro comp_ws _
    unfold floatFile
    split <;> rfl
  have h := exm_open_uses_file_word_size floatFile "mesh.exo" 0 (-9) 4 (Or.inl rfl) hfile
    (by decide)
  exact ⟨⟨Or.inl rfl, hfile, by decide⟩, h.1, h.2.2 (by decide) (by decide)⟩

/-- C15, where the code misses it: on a file that stores doubles (every
`ex_open` that opens it reports a word size of 8), when the first attempt fails
and the second opens the file, `exm_open` returns `NULL` and reports a file word
size of 8, and the one handle it leaves open was opened with a compute word size
of 4, not with the 8 the file stores.  The comment of the function wants the
compute word size of the file; the retry taken after a failed first attempt
does not compare `io_ws` with `comp_ws` any more. -/
theorem exm_open_handle_with_other_word_size :
    (∀ mode comp_ws, 0 ≤ (doubleFileFailingFirst "mesh.exo" mode comp_ws 0).exoid →
      (doubleFileFailingFirst "mesh.exo" mode comp_ws 0).io_ws = 8) ∧
    (exm_open doubleFileFailingFirst "mesh.exo" 0 0 (-9)).ret = .NULL ∧
    (exm_open doubleFileFailingFirst "mesh.exo" 0 0 (-9)).file_word_size = 8 ∧
    open_handles (exm_open doubleFileFailingFirst "mesh.exo" 0 0 (-9)).calls = [(5, 4)] := by
  refine ⟨?_, by decide, by decide, by decide⟩
  intro mode comp_ws h
  unfold doubleFileFailingFirst at h ⊢
  split at h
  · exact absurd h (by decide)
  · rename_i hc
    rw [if_neg hc]

/-! ## exm_put_init and exm_get_init -/

theorem length_poke (mem : List Nat) (a v : Nat) : (poke mem a v).length = mem.length := by
  simp [poke]

theorem peek_poke_self (mem : List Nat) (a v : Nat) (h : a < mem.length) :
    peek (poke mem a v) a = v := by
  simp [peek, poke, List.getElem?_set_self h]

theorem peek_poke_ne (mem : List Nat) (a b v : Nat) (h : a ≠ b) :
    peek (poke mem a v) b = peek mem b := by
  simp [peek, poke, List.getElem?_set_ne h]

theorem peek_of_length_le (mem : List Nat) (a : Nat) (h : mem.length ≤ a) : peek mem a = 0 := by
  simp [peek, List.getElem?_eq_none h]

/-- Storing a NUL where there is one (or past the end) changes nothing. -/
theorem poke_zero_of_peek (mem : List Nat) (a : Nat) (h : peek mem a = 0) :
    poke mem a 0 = mem := by
  induction mem generalizing a with
  | nil => rfl
  | cons x xs ih =>
    cases a with
    | zero =>
      simp only [peek, List.getD_cons_zero] at h
      simp [poke, h]
    | succ n =>
      simp only [peek, List.getD_cons_succ] at h
      simp only [poke, List.set_cons_succ, List.cons.injEq, true_and]
      exact ih n h

theorem fill_zero_noop (mem : List Nat) (p : Nat) (count k : Nat)
    (h : ∀ a, p + k ≤ a → a < p + k + count → peek mem a = 0) :
    fill_zero mem p k count = mem := by
  induction count generalizing k with
  | zero => rfl
  | succ c ih =>
    have h0 : poke mem (p + k) 0 = mem := poke_zero_of_peek mem _ (h _ (le_refl _) (by omega))
    simp only [fill_zero, h0]
    exact ih (k + 1) (fun a h1 h2 => h a (by omega) (by omega))

theorem cstring_ne_zero (s : List Nat) : ∀ x ∈ cstring s, x ≠ 0 := by
  intro x hx
  have := List.mem_takeWhile_imp hx
  simpa using this

theorem cstring_append_zero (T rest : List Nat) (hT : ∀ x ∈ T, x ≠ 0) :
    cstring (T ++ 0 :: rest) = T := by
  induction T with
  | nil => simp [cstring]
  | cons x T ih =>
    have hx : x ≠ 0 := hT x (List.mem_cons_self _ _)
    have h := ih (fun y hy => hT y (List.mem_cons_of_mem _ hy))
    unfold cstring at h ⊢
    rw [List.cons_append, List.takeWhile_cons, if_pos (by simpa using hx), h]

theorem poke_append_right (A B : List Nat) (i v : Nat) :
    poke (A ++ B) (A.length + i) v = A ++ poke B i v := by
  induction A with
  | nil => simp [poke]
  | cons x A ih =>
    simp only [poke] at ih ⊢
    rw [List.cons_append, List.length_cons, Nat.add_right_comm, List.set_cons_succ, ih]
    rfl

theorem peek_append_right (A B : List Nat) (i : Nat) :
    peek (A ++ B) (A.length + i) = peek B i := by
  induction A with
  | nil => simp [peek]
  | cons x A ih =>
    simp only [peek] at ih ⊢
    rw [List.cons_append, List.length_cons, Nat.add_right_comm, List.getD_cons_succ, ih]

theorem peek_all_zero (l : List Nat) (h : ∀ x ∈ l, x = 0) (i : Nat) : peek l i = 0 := by
  induction l generalizing i with
  | nil => rfl
  | cons x l ih =>
    cases i with
    | zero => simpa [peek] using h x (List.mem_cons_self _ _)
    | succ n =>
      simp only [peek, List.getD_cons_succ]
      exact ih (fun y hy => h y (List.mem_cons_of_mem _ hy)) n

theorem replicate_zero_append (r : Nat) : List.replicate r 0 ++ [0] = 0 :: List.replicate r 0 := by
  induction r with
  | zero => rfl
  | succ n ih => rw [List.replicate_succ, List.cons_append, ih]

/-- The string in the bytes `strncpy` stores, followed by a NUL, is the source
string cut at `n` characters. -/
theorem cstring_strncpy_bytes (src : List Nat) (n : Nat) :
    cstring (strncpy_bytes src n ++ [0]) = (cstring src).take n := by
  unfold strncpy_bytes
  rw [List.append_assoc, replicate_zero_append]
  exact cstring_append_zero _ _ (fun x hx => cstring_ne_zero src x (List.mem_of_mem_take hx))

/-- Copying a title twice with `strncpy` gives what copying it once gives. -/
theorem strncpy_bytes_twice (src : List Nat) (n : Nat) :
    strncpy_bytes (strncpy_bytes src n ++ [0]) n = strncpy_bytes src n := by
  have h : cstring (strncpy_bytes src n ++ [0]) = (cstring src).take n :=
    cstring_strncpy_bytes src n
  have ht : ((cstring src).take n).take n = (cstring src).take n := by
    rw [List.take_take, Nat.min_self]
  have e : strncpy_bytes (strncpy_bytes src n ++ [0]) n =
      (cstring (strncpy_bytes src n ++ [0])).take n ++
        List.replicate (n - ((cstring (strncpy_bytes src n ++ [0])).take n).length) 0 := rfl
  rw [e, h, ht]
  rfl

theorem length_strncpy_bytes (src : List Nat) (n : Nat) : (strncpy_bytes src n).length = n := by
  unfold strncpy_bytes
  rw [List.length_append, List.length_replicate]
  have : ((cstring src).take n).length ≤ n := by
    rw [List.length_take]
    exact Nat.min_le_left _ _
  omega

/-- The title `exm_get_init` leaves when the library hands back the title that
`exm_put_init` built: the same bytes. -/
theorem get_init_title (buf src : List Nat) (n : Nat) (hbuf : buf.length = n + 1) :
    fill_zero (poke (strncpy buf (strncpy_bytes src n ++ [0]) n) n 0) 0
        (strlen (poke (strncpy buf (strncpy_bytes src n ++ [0]) n) n 0) 0)
        (n - strlen (poke (strncpy buf (strncpy_bytes src n ++ [0]) n) n 0) 0) =
      strncpy_bytes src n ++ [0] := by
  have hdrop : ∃ x, buf.drop n = [x] := by
    have hl : (buf.drop n).length = 1 := by rw [List.length_drop]; omega
    match hd : buf.drop n, hl with
    | [x], _ => exact ⟨x, rfl⟩
  obtain ⟨x, hx⟩ := hdrop
  have h2 : poke (strncpy buf (strncpy_bytes src n ++ [0]) n) n 0 = strncpy_bytes src n ++ [0] := by
    unfold strncpy
    rw [strncpy_bytes_twice, hx]
    have := poke_append_right (strncpy_bytes src n) [x] 0 0
    rw [length_strncpy_bytes, Nat.add_zero] at this
    rw [this]
    rfl
  rw [h2]
  apply fill_zero_noop
  intro a h1 h2
  have hs : strlen (strncpy_bytes src n ++ [0]) 0 = ((cstring src).take n).length := by
    unfold strlen
    rw [List.drop_zero, cstring_strncpy_bytes]
  rw [hs] at h1
  unfold strncpy_bytes
  rw [List.append_assoc]
  obtain ⟨i, rfl⟩ : ∃ i, a = ((cstring src).take n).length + i :=
    ⟨a - ((cstring src).take n).length, by omega⟩
  rw [peek_append_right]
  apply peek_all_zero
  intro y hy
  rcases List.mem_append.mp hy with hy | hy
  · exact (List.mem_replicate.mp hy).2
  · exact List.mem_singleton.mp hy

/-- C14: the record `exm_put_init` builds from a title and a counts array `c` is
the one it hands to the library; when the library hands that record back to
`exm_get_init` (with a title buffer of `MAX_LINE_LENGTH+1` bytes), it returns
`NULL`, the counts it stores are `c` in every position 0..16 (and nothing else
is stored in the array), and the title it stores is the first `MAX_LINE_LENGTH`
characters of the given title, padded with NULs. -/
theorem init_counts_round_trip (H : ExodusII_h) (ex_put_init_ext : Int → ex_init_params → Int)
    (ex_get_init_ext : Int → Int × ex_init_params)
    (exoid st : Int) (title buf : List Nat) (c counts : Nat → Int)
    (hlib : ex_get_init_ext exoid = (st, put_init_params H title c))
    (hst : 0 ≤ st)
    (hbuf : buf.length = H.MAX_LINE_LENGTH + 1) :
    (exm_put_init H ex_put_init_ext exoid title c).2 =
      [.ex_put_init_ext exoid (put_init_params H title c)] ∧
    (exm_get_init H ex_get_init_ext exoid buf counts).ret = .NULL ∧
    (∀ i, i < 17 → (exm_get_init H ex_get_init_ext exoid buf counts).counts i = c i) ∧
    (∀ i, 17 ≤ i → (exm_get_init H ex_get_init_ext exoid buf counts).counts i = counts i) ∧
    cstring (exm_get_init H ex_get_init_ext exoid buf counts).title =
      (cstring title).take H.MAX_LINE_LENGTH ∧
    (exm_get_init H ex_get_init_ext exoid buf counts).title =
      (cstring title).take H.MAX_LINE_LENGTH ++
        List.replicate (H.MAX_LINE_LENGTH + 1 - ((cstring title).take H.MAX_LINE_LENGTH).length) 0
      := by
  have ht : (exm_get_init H ex_get_init_ext exoid buf counts).title =
      strncpy_bytes title H.MAX_LINE_LENGTH ++ [0] := by
    simp only [exm_get_init, hlib, hst, if_true, put_init_params]
    exact get_init_title buf title H.MAX_LINE_LENGTH hbuf
  refine ⟨?_, ?_, ?_, ?_, ?_, ?_⟩
  · simp only [exm_put_init]
    split <;> rfl
  · simp only [exm_get_init, hlib, hst, if_true]
  · intro i hi
    simp only [exm_get_init, hlib, hst, if_true, put_init_params, assign, List.foldl]
    interval_cases i <;> simp [Function.update]
  · intro i hi
    simp only [exm_get_init, hlib, hst, if_true, put_init_params, assign, List.foldl]
    have h : ∀ k, k < 17 → i ≠ k := fun k hk => by omega
    simp [Function.update, h]
  · rw [ht]
    exact cstring_strncpy_bytes title _
  · rw [ht]
    unfold strncpy_bytes
    rw [List.append_assoc]
    congr 1
    have hle : ((cstring title).take H.MAX_LINE_LENGTH).length ≤ H.MAX_LINE_LENGTH := by
      rw [List.length_take]
      exact Nat.min_le_left _ _
    have : H.MAX_LINE_LENGTH + 1 - ((cstring title).take H.MAX_LINE_LENGTH).length =
        (H.MAX_LINE_LENGTH - ((cstring title).take H.MAX_LINE_LENGTH).length) + 1 := by omega
    rw [this, List.replicate_succ, replicate_zero_append]

/-- C14, evaluated: the title "Hi" and the counts 1, 2, ..., 17 come back. -/
theorem init_counts_round_trip_witness :
    (echoInit 4 = (0, put_init_params exodusII_h [72, 105] (fun i => (i : Int) + 1)) ∧
      (0 : Int) ≤ 0 ∧
      (List.replicate 81 7).length = exodusII_h.MAX_LINE_LENGTH + 1) ∧
    (exm_get_init exodusII_h echoInit 4 (List.replicate 81 7) (fun _ => 0)).ret = .NULL ∧
    (exm_get_init exodusII_h echoInit 4 (List.replicate 81 7) (fun _ => 0)).counts 16 = 17 ∧
    cstring (exm_get_init exodusII_h echoInit 4 (List.replicate 81 7) (fun _ => 0)).title =
      [72, 105] := by
  have h := init_counts_round_trip exodusII_h (fun _ _ => 0) echoInit 4 0 [72, 105]
    (List.replicate 81 7) (fun i => (i : Int) + 1) (fun _ => 0) rfl (by decide) rfl
  exact ⟨⟨rfl, by decide, rfl⟩, h.2.1, h.2.2.1 16 (by decide), h.2.2.2.2.1⟩

/-! ## exm_get_block_var -/

theorem store_elems_miss {V : Type} (p w : Int) (f : Nat → V) (count i : Nat) (mem : Int → V)
    (a : Int) (h : ∀ j : Nat, i ≤ j → j < i + count → a ≠ p + w * j) :
    store_elems p w f i count mem a = mem a := by
  induction count generalizing i mem with
  | zero => rfl
  | succ c ih =>
    simp only [store_elems]
    rw [ih (i + 1) _ (fun j h1 h2 => h j (by omega) (by omega))]
    exact Function.update_noteq (h i (le_refl _) (by omega)) _ _

theorem store_elems_hit {V : Type} (p w : Int) (hw : w ≠ 0) (f : Nat → V) (count i : Nat)
    (mem : Int → V) (j : Nat) (h1 : i ≤ j) (h2 : j < i + count) :
    store_elems p w f i count mem (p + w * j) = f j := by
  induction count generalizing i mem with
  | zero => omega
  | succ c ih =>
    simp only [store_elems]
    by_cases hj : j = i
    · subst hj
      rw [store_elems_miss]
      · exact Function.update_same _ _ _
      · intro k hk1 _ hk
        have := Int.eq_of_mul_eq_mul_left hw (add_left_cancel hk)
        omega
    · exact ih (i + 1) _ (by omega) (by omega)

theorem segment_offset_le (num_objects : Nat → Int) (b count : Nat)
    (h : ∀ k, b ≤ k → k < b + count → 0 ≤ num_objects k) :
    segment_offset num_objects b ≤ segment_offset num_objects (b + count) := by
  induction count with
  | zero => exact le_refl _
  | succ c ih =>
    have h1 := ih (fun k hk1 hk2 => h k hk1 (by omega))
    have h2 := h (b + c) (by omega) (by omega)
    have e : segment_offset num_objects (b + (c + 1)) =
        segment_offset num_objects (b + c) + num_objects (b + c) := rfl
    omega

/-- One turn of the loop, with `values` advanced by the width that `storage`
names. -/
theorem block_var_loop_step {V : Type} [Zero V]
    (ex_get_var : Int → Int → Int → Int → Int → Int → GetVarAnswer V)
    (exoid time_step t var_idx : Int) (block_ids num_objects is_stored : Nat → Int)
    (storage : Char) (b count : Nat) (values : Int) (mem : Int → V) (calls : List Call) :
    block_var_loop ex_get_var exoid time_step t var_idx block_ids num_objects is_stored storage
        b (count + 1) values mem calls =
      if is_stored b ≠ 0 ∧
          (ex_get_var exoid time_step t var_idx (block_ids b) (num_objects b)).status < 0 then
        ⟨.exm_get_error_string, mem, calls ++
          [.ex_get_var exoid time_step t var_idx (block_ids b) (num_objects b) values]⟩
      else
        block_var_loop ex_get_var exoid time_step t var_idx block_ids num_objects is_stored
          storage (b + 1) count (values + element_width storage * num_objects b)
          (store_elems values (element_width storage)
            (if is_stored b ≠ 0 then
              (ex_get_var exoid time_step t var_idx (block_ids b) (num_objects b)).vals
            else fun _ => 0) 0 (num_objects b).toNat mem)
          (if is_stored b ≠ 0 then calls ++
            [.ex_get_var exoid time_step t var_idx (block_ids b) (num_objects b) values]
          else calls) := by
  by_cases hs : is_stored b ≠ 0
  · by_cases hf : (ex_get_var exoid time_step t var_idx (block_ids b) (num_objects b)).status < 0
    · simp only [block_var_loop, hs, hf, and_self, if_true, ne_eq, not_false_eq_true]
    · by_cases hc : storage = 'f' <;>
        simp only [block_var_loop, hs, hf, hc, element_width, and_false, if_true, if_false, ne_eq,
          not_false_eq_true]
  · by_cases hc : storage = 'f' <;>
      simp only [block_var_loop, hs, hc, element_width, false_and, if_true, if_false]

/-- What the loop leaves when it runs to its end: the segment of every block it
went through, and nothing outside those segments. -/
theorem block_var_loop_spec {V : Type} [Zero V]
    (ex_get_var : Int → Int → Int → Int → Int → Int → GetVarAnswer V)
    (exoid time_step t var_idx : Int) (block_ids num_objects is_stored : Nat → Int)
    (storage : Char) (hw : 0 < element_width storage) (count b : Nat) (mem : Int → V)
    (calls : List Call)
    (hnum : ∀ k, b ≤ k → k < b + count → 0 ≤ num_objects k)
    (hok : (block_var_loop ex_get_var exoid time_step t var_idx block_ids num_objects is_stored
      storage b count (element_width storage * segment_offset num_objects b) mem calls).ret
        = .NULL) :
    (∀ k, b ≤ k → k < b + count → ∀ i : Nat, (i : Int) < num_objects k →
      (block_var_loop ex_get_var exoid time_step t var_idx block_ids num_objects is_stored
        storage b count (element_width storage * segment_offset num_objects b) mem calls).values
          (element_width storage * (segment_offset num_objects k + i)) =
        if is_stored k ≠ 0 then
          (ex_get_var exoid time_step t var_idx (block_ids k) (num_objects k)).vals i
        else 0) ∧
    (∀ a : Int,
      (∀ e : Int, segment_offset num_objects b ≤ e →
        e < segment_offset num_objects (b + count) → a ≠ element_width storage * e) →
      (block_var_loop ex_get_var exoid time_step t var_idx block_ids num_objects is_stored
        storage b count (element_width storage * segment_offset num_objects b) mem calls).values
          a = mem a) := by
  induction count generalizing b mem calls with
  | zero =>
    refine ⟨fun k h1 h2 => by omega, fun a _ => rfl⟩
  | succ c ih =>
    have hw0 : element_width storage ≠ 0 := by omega
    have hb : 0 ≤ num_objects b := hnum b (le_refl _) (by omega)
    have hoff : segment_offset num_objects (b + 1) =
        segment_offset num_objects b + num_objects b := rfl
    have hnext : element_width storage * segment_offset num_objects b +
        element_width storage * num_objects b =
        element_width storage * segment_offset num_objects (b + 1) := by
      rw [hoff, mul_add]
    have hmono := segment_offset_le num_objects (b + 1) c
      (fun k h1 h2 => hnum k (by omega) (by omega))
    have hbc : b + 1 + c = b + (c + 1) := by omega
    rw [block_var_loop_step] at hok ⊢
    by_cases herr : is_stored b ≠ 0 ∧
        (ex_get_var exoid time_step t var_idx (block_ids b) (num_objects b)).status < 0
    · rw [if_pos herr] at hok
      cases hok
    · rw [if_neg herr] at hok ⊢
      rw [hnext] at hok ⊢
      obtain ⟨ih1, ih2⟩ := ih (b + 1) _ _ (fun k h1 h2 => hnum k (by omega) (by omega)) hok
      refine ⟨?_, ?_⟩
      · intro k h1 h2 i hi
        by_cases hk : k = b
        · subst hk
          rw [ih2]
          · have hi2 : i < 0 + (num_objects k).toNat := by omega
            rw [mul_add, store_elems_hit _ _ hw0 _ _ 0 _ i (Nat.zero_le _) hi2]
            by_cases hs : is_stored k ≠ 0
            · rw [if_pos hs, if_pos hs]
            · rw [if_neg hs, if_neg hs]
          · intro e he1 _ he
            have := Int.eq_of_mul_eq_mul_left hw0 he
            omega
        · exact ih1 k (by omega) (by omega) i hi
      · intro a ha
        rw [ih2]
        · apply store_elems_miss
          intro j _ hj2 hj
          rw [← mul_add] at hj
          exact ha _ (by omega) (by rw [← hbc]; omega) hj
        · intro e he1 he2
          exact ha e (by omega) (by rw [← hbc]; exact he2)

theorem block_var_type_eq (H : ExodusII_h) (var_type t : Int)
    (h : block_var_type H var_type = some t) : t = var_type := by
  unfold block_var_type at h
  repeat' split at h
  all_goals first | (cases h; symm; assumption) | cases h

theorem block_var_type_valid (H : ExodusII_h) (var_type : Int)
    (h : var_type ∈ [H.EX_ELEM_BLOCK, H.EX_EDGE_BLOCK, H.EX_FACE_BLOCK, H.EX_NODE_SET,
      H.EX_EDGE_SET, H.EX_FACE_SET, H.EX_ELEM_SET, H.EX_SIDE_SET]) :
    block_var_type H var_type = some var_type := by
  simp only [List.mem_cons, List.mem_singleton, List.not_mem_nil, or_false] at h
  unfold block_var_type
  repeat' split
  all_goals first
    | (rename_i hh; rw [← hh])
    | (exfalso; rcases h with h | h | h | h | h | h | h | h <;> contradiction)

theorem element_width_pos (storage : Char) : 0 < element_width storage := by
  unfold element_width
  split <;> decide

/-- C13: for `num_ids > 0`, a valid `var_type` and `num_objects` entries that are
not negative, when `exm_get_block_var` returns `NULL` the buffer `values` holds
one segment per block: the segment of block `b` starts at the element offset
`num_objects[0] + ... + num_objects[b-1]` and has `num_objects[b]` elements, which
are the values the library reads for `block_ids[b]` when `is_stored[b]` is true
and zeros when it is false; nothing outside the first `sum of num_objects`
elements is stored; the elements have the width of `float` when `storage` is
`'f'` and of `double` otherwise (offsets of `values` are in bytes). -/
theorem block_var_segments {V : Type} [Zero V] (H : ExodusII_h)
    (ex_get_var : Int → Int → Int → Int → Int → Int → GetVarAnswer V)
    (exoid time_step var_type var_idx num_ids : Int)
    (block_ids num_objects is_stored : Nat → Int) (storage : Char) (mem : Int → V)
    (hn : 0 < num_ids)
    (hvalid : var_type ∈ [H.EX_ELEM_BLOCK, H.EX_EDGE_BLOCK, H.EX_FACE_BLOCK, H.EX_NODE_SET,
      H.EX_EDGE_SET, H.EX_FACE_SET, H.EX_ELEM_SET, H.EX_SIDE_SET])
    (hnum : ∀ b : Nat, (b : Int) < num_ids → 0 ≤ num_objects b)
    (hok : (exm_get_block_var H ex_get_var exoid time_step var_type var_idx num_ids block_ids
      num_objects is_stored storage mem).ret = .NULL) :
    (∀ b : Nat, (b : Int) < num_ids → ∀ i : Nat, (i : Int) < num_objects b →
      (exm_get_block_var H ex_get_var exoid time_step var_type var_idx num_ids block_ids
        num_objects is_stored storage mem).values
          (element_width storage * (segment_offset num_objects b + i)) =
        if is_stored b ≠ 0 then
          (ex_get_var exoid time_step var_type var_idx (block_ids b) (num_objects b)).vals i
        else 0) ∧
    (∀ a : Int,
      (∀ e : Int, 0 ≤ e → e < segment_offset num_objects num_ids.toNat →
        a ≠ element_width storage * e) →
      (exm_get_block_var H ex_get_var exoid time_step var_type var_idx num_ids block_ids
        num_objects is_stored storage mem).values a = mem a) ∧
    element_width storage = (if storage = 'f' then sizeof_float else sizeof_double) := by
  have h0 : (0 : Int) = element_width storage * segment_offset num_objects 0 := by
    rw [show segment_offset num_objects 0 = 0 from rfl, mul_zero]
  have e : exm_get_block_var H ex_get_var exoid time_step var_type var_idx num_ids block_ids
      num_objects is_stored storage mem =
      block_var_loop ex_get_var exoid time_step var_type var_idx block_ids num_objects
        is_stored storage 0 num_ids.toNat
        (element_width storage * segment_offset num_objects 0) mem [] := by
    unfold exm_get_block_var
    rw [if_pos hn, block_var_type_valid H var_type hvalid, ← h0]
  rw [e] at hok ⊢
  obtain ⟨h1, h2⟩ := block_var_loop_spec ex_get_var exoid time_step var_type var_idx block_ids
    num_objects is_stored storage (element_width_pos storage) num_ids.toNat 0 mem []
    (fun k _ hk => hnum k (by omega)) hok
  refine ⟨fun b hb i hi => h1 b (Nat.zero_le _) (by omega) i hi, fun a ha => h2 a ?_, rfl⟩
  intro e1 he1 he2
  rw [Nat.zero_add] at he2
  exact ha e1 he1 he2

/-- C13, evaluated: two blocks of two objects, the first stored and the second
not, in floats: the bytes 0 and 4 hold the values of block 10, the bytes 8 and
12 hold zeros, byte 16 still holds the 7 it held. -/
theorem block_var_segments_witness :
    ((0 : Int) < 2 ∧
      (1 : Int) ∈ [exodusII_h.EX_ELEM_BLOCK, exodusII_h.EX_EDGE_BLOCK, exodusII_h.EX_FACE_BLOCK,
        exodusII_h.EX_NODE_SET, exodusII_h.EX_EDGE_SET, exodusII_h.EX_FACE_SET,
        exodusII_h.EX_ELEM_SET, exodusII_h.EX_SIDE_SET] ∧
      (exm_get_block_var exodusII_h someVar 1 1 1 1 2 (fun b => 10 + b) (fun _ => 2)
        (fun b => if b = 0 then 1 else 0) 'f' (fun _ => 7)).ret = .NULL) ∧
    (exm_get_block_var exodusII_h someVar 1 1 1 1 2 (fun b => 10 + b) (fun _ => 2)
      (fun b => if b = 0 then 1 else 0) 'f' (fun _ => 7)).values 4 = 1001 ∧
    (exm_get_block_var exodusII_h someVar 1 1 1 1 2 (fun b => 10 + b) (fun _ => 2)
      (fun b => if b = 0 then 1 else 0) 'f' (fun _ => 7)).values 12 = 0 ∧
    (exm_get_block_var exodusII_h someVar 1 1 1 1 2 (fun b => 10 + b) (fun _ => 2)
      (fun b => if b = 0 then 1 else 0) 'f' (fun _ => 7)).values 16 = 7 := by
  have h := block_var_segments exodusII_h someVar 1 1 1 1 2 (fun b => 10 + b) (fun _ => 2)
    (fun b => if b = 0 then 1 else 0) 'f' (fun _ => 7) (by decide) (by decide)
    (fun _ _ => (by decide : (0 : Int) ≤ 2)) (by decide)
  refine ⟨⟨by decide, by decide, by decide⟩, ?_, ?_, ?_⟩
  · exact h.1 0 (by decide) 1 (by decide)
  · exact h.1 1 (by decide) 1 (by decide)
  · refine h.2.1 16 (fun e he1 he2 => ?_)
    have h4 : element_width 'f' = 4 := by decide
    have hs : segment_offset (fun _ => (2 : Int)) (2 : Int).toNat = 4 := by decide
    rw [h4]
    rw [hs] at he2
    omega

/-! ## Strings in character buffers -/

theorem peek_drop (mem : List Nat) (p k : Nat) : peek (mem.drop p) k = peek mem (p + k) := by
  simp [peek, List.getElem?_drop]

theorem cstring_length_spec (l : List Nat) :
    peek l (cstring l).length = 0 ∧ ∀ k, k < (cstring l).length → peek l k ≠ 0 := by
  induction l with
  | nil => exact ⟨rfl, fun k hk => absurd hk (Nat.not_lt_zero _)⟩
  | cons x l ih =>
    by_cases hx : x = 0
    · subst hx
      have e : cstring (0 :: l) = [] := by simp [cstring]
      rw [e]
      exact ⟨rfl, fun k hk => absurd hk (Nat.not_lt_zero _)⟩
    · have e : cstring (x :: l) = x :: cstring l := by
        unfold cstring
        rw [List.takeWhile_cons, if_pos (by simpa using hx)]
      rw [e]
      refine ⟨?_, ?_⟩
      · simpa [peek] using ih.1
      · intro k hk
        cases k with
        | zero => simpa [peek] using hx
        | succ n =>
          have := ih.2 n (by simpa using hk)
          simpa [peek] using this

/-- The value of `strlen`: the offset of the first NUL from `p` on (a byte past
the end of the buffer reads as NUL). -/
theorem strlen_spec (mem : List Nat) (p : Nat) :
    peek mem (p + strlen mem p) = 0 ∧ ∀ k, k < strlen mem p → peek mem (p + k) ≠ 0 := by
  have h := cstring_length_spec (mem.drop p)
  unfold strlen
  refine ⟨?_, fun k hk => ?_⟩
  · rw [← peek_drop]
    exact h.1
  · rw [← peek_drop]
    exact h.2 k hk

theorem strlen_unique (mem : List Nat) (p n : Nat) (h0 : peek mem (p + n) = 0)
    (h : ∀ k, k < n → peek mem (p + k) ≠ 0) : strlen mem p = n := by
  have hs := strlen_spec mem p
  rcases Nat.lt_trichotomy (strlen mem p) n with hlt | heq | hgt
  · exact absurd hs.1 (h _ hlt)
  · exact heq
  · exact absurd h0 (hs.2 _ hgt)

/-- The length of a string is settled by the bytes up to its NUL. -/
theorem strlen_congr (m1 m2 : List Nat) (p : Nat)
    (h : ∀ k, k ≤ strlen m1 p → peek m2 (p + k) = peek m1 (p + k)) :
    strlen m2 p = strlen m1 p := by
  have hs := strlen_spec m1 p
  apply strlen_unique
  · rw [h _ (le_refl _)]
    exact hs.1
  · intro k hk
    rw [h k (Nat.le_of_lt hk)]
    exact hs.2 k hk

theorem peek_poke_zero (mem : List Nat) (a b : Nat) :
    peek (poke mem a 0) b = if a = b then 0 else peek mem b := by
  by_cases h : a = b
  · subst h
    rw [if_pos rfl]
    by_cases hl : a < mem.length
    · exact peek_poke_self mem a 0 hl
    · exact peek_of_length_le _ _ (by rw [length_poke]; omega)
  · rw [if_neg h]
    exact peek_poke_ne mem a b 0 h

theorem peek_fill_zero (mem : List Nat) (p count k a : Nat) :
    peek (fill_zero mem p k count) a =
      if p + k ≤ a ∧ a < p + k + count then 0 else peek mem a := by
  induction count generalizing mem k with
  | zero =>
    have : ¬ (p + k ≤ a ∧ a < p + k + 0) := by omega
    rw [if_neg this]
    rfl
  | succ c ih =>
    simp only [fill_zero]
    rw [ih, peek_poke_zero]
    by_cases h1 : p + (k + 1) ≤ a ∧ a < p + (k + 1) + c
    · rw [if_pos h1, if_pos (by omega)]
    · rw [if_neg h1]
      by_cases h2 : p + k = a
      · rw [if_pos h2, if_pos (by omega)]
      · rw [if_neg h2, if_neg (by omega)]

/-- Slots of `S` bytes, each treated by `proc`, which stores NULs from the offset
`cut` to the end of the slot it is given: what the buffer holds after all slots
have been treated, when `cut` is settled by the bytes of the slot. -/
theorem foldl_slots (S : Nat) (proc : List Nat → Nat → List Nat) (cut : List Nat → Nat → Nat)
    (good : List Nat → Nat → Prop)
    (hspec : ∀ m p, good m p → ∀ a,
      peek (proc m p) a = if p + cut m p ≤ a ∧ a < p + S then 0 else peek m a)
    (hlocal : ∀ m1 m2 p, good m1 p →
      (∀ a, p ≤ a → a < p + S → peek m2 a = peek m1 a) → cut m2 p = cut m1 p ∧ good m2 p)
    (ps : List Nat) (m : List Nat)
    (hsep : ps.Pairwise (fun p q => p + S ≤ q)) (hgood : ∀ p ∈ ps, good m p) (a : Nat) :
    peek (ps.foldl proc m) a =
      if ∃ p ∈ ps, p + cut m p ≤ a ∧ a < p + S then 0 else peek m a := by
  induction ps generalizing m with
  | nil => simp
  | cons p rest ih =>
    have hp := hgood p (List.mem_cons_self _ _)
    have hsep1 := (List.pairwise_cons.mp hsep).1
    have hsep2 := (List.pairwise_cons.mp hsep).2
    have hloc : ∀ q ∈ rest, cut (proc m p) q = cut m q ∧ good (proc m p) q := by
      intro q hq
      apply hlocal m (proc m p) q (hgood q (List.mem_cons_of_mem _ hq))
      intro b hb1 _
      have := hsep1 q hq
      rw [hspec m p hp, if_neg (by omega)]
    rw [List.foldl_cons, ih (proc m p) hsep2 (fun q hq => (hloc q hq).2)]
    by_cases h1 : ∃ q ∈ rest, q + cut (proc m p) q ≤ a ∧ a < q + S
    · obtain ⟨q, hq, hq1⟩ := h1
      rw [if_pos ⟨q, hq, hq1⟩, if_pos ⟨q, List.mem_cons_of_mem _ hq, by rw [← (hloc q hq).1]; exact hq1⟩]
    · rw [if_neg h1, hspec m p hp]
      by_cases h2 : p + cut m p ≤ a ∧ a < p + S
      · rw [if_pos h2, if_pos ⟨p, List.mem_cons_self _ _, h2⟩]
      · rw [if_neg h2, if_neg]
        rintro ⟨q, hq, hq1⟩
        rcases List.mem_cons.mp hq with rfl | hq'
        · exact h2 hq1
        · exact h1 ⟨q, hq', by rw [(hloc q hq').1]; exact hq1⟩

/-- The offsets `0, S, 2 S, ...` are `S` apart. -/
theorem slots_separated (S n : Nat) :
    ((List.range n).map (· * S)).Pairwise (fun p q => p + S ≤ q) := by
  rw [List.pairwise_map]
  refine List.Pairwise.imp ?_ (List.pairwise_lt_range n)
  intro i j hij
  calc i * S + S = (i + 1) * S := by rw [Nat.add_mul, Nat.one_mul]
    _ ≤ j * S := Nat.mul_le_mul_right S hij

/-! ## exm_get_info -/

theorem peek_lib_store (mem : List Nat) (cells : Nat → Nat) (a : Nat) :
    peek (lib_store mem cells) a = if a < mem.length then cells a else 0 := by
  unfold lib_store peek
  by_cases h : a < mem.length
  · rw [if_pos h, List.getD_eq_getElem?_getD, List.getElem?_map,
      List.getElem?_range h]
    rfl
  · rw [if_neg h, List.getD_eq_getElem?_getD,
      List.getElem?_eq_none (by rw [List.length_map, List.length_range]; omega)]
    rfl

theorem pad_line_spec (H : ExodusII_h) (m : List Nat) (p : Nat)
    (h : strlen m p ≤ H.MAX_LINE_LENGTH) (a : Nat) :
    peek (pad_line H m p) a =
      if p + strlen m p ≤ a ∧ a < p + (H.MAX_LINE_LENGTH + 1) then 0 else peek m a := by
  unfold pad_line
  rw [peek_fill_zero]
  have e : p + strlen m p + (H.MAX_LINE_LENGTH + 1 - strlen m p) = p + (H.MAX_LINE_LENGTH + 1) := by
    omega
  rw [e]

/-- C19: for `num_info > 0`, when `exm_get_info` returns `NULL` and every line
the library stored ends within its slot (at most `MAX_LINE_LENGTH` characters
before its NUL), the library was handed the pointers `i*(MAX_LINE_LENGTH+1)` and
line `i` is left in the bytes from `i*(MAX_LINE_LENGTH+1)` on: its text is what
the library stored and every byte from the end of the text to the end of the
slot is NUL.  For `num_info <= 0` it returns `NULL` without a library call and
with the buffer as it was. -/
theorem get_info_lines_padded (H : ExodusII_h)
    (ex_get_info : Int → List Nat → List Nat → Int × (Nat → Nat))
    (exoid num_info : Int) (info : List Nat) :
    (num_info ≤ 0 → exm_get_info H ex_get_info exoid num_info info = ⟨.NULL, info, []⟩) ∧
    (0 < num_info →
      (exm_get_info H ex_get_info exoid num_info info).ret = .NULL →
      (∀ i, i < num_info.toNat →
        strlen (lib_store info
          (ex_get_info exoid
            ((List.range num_info.toNat).map fun i => i * (H.MAX_LINE_LENGTH + 1)) info).2)
          (i * (H.MAX_LINE_LENGTH + 1)) ≤ H.MAX_LINE_LENGTH) →
      (exm_get_info H ex_get_info exoid num_info info).calls =
        [.ex_get_info exoid
          ((List.range num_info.toNat).map fun i => i * (H.MAX_LINE_LENGTH + 1))] ∧
      ∀ i, i < num_info.toNat → ∀ k, k ≤ H.MAX_LINE_LENGTH →
        peek (exm_get_info H ex_get_info exoid num_info info).buf
            (i * (H.MAX_LINE_LENGTH + 1) + k) =
          if k < strlen (lib_store info
              (ex_get_info exoid
                ((List.range num_info.toNat).map fun i => i * (H.MAX_LINE_LENGTH + 1)) info).2)
              (i * (H.MAX_LINE_LENGTH + 1)) then
            peek (lib_store info
              (ex_get_info exoid
                ((List.range num_info.toNat).map fun i => i * (H.MAX_LINE_LENGTH + 1)) info).2)
              (i * (H.MAX_LINE_LENGTH + 1) + k)
          else 0) := by
  refine ⟨fun h => ?_, fun hn hok hfit => ?_⟩
  · unfold exm_get_info
    rw [if_neg (by omega)]
  · have hst : ¬ (ex_get_info exoid
        ((List.range num_info.toNat).map fun i => i * (H.MAX_LINE_LENGTH + 1)) info).1 < 0 := by
      intro hneg
      unfold exm_get_info at hok
      rw [if_pos hn] at hok
      simp only [hneg, if_true] at hok
      cases hok
    have e : exm_get_info H ex_get_info exoid num_info info =
        ⟨.NULL,
          ((List.range num_info.toNat).map fun i => i * (H.MAX_LINE_LENGTH + 1)).foldl
            (pad_line H)
            (lib_store info (ex_get_info exoid
              ((List.range num_info.toNat).map fun i => i * (H.MAX_LINE_LENGTH + 1)) info).2),
          [.ex_get_info exoid
            ((List.range num_info.toNat).map fun i => i * (H.MAX_LINE_LENGTH + 1))]⟩ := by
      unfold exm_get_info
      rw [if_pos hn]
      simp only [hst, if_false]
    rw [e]
    refine ⟨rfl, fun i hi k hk => ?_⟩
    have hmem : ∀ p, p ∈ (List.range num_info.toNat).map (fun i => i * (H.MAX_LINE_LENGTH + 1)) ↔
        ∃ j, j < num_info.toNat ∧ j * (H.MAX_LINE_LENGTH + 1) = p := by
      intro p
      simp [List.mem_map, List.mem_range]
    rw [foldl_slots (H.MAX_LINE_LENGTH + 1) (pad_line H) strlen
      (fun m p => strlen m p ≤ H.MAX_LINE_LENGTH)
      (fun m p hg a => pad_line_spec H m p hg a)
      (fun m1 m2 p hg hag => by
        have hg1 : strlen m1 p ≤ H.MAX_LINE_LENGTH := hg
        have hc : strlen m2 p = strlen m1 p :=
          strlen_congr m1 m2 p (fun k hk => hag _ (by omega) (by omega))
        refine ⟨hc, ?_⟩
        show strlen m2 p ≤ H.MAX_LINE_LENGTH
        rw [hc]
        exact hg1)
      _ _ (slots_separated _ _)
      (fun p hp => by
        obtain ⟨j, hj, rfl⟩ := (hmem p).mp hp
        exact hfit j hj)]
    by_cases hlt : k < strlen (lib_store info
        (ex_get_info exoid
          ((List.range num_info.toNat).map fun i => i * (H.MAX_LINE_LENGTH + 1)) info).2)
        (i * (H.MAX_LINE_LENGTH + 1))
    · rw [if_pos hlt, if_neg]
      rintro ⟨p, hp, hp1, hp2⟩
      obtain ⟨j, hj, rfl⟩ := (hmem p).mp hp
      have hfj := hfit j hj
      rcases Nat.lt_trichotomy i j with h | h | h
      · have : (i + 1) * (H.MAX_LINE_LENGTH + 1) ≤ j * (H.MAX_LINE_LENGTH + 1) :=
          Nat.mul_le_mul_right _ h
        rw [Nat.add_mul, Nat.one_mul] at this
        omega
      · subst h
        omega
      · have : (j + 1) * (H.MAX_LINE_LENGTH + 1) ≤ i * (H.MAX_LINE_LENGTH + 1) :=
          Nat.mul_le_mul_right _ h
        rw [Nat.add_mul, Nat.one_mul] at this
        omega
    · rw [if_neg hlt, if_pos]
      exact ⟨_, (hmem _).mpr ⟨i, hi, rfl⟩, by omega, by omega⟩

/-- C19, evaluated: one line; the library stores "Hi", a NUL and the character
65 in all other bytes; afterwards byte 1 holds the "i" and byte 80, the last of
the slot, holds NUL. -/
theorem get_info_lines_padded_witness :
    ((0 : Int) < 1 ∧
      (exm_get_info exodusII_h (fun _ _ _ => lineHi) 4 1 (List.replicate 81 7)).ret = .NULL) ∧
    peek (exm_get_info exodusII_h (fun _ _ _ => lineHi) 4 1 (List.replicate 81 7)).buf 1 = 105 ∧
    peek (exm_get_info exodusII_h (fun _ _ _ => lineHi) 4 1 (List.replicate 81 7)).buf 80 = 0 := by
  have h := (get_info_lines_padded exodusII_h (fun _ _ _ => lineHi) 4 1
    (List.replicate 81 7)).2 (by decide) (by decide)
    (fun i hi => by
      have hi0 : i = 0 := by
        have : (1 : Int).toNat = 1 := rfl
        omega
      subst hi0
      decide)
  exact ⟨⟨by decide, by decide⟩, (h.2 0 (by decide) 1 (by decide)).trans (by decide),
    (h.2 0 (by decide) 80 (by decide)).trans (by decide)⟩

/-! ## exm_get_qa -/

theorem exm_helper_get_qa_alloc_eq (H : ExodusII_h)
    (ex_get_qa : Int → List (List Nat) → List Nat → Int × (Nat → Nat))
    (exoid nrec : Int) (qabuf : List Nat) :
    exm_helper_get_qa_alloc H ex_get_qa exoid nrec qabuf =
      exm_helper_get_qa_8 H ex_get_qa exoid nrec qabuf := rfl

/-- The table of `exm_helper_get_qa_8`, row by row, is the list of the offsets
`s * (MAX_STR_LENGTH+1)` for `s < 4 * nrec`. -/
theorem qarec_flatten (H : ExodusII_h) (n : Nat) :
    (qarec H n).flatten = (List.range (4 * n)).map (· * (H.MAX_STR_LENGTH + 1)) := by
  unfold qarec
  induction n with
  | zero => rfl
  | succ k ih =>
    rw [List.range_succ k, List.map_append, List.flatten_append, ih]
    have e : 4 * (k + 1) = 4 * k + 4 := by omega
    rw [e, List.range_add, List.map_append]
    congr 1
    have r4 : List.range 4 = [0, 1, 2, 3] := rfl
    rw [r4]
    simp only [List.map_cons, List.map_nil, List.flatten_cons, List.flatten_nil, List.append_nil]
    have h : ∀ j, k * 4 * (H.MAX_STR_LENGTH + 1) + j * (H.MAX_STR_LENGTH + 1) =
        (4 * k + j) * (H.MAX_STR_LENGTH + 1) := fun j => by
      rw [Nat.add_mul, Nat.mul_comm k 4]
    rw [h 0, h 1, h 2, h 3]

theorem qarec_eq (H : ExodusII_h) (n : Nat) :
    qarec H n = (List.range n).map fun i =>
      (List.range 4).map fun j => (4 * i + j) * (H.MAX_STR_LENGTH + 1) := by
  unfold qarec
  apply List.map_congr_left
  intro i _
  apply List.map_congr_left
  intro j _
  rw [Nat.add_mul, Nat.mul_comm i 4]

theorem terminate_entry_cut_le (H : ExodusII_h) (m : List Nat) (p : Nat) :
    strlen (poke m (p + H.MAX_STR_LENGTH) 0) p ≤ H.MAX_STR_LENGTH := by
  by_contra hlt
  have h0 : peek (poke m (p + H.MAX_STR_LENGTH) 0) (p + H.MAX_STR_LENGTH) = 0 := by
    rw [peek_poke_zero, if_pos rfl]
  exact (strlen_spec _ p).2 H.MAX_STR_LENGTH (by omega) h0

theorem terminate_entry_spec (H : ExodusII_h) (m : List Nat) (p a : Nat) :
    peek (terminate_entry H m p) a =
      if p + strlen (poke m (p + H.MAX_STR_LENGTH) 0) p ≤ a ∧ a < p + (H.MAX_STR_LENGTH + 1)
      then 0 else peek m a := by
  have hle := terminate_entry_cut_le H m p
  unfold terminate_entry
  rw [peek_fill_zero, peek_poke_zero]
  by_cases h1 : p + strlen (poke m (p + H.MAX_STR_LENGTH) 0) p ≤ a ∧
      a < p + strlen (poke m (p + H.MAX_STR_LENGTH) 0) p +
        (H.MAX_STR_LENGTH - strlen (poke m (p + H.MAX_STR_LENGTH) 0) p)
  · rw [if_pos h1, if_pos (by omega)]
  · rw [if_neg h1]
    by_cases h2 : p + H.MAX_STR_LENGTH = a
    · rw [if_pos h2, if_pos (by omega)]
    · rw [if_neg h2, if_neg (by omega)]

theorem terminate_entry_local (H : ExodusII_h) (m1 m2 : List Nat) (p : Nat)
    (h : ∀ a, p ≤ a → a < p + (H.MAX_STR_LENGTH + 1) → peek m2 a = peek m1 a) :
    strlen (poke m2 (p + H.MAX_STR_LENGTH) 0) p = strlen (poke m1 (p + H.MAX_STR_LENGTH) 0) p := by
  have hle := terminate_entry_cut_le H m1 p
  apply strlen_congr
  intro k hk
  rw [peek_poke_zero, peek_poke_zero]
  by_cases hkm : p + H.MAX_STR_LENGTH = p + k
  · rw [if_pos hkm, if_pos hkm]
  · rw [if_neg hkm, if_neg hkm]
    exact h _ (by omega) (by omega)

/-- The function on an accepted `num_qa`: both helpers do the same. -/
theorem exm_get_qa_accepted (H : ExodusII_h)
    (ex_get_qa : Int → List (List Nat) → List Nat → Int × (Nat → Nat))
    (exoid num_qa : Int) (qabuf : List Nat) (h1 : 1 ≤ num_qa) (h2 : num_qa < MAX_QA_RECORDS) :
    exm_get_qa H ex_get_qa exoid num_qa qabuf =
      if (exm_helper_get_qa_8 H ex_get_qa exoid num_qa qabuf).1 < 0 then
        ⟨.exm_get_error_string, (exm_helper_get_qa_8 H ex_get_qa exoid num_qa qabuf).2.1,
          (exm_helper_get_qa_8 H ex_get_qa exoid num_qa qabuf).2.2⟩
      else
        ⟨.NULL, (exm_helper_get_qa_8 H ex_get_qa exoid num_qa qabuf).2.1,
          (exm_helper_get_qa_8 H ex_get_qa exoid num_qa qabuf).2.2⟩ := by
  unfold exm_get_qa
  rw [if_pos (by omega)]
  by_cases h8 : num_qa ≤ 8
  · rw [if_pos h8]
  · rw [if_neg h8, if_pos h2, exm_helper_get_qa_alloc_eq]

/-- C17: for every accepted `num_qa` (at least 1 and below `MAX_QA_RECORDS`) the
library is handed, for entry `j` of record `i`, the byte offset
`(4*i + j)*(MAX_STR_LENGTH+1)` of the caller's buffer; the `4*num_qa` slots of
`MAX_STR_LENGTH+1` bytes that start at these offsets lie in the first
`4*num_qa*(MAX_STR_LENGTH+1)` bytes and every byte of those lies in exactly one
slot; and when the call returns `NULL`, every slot holds, up to some `n` of at
most `MAX_STR_LENGTH`, the bytes the library stored, none of them NUL, and NUL
from `n` to the end of the slot. -/
theorem get_qa_slots (H : ExodusII_h)
    (ex_get_qa : Int → List (List Nat) → List Nat → Int × (Nat → Nat))
    (exoid num_qa : Int) (qabuf : List Nat)
    (h1 : 1 ≤ num_qa) (h2 : num_qa < MAX_QA_RECORDS) :
    (exm_get_qa H ex_get_qa exoid num_qa qabuf).calls =
      [.ex_get_qa exoid ((List.range num_qa.toNat).map fun i =>
        (List.range 4).map fun j => (4 * i + j) * (H.MAX_STR_LENGTH + 1))] ∧
    (∀ s, s < 4 * num_qa.toNat →
      (s + 1) * (H.MAX_STR_LENGTH + 1) ≤ 4 * num_qa.toNat * (H.MAX_STR_LENGTH + 1)) ∧
    (∀ a, a < 4 * num_qa.toNat * (H.MAX_STR_LENGTH + 1) →
      ∃ s, s < 4 * num_qa.toNat ∧
        s * (H.MAX_STR_LENGTH + 1) ≤ a ∧ a < (s + 1) * (H.MAX_STR_LENGTH + 1) ∧
        ∀ s2, s2 * (H.MAX_STR_LENGTH + 1) ≤ a → a < (s2 + 1) * (H.MAX_STR_LENGTH + 1) →
          s2 = s) ∧
    ((exm_get_qa H ex_get_qa exoid num_qa qabuf).ret = .NULL →
      ∀ i, i < num_qa.toNat → ∀ j, j < 4 →
        ∃ n, n ≤ H.MAX_STR_LENGTH ∧
          (∀ k, k < n →
            peek (exm_get_qa H ex_get_qa exoid num_qa qabuf).buf
                ((4 * i + j) * (H.MAX_STR_LENGTH + 1) + k) =
              peek (lib_store qabuf (ex_get_qa exoid (qarec H num_qa.toNat) qabuf).2)
                ((4 * i + j) * (H.MAX_STR_LENGTH + 1) + k) ∧
            peek (exm_get_qa H ex_get_qa exoid num_qa qabuf).buf
                ((4 * i + j) * (H.MAX_STR_LENGTH + 1) + k) ≠ 0) ∧
          (∀ k, n ≤ k → k ≤ H.MAX_STR_LENGTH →
            peek (exm_get_qa H ex_get_qa exoid num_qa qabuf).buf
                ((4 * i + j) * (H.MAX_STR_LENGTH + 1) + k) = 0)) := by
  have hS : 0 < H.MAX_STR_LENGTH + 1 := Nat.succ_pos _
  refine ⟨?_, ?_, ?_, ?_⟩
  · have e3 : (exm_helper_get_qa_8 H ex_get_qa exoid num_qa qabuf).2.2 =
        [.ex_get_qa exoid (qarec H num_qa.toNat)] := by
      unfold exm_helper_get_qa_8
      by_cases h : 0 ≤ (ex_get_qa exoid (qarec H num_qa.toNat) qabuf).1 <;>
        simp only [h, if_true, if_false]
    rw [exm_get_qa_accepted H ex_get_qa exoid num_qa qabuf h1 h2, ← qarec_eq]
    split <;> exact e3
  · intro s hs
    exact Nat.mul_le_mul_right _ hs
  · intro a ha
    refine ⟨a / (H.MAX_STR_LENGTH + 1), ?_, ?_, ?_, ?_⟩
    · exact (Nat.div_lt_iff_lt_mul hS).mpr ha
    · exact Nat.div_mul_le_self a _
    · exact (Nat.div_lt_iff_lt_mul hS).mp (Nat.lt_succ_self _)
    · intro s2 hs1 hs2
      have hlo : s2 ≤ a / (H.MAX_STR_LENGTH + 1) := (Nat.le_div_iff_mul_le hS).mpr hs1
      have hhi : a / (H.MAX_STR_LENGTH + 1) < s2 + 1 := (Nat.div_lt_iff_lt_mul hS).mpr hs2
      omega
  · intro hok i hi j hj
    rw [exm_get_qa_accepted H ex_get_qa exoid num_qa qabuf h1 h2] at hok ⊢
    have hst : 0 ≤ (ex_get_qa exoid (qarec H num_qa.toNat) qabuf).1 := by
      by_contra hneg
      have e : (exm_helper_get_qa_8 H ex_get_qa exoid num_qa qabuf).1 =
          (ex_get_qa exoid (qarec H num_qa.toNat) qabuf).1 := by
        unfold exm_helper_get_qa_8
        by_cases h : 0 ≤ (ex_get_qa exoid (qarec H num_qa.toNat) qabuf).1 <;>
          simp only [h, if_true, if_false]
      rw [e, if_pos (by omega)] at hok
      cases hok
    have e1 : (exm_helper_get_qa_8 H ex_get_qa exoid num_qa qabuf).1 =
        (ex_get_qa exoid (qarec H num_qa.toNat) qabuf).1 := by
      unfold exm_helper_get_qa_8
      by_cases h : 0 ≤ (ex_get_qa exoid (qarec H num_qa.toNat) qabuf).1 <;>
        simp only [h, if_true, if_false]
    have e2 : (exm_helper_get_qa_8 H ex_get_qa exoid num_qa qabuf).2.1 =
        (qarec H num_qa.toNat).flatten.foldl (terminate_entry H)
          (lib_store qabuf (ex_get_qa exoid (qarec H num_qa.toNat) qabuf).2) := by
      unfold exm_helper_get_qa_8
      simp only [hst, if_true]
    rw [e1, if_neg (by omega)]
    simp only [e2]
    have hmem : ∀ p, p ∈ (List.range (4 * num_qa.toNat)).map (· * (H.MAX_STR_LENGTH + 1)) ↔
        ∃ s, s < 4 * num_qa.toNat ∧ s * (H.MAX_STR_LENGTH + 1) = p := by
      intro p
      simp [List.mem_map, List.mem_range]
    have hfold := fun a => foldl_slots (H.MAX_STR_LENGTH + 1) (terminate_entry H)
      (fun m p => strlen (poke m (p + H.MAX_STR_LENGTH) 0) p) (fun _ _ => True)
      (fun m p _ a => terminate_entry_spec H m p a)
      (fun m1 m2 p _ hag => ⟨terminate_entry_local H m1 m2 p hag, trivial⟩)
      ((List.range (4 * num_qa.toNat)).map (· * (H.MAX_STR_LENGTH + 1)))
      (lib_store qabuf (ex_get_qa exoid (qarec H num_qa.toNat) qabuf).2)
      (slots_separated _ _) (fun _ _ => trivial) a
    rw [qarec_flatten]
    have hsl : 4 * i + j < 4 * num_qa.toNat := by omega
    have hcut := terminate_entry_cut_le H
      (lib_store qabuf (ex_get_qa exoid (qarec H num_qa.toNat) qabuf).2)
      ((4 * i + j) * (H.MAX_STR_LENGTH + 1))
    have hsp := strlen_spec
      (poke (lib_store qabuf (ex_get_qa exoid (qarec H num_qa.toNat) qabuf).2)
        ((4 * i + j) * (H.MAX_STR_LENGTH + 1) + H.MAX_STR_LENGTH) 0)
      ((4 * i + j) * (H.MAX_STR_LENGTH + 1))
    -- a byte of the slot of `4*i+j` is stored as NUL only by the treatment of that slot
    have hother : ∀ k, k ≤ H.MAX_STR_LENGTH → ∀ s, s < 4 * num_qa.toNat →
        s * (H.MAX_STR_LENGTH + 1) ≤ (4 * i + j) * (H.MAX_STR_LENGTH + 1) + k →
        (4 * i + j) * (H.MAX_STR_LENGTH + 1) + k < s * (H.MAX_STR_LENGTH + 1) +
          (H.MAX_STR_LENGTH + 1) → s = 4 * i + j := by
      intro k hk s _ hlo hhi
      rcases Nat.lt_trichotomy s (4 * i + j) with h | h | h
      · have : (s + 1) * (H.MAX_STR_LENGTH + 1) ≤ (4 * i + j) * (H.MAX_STR_LENGTH + 1) :=
          Nat.mul_le_mul_right _ h
        rw [Nat.add_mul, Nat.one_mul] at this
        omega
      · exact h
      · have : (4 * i + j + 1) * (H.MAX_STR_LENGTH + 1) ≤ s * (H.MAX_STR_LENGTH + 1) :=
          Nat.mul_le_mul_right _ h
        rw [Nat.add_mul, Nat.one_mul] at this
        omega
    refine ⟨_, hcut, fun k hk => ?_, fun k hk1 hk2 => ?_⟩
    · have hne : ¬ ∃ p ∈ (List.range (4 * num_qa.toNat)).map (· * (H.MAX_STR_LENGTH + 1)),
          p + strlen (poke (lib_store qabuf (ex_get_qa exoid (qarec H num_qa.toNat) qabuf).2)
            (p + H.MAX_STR_LENGTH) 0) p ≤ (4 * i + j) * (H.MAX_STR_LENGTH + 1) + k ∧
          (4 * i + j) * (H.MAX_STR_LENGTH + 1) + k < p + (H.MAX_STR_LENGTH + 1) := by
        rintro ⟨p, hp, hp1, hp2⟩
        obtain ⟨s, hs, rfl⟩ := (hmem p).mp hp
        have := hother k (by omega) s hs (by omega) hp2
        subst this
        omega
      have hval := hfold ((4 * i + j) * (H.MAX_STR_LENGTH + 1) + k)
      rw [if_neg hne] at hval
      refine ⟨hval, ?_⟩
      rw [hval]
      have := hsp.2 k hk
      rw [peek_poke_zero, if_neg (by omega)] at this
      exact this
    · have hval := hfold ((4 * i + j) * (H.MAX_STR_LENGTH + 1) + k)
      rw [if_pos ⟨_, (hmem _).mpr ⟨4 * i + j, hsl, rfl⟩, by omega, by omega⟩] at hval
      exact hval

set_option maxRecDepth 100000 in
/-- C17, evaluated: one QA record; the library stores the character 65 in every
byte; afterwards the last byte of the first slot, byte 32, and the last byte of
the fourth slot, byte 131, hold NUL, and byte 0 holds the 65. -/
theorem get_qa_slots_witness :
    ((1 : Int) ≤ 1 ∧ (1 : Int) < MAX_QA_RECORDS) ∧
    (exm_get_qa exodusII_h (fun _ _ _ => fillWithA) 4 1 (List.replicate 132 7)).calls =
      [.ex_get_qa 4 [[0, 33, 66, 99]]] ∧
    (exm_get_qa exodusII_h (fun _ _ _ => fillWithA) 4 1 (List.replicate 132 7)).ret = .NULL ∧
    peek (exm_get_qa exodusII_h (fun _ _ _ => fillWithA) 4 1 (List.replicate 132 7)).buf 0 = 65 ∧
    peek (exm_get_qa exodusII_h (fun _ _ _ => fillWithA) 4 1 (List.replicate 132 7)).buf 32 = 0 ∧
    peek (exm_get_qa exodusII_h (fun _ _ _ => fillWithA) 4 1 (List.replicate 132 7)).buf 131 = 0
    := by
  have h := get_qa_slots exodusII_h (fun _ _ _ => fillWithA) 4 1 (List.replicate 132 7)
    (by decide) (by decide)
  exact ⟨⟨by decide, by decide⟩, h.1.trans (by decide), by decide, by decide, by decide,
    by decide⟩

/-! ## exm_put_vars -/

theorem poke_append_left (A B : List Nat) (i v : Nat) (h : i < A.length) :
    poke (A ++ B) i v = poke A i v ++ B := by
  induction A generalizing i with
  | nil => exact absurd h (Nat.not_lt_zero _)
  | cons x A ih =>
    cases i with
    | zero => rfl
    | succ n =>
      simp only [poke, List.cons_append, List.set_cons_succ, List.cons.injEq, true_and]
      exact ih n (by simpa using h)

theorem length_truncate_name (H : ExodusII_h) (s : List Nat) :
    (truncate_name H s).length = s.length := by
  unfold truncate_name
  split
  · exact length_poke _ _ _
  · rfl

theorem poke_eq_take_cons_drop (s : List Nat) (i v : Nat) (h : i < s.length) :
    poke s i v = s.take i ++ v :: s.drop (i + 1) := by
  induction s generalizing i with
  | nil => exact absurd h (Nat.not_lt_zero _)
  | cons x s ih =>
    cases i with
    | zero => rfl
    | succ n =>
      simp only [poke, List.set_cons_succ, List.take_succ_cons, List.drop_succ_cons,
        List.cons_append, List.cons.injEq, true_and]
      exact ih n (by simpa using h)

/-- The string at the start of a truncated name that is followed by a NUL: the
first `MAX_STR_LENGTH` characters of the name. -/
theorem cstring_truncate_name (H : ExodusII_h) (s rest : List Nat) (hs : ∀ c ∈ s, c ≠ 0) :
    cstring (truncate_name H s ++ 0 :: rest) = s.take H.MAX_STR_LENGTH := by
  unfold truncate_name
  by_cases h : H.MAX_STR_LENGTH < s.length
  · rw [if_pos h, poke_eq_take_cons_drop s _ 0 h, List.append_assoc, List.cons_append]
    exact cstring_append_zero _ _ (fun c hc => hs c (List.mem_of_mem_take hc))
  · rw [if_neg h, List.take_of_length_le (by omega)]
    exact cstring_append_zero _ _ hs

theorem strlen_append_name (pre s rest : List Nat) (hs : ∀ c ∈ s, c ≠ 0) :
    strlen (pre ++ (s ++ 0 :: rest)) pre.length = s.length := by
  unfold strlen
  rw [List.drop_left, cstring_append_zero s rest hs]

/-- What the loop leaves on a buffer made of names: the pointers are the offsets
of the names and each name that is too long has got a NUL at offset
`MAX_STR_LENGTH`. -/
theorem name_loop_spec (H : ExodusII_h) (ss : List (List Nat)) (pre post acc : List Nat)
    (hss : ∀ s ∈ ss, ∀ c ∈ s, c ≠ 0) :
    name_loop H ss.length pre.length (pre ++ (name_buffer ss ++ post)) acc =
      (acc ++ name_offsets pre.length ss,
        pre ++ (name_buffer (ss.map (truncate_name H)) ++ post)) := by
  induction ss generalizing pre acc with
  | nil => simp [name_loop, name_offsets, name_buffer]
  | cons s ss ih =>
    have hs := hss s (List.mem_cons_self _ _)
    have hrest := fun t ht => hss t (List.mem_cons_of_mem _ ht)
    have hbuf : pre ++ (name_buffer (s :: ss) ++ post) =
        pre ++ (s ++ 0 :: (name_buffer ss ++ post)) := by
      simp [name_buffer, List.append_assoc]
    have hlen : strlen (pre ++ (name_buffer (s :: ss) ++ post)) pre.length = s.length := by
      rw [hbuf]
      exact strlen_append_name pre s _ hs
    have hmem : (if H.MAX_STR_LENGTH < s.length then
          poke (pre ++ (name_buffer (s :: ss) ++ post)) (pre.length + H.MAX_STR_LENGTH) 0
        else pre ++ (name_buffer (s :: ss) ++ post)) =
        (pre ++ (truncate_name H s ++ [0])) ++ (name_buffer ss ++ post) := by
      rw [hbuf]
      unfold truncate_name
      by_cases h : H.MAX_STR_LENGTH < s.length
      · rw [if_pos h, if_pos h, poke_append_right, poke_append_left _ _ _ _ h]
        simp [List.append_assoc]
      · rw [if_neg h, if_neg h]
        simp [List.append_assoc]
    have hnext : pre.length + (s.length + 1) = (pre ++ (truncate_name H s ++ [0])).length := by
      rw [List.length_append, List.length_append, length_truncate_name]
      rfl
    simp only [List.length_cons, name_loop]
    rw [hlen, hmem, hnext, ih _ _ hrest]
    have hoff : name_offsets pre.length (s :: ss) =
        pre.length :: name_offsets (pre ++ (truncate_name H s ++ [0])).length ss := by
      rw [← hnext]
      rfl
    rw [hoff]
    simp [name_buffer, List.append_assoc]

/-- The names the library reads from the buffer the loop leaves. -/
theorem names_read (H : ExodusII_h) (ss : List (List Nat)) (pre post : List Nat)
    (hss : ∀ s ∈ ss, ∀ c ∈ s, c ≠ 0) :
    (name_offsets pre.length ss).map
        (fun p => cstring ((pre ++ (name_buffer (ss.map (truncate_name H)) ++ post)).drop p)) =
      ss.map (·.take H.MAX_STR_LENGTH) := by
  induction ss generalizing pre with
  | nil => rfl
  | cons s ss ih =>
    have hs := hss s (List.mem_cons_self _ _)
    have hrest := fun t ht => hss t (List.mem_cons_of_mem _ ht)
    have hbuf : pre ++ (name_buffer (truncate_name H s :: ss.map (truncate_name H)) ++ post) =
        pre ++ (truncate_name H s ++ 0 :: (name_buffer (ss.map (truncate_name H)) ++ post)) := by
      simp [name_buffer, List.append_assoc]
    have hbuf2 : pre ++ (name_buffer (truncate_name H s :: ss.map (truncate_name H)) ++ post) =
        (pre ++ (truncate_name H s ++ [0])) ++
          (name_buffer (ss.map (truncate_name H)) ++ post) := by
      simp [name_buffer, List.append_assoc]
    have hnext : pre.length + s.length + 1 = (pre ++ (truncate_name H s ++ [0])).length := by
      rw [List.length_append, List.length_append, length_truncate_name]
      rfl
    simp only [name_offsets, List.map_cons]
    congr 1
    · rw [hbuf, List.drop_left]
      exact cstring_truncate_name H s _ hs
    · rw [hnext, hbuf2]
      exact ih _ hrest

/-- C18, as the function has it: for a valid `var_type`, `num_vars > 0`, an
`ex_put_variable_param` that does not fail and a name buffer made of `num_vars`
NUL-terminated names (followed by anything), `exm_put_vars` passes exactly
`num_vars` names to the library, the `k`-th being the first `MAX_STR_LENGTH`
characters of the `k`-th name (the whole name when it is not longer), and the
buffer it leaves differs from the caller's only by the NULs stored at offset
`MAX_STR_LENGTH` of each name that is longer than `MAX_STR_LENGTH`. -/
theorem put_vars_names (H : ExodusII_h) (ex_put_variable_param : Int → Int → Int → Int)
    (ex_put_variable_names : Int → Int → Int → List (List Nat) → Int)
    (exoid var_type num_vars t : Int) (ss : List (List Nat)) (post : List Nat)
    (ht : put_vars_type H var_type = some t)
    (hn : 0 < num_vars)
    (hp : 0 ≤ ex_put_variable_param exoid t num_vars)
    (hlen : ss.length = num_vars.toNat)
    (hss : ∀ s ∈ ss, ∀ c ∈ s, c ≠ 0) :
    (exm_put_vars H ex_put_variable_param ex_put_variable_names exoid var_type num_vars
        (name_buffer ss ++ post)).calls =
      [.ex_put_variable_param exoid t num_vars,
        .ex_put_variable_names exoid t num_vars (ss.map (·.take H.MAX_STR_LENGTH))] ∧
    (ss.map (·.take H.MAX_STR_LENGTH)).length = num_vars.toNat ∧
    (exm_put_vars H ex_put_variable_param ex_put_variable_names exoid var_type num_vars
        (name_buffer ss ++ post)).buf =
      name_buffer (ss.map (truncate_name H)) ++ post ∧
    (∀ s, s.length ≤ H.MAX_STR_LENGTH →
      s.take H.MAX_STR_LENGTH = s ∧ truncate_name H s = s) ∧
    (∀ s, H.MAX_STR_LENGTH < s.length →
      truncate_name H s = s.take H.MAX_STR_LENGTH ++ 0 :: s.drop (H.MAX_STR_LENGTH + 1)) := by
  have hloop := name_loop_spec H ss [] post [] hss
  rw [List.nil_append, List.nil_append, List.nil_append, List.length_nil, hlen] at hloop
  have hread := names_read H ss [] post hss
  rw [List.nil_append, List.length_nil] at hread
  have hp2 : ¬ ex_put_variable_param exoid t num_vars < 0 := by omega
  have hn2 : 0 ≤ num_vars := by omega
  refine ⟨?_, ?_, ?_, ?_, ?_⟩
  · simp only [exm_put_vars, ht, hn, hn2, hp2, if_true, if_false, hloop, hread]
    split <;> rfl
  · rw [List.length_map, hlen]
  · simp only [exm_put_vars, ht, hn, hn2, hp2, if_true, if_false, hloop]
    split <;> rfl
  · intro s hs
    refine ⟨List.take_of_length_le hs, ?_⟩
    unfold truncate_name
    rw [if_neg (by omega)]
  · intro s hs
    unfold truncate_name
    rw [if_pos hs]
    exact poke_eq_take_cons_drop s _ 0 hs

set_option maxRecDepth 100000 in
/-- C18 as the function has it, evaluated: the names "ab" and a name of 33
characters; the library is handed "ab" and the first 32 characters of the
second name. -/
theorem put_vars_names_witness :
    (put_vars_type exodusII_h 13 = some 13 ∧ (0 : Int) < 2 ∧
      (0 : Int) ≤ (fun _ _ _ => (0 : Int)) (4 : Int) (13 : Int) (2 : Int) ∧
      [[97, 98], List.replicate 33 99].length = (2 : Int).toNat ∧
      ∀ s ∈ [[97, 98], List.replicate 33 99], ∀ c ∈ s, c ≠ 0) ∧
    (exm_put_vars exodusII_h (fun _ _ _ => 0) (fun _ _ _ _ => 0) 4 13 2
        (name_buffer [[97, 98], List.replicate 33 99] ++ [])).calls =
      [.ex_put_variable_param 4 13 2,
        .ex_put_variable_names 4 13 2 [[97, 98], List.replicate 32 99]] := by
  have hss : ∀ s ∈ [[97, 98], List.replicate 33 99], ∀ c ∈ s, c ≠ 0 := by decide
  have h := put_vars_names exodusII_h (fun _ _ _ => 0) (fun _ _ _ _ => 0) 4 13 2 13
    [[97, 98], List.replicate 33 99] [] (by decide) (by decide) (by decide) (by decide) hss
  exact ⟨⟨by decide, by decide, by decide, by decide, hss⟩, h.1.trans (by decide)⟩

/-- C18 as stated fails: with one NUL-terminated name in the buffer and
`num_vars = 1`, a `var_type` that is none of the ten (999) makes `exm_put_vars`
return its "invalid var type" literal without any library call, and a failing
`ex_put_variable_param` makes it return before `ex_put_variable_names` is
called: in both cases no name is passed to the library. -/
theorem put_vars_passes_no_name :
    exm_put_vars exodusII_h (fun _ _ _ => 0) (fun _ _ _ _ => 0) 4 999 1 (name_buffer [[97]]) =
      ⟨.literal "invalid var type given to exm_put_vars()", [97, 0], []⟩ ∧
    exm_put_vars exodusII_h (fun _ _ _ => -1) (fun _ _ _ _ => 0) 4 13 1 (name_buffer [[97]]) =
      ⟨.exm_get_error_string, [97, 0], [.ex_put_variable_param 4 13 1]⟩ := by
  refine ⟨by decide, by decide⟩

/-! ## exm_get_coord_names -/

theorem length_lib_store (mem : List Nat) (cells : Nat → Nat) :
    (lib_store mem cells).length = mem.length := by
  simp [lib_store]

theorem not_stored_bytes :
    literal_bytes "_not_stored_" = [95, 110, 111, 116, 95, 115, 116, 111, 114, 101, 100, 95] := by
  decide

theorem cstring_of_no_zero (T : List Nat) (hT : ∀ x ∈ T, x ≠ 0) : cstring T = T := by
  unfold cstring
  rw [List.takeWhile_eq_self_iff]
  intro x hx
  simpa using hT x hx

/-- What `strcpy` leaves in a buffer with room for the string: the string and
its NUL at the start, the length and every later byte as before. -/
theorem strcpy_spec (dest T : List Nat) (hT : ∀ x ∈ T, x ≠ 0) (hlen : T.length + 1 ≤ dest.length) :
    cstring (strcpy dest T) = T ∧
    (strcpy dest T).take (T.length + 1) = T ++ [0] ∧
    (strcpy dest T).length = dest.length ∧
    ∀ a, T.length + 1 ≤ a → peek (strcpy dest T) a = peek dest a := by
  have hc : cstring T = T := cstring_of_no_zero T hT
  unfold strcpy
  rw [hc]
  refine ⟨cstring_append_zero T _ hT, ?_, ?_, ?_⟩
  · have e : T ++ 0 :: dest.drop (T.length + 1) = (T ++ [0]) ++ dest.drop (T.length + 1) := by
      simp
    rw [e, List.take_left' (by simp)]
  · simp only [List.length_append, List.length_cons, List.length_drop]
    omega
  · intro a ha
    have e : T ++ 0 :: dest.drop (T.length + 1) = (T ++ [0]) ++ dest.drop (T.length + 1) := by
      simp
    unfold peek
    rw [e, List.getD_eq_getElem?_getD, List.getD_eq_getElem?_getD,
      List.getElem?_append_right (by simp; omega), List.getElem?_drop]
    congr 2
    simp only [List.length_append, List.length_singleton]
    omega

/-- C21: for `ndim` in 1..3 and a positive status of `ex_get_coord_names` (the
names are not stored in the file), `exm_get_coord_names` returns `NULL`
(success) after this one library call, and the buffer `names` (of at least 13
bytes, as every buffer of the documented length `ndim*(MAX_STR_LENGTH+1)` is
with the `MAX_STR_LENGTH` of exodusII.h) starts with the characters of
"_not_stored_" and a NUL, so that the string it holds is "_not_stored_"; its
length and the bytes behind the NUL are as the library left them.  For `ndim`
outside 1..3 it returns the message on the invalid spatial dimension, makes no
library call and leaves the buffer as it was. -/
theorem coord_names_not_stored (H : ExodusII_h)
    (ex_get_coord_names : Int → List (Option Nat) → List Nat → Int × (Nat → Nat))
    (exoid ndim : Int) (names : List Nat) :
    (1 ≤ ndim → ndim ≤ 3 → 0 < (ex_get_coord_names exoid (coordnames H ndim) names).1 →
      13 ≤ names.length →
      (exm_get_coord_names H ex_get_coord_names exoid ndim names).ret = .NULL ∧
      (exm_get_coord_names H ex_get_coord_names exoid ndim names).calls =
        [.ex_get_coord_names exoid (coordnames H ndim)] ∧
      cstring (exm_get_coord_names H ex_get_coord_names exoid ndim names).buf =
        literal_bytes "_not_stored_" ∧
      (exm_get_coord_names H ex_get_coord_names exoid ndim names).buf.take 13 =
        literal_bytes "_not_stored_" ++ [0] ∧
      (exm_get_coord_names H ex_get_coord_names exoid ndim names).buf.length = names.length ∧
      ∀ a, 13 ≤ a →
        peek (exm_get_coord_names H ex_get_coord_names exoid ndim names).buf a =
          peek (lib_store names (ex_get_coord_names exoid (coordnames H ndim) names).2) a) ∧
    (¬ (1 ≤ ndim ∧ ndim ≤ 3) →
      exm_get_coord_names H ex_get_coord_names exoid ndim names =
        ⟨.literal "invalid spatial dimension given to exm_get_coord_names()", names, []⟩) := by
  constructor
  · intro h1 h3 hpos hlen
    have hin : 0 < ndim ∧ ndim ≤ 3 := ⟨by omega, h3⟩
    have hne : ¬ (ex_get_coord_names exoid (coordnames H ndim) names).1 = 0 := by omega
    have hnz : ∀ x ∈ literal_bytes "_not_stored_", x ≠ 0 := by
      rw [not_stored_bytes]
      decide
    have hl : (literal_bytes "_not_stored_").length + 1 = 13 := by
      rw [not_stored_bytes]
      rfl
    have hs := strcpy_spec (lib_store names (ex_get_coord_names exoid (coordnames H ndim) names).2)
      (literal_bytes "_not_stored_") hnz (by rw [hl, length_lib_store]; exact hlen)
    rw [hl, length_lib_store] at hs
    unfold exm_get_coord_names
    simp only [hin, and_self, if_true, hne, if_false, hpos]
    exact ⟨trivial, trivial, hs.1, hs.2.1, hs.2.2.1, hs.2.2.2⟩
  · intro hout
    have hout2 : ¬ (0 < ndim ∧ ndim ≤ 3) := by omega
    unfold exm_get_coord_names
    rw [if_neg hout2]

/-- C21, evaluated: with two dimensions, the header of exodusII.h and a
library that answers 1 after filling the 66 bytes of the buffer with the
character 65, the call returns `NULL` and the buffer holds "_not_stored_", a NUL
and the 53 bytes the library left; with four dimensions the call returns the
message and the buffer is as before. -/
theorem coord_names_not_stored_witness :
    ((1 : Int) ≤ 2 ∧ (2 : Int) ≤ 3 ∧
      0 < (namesNotStored 4 (coordnames exodusII_h 2) (List.replicate 66 0)).1 ∧
      13 ≤ (List.replicate 66 0).length ∧
      ¬ ((1 : Int) ≤ 4 ∧ (4 : Int) ≤ 3)) ∧
    cstring (exm_get_coord_names exodusII_h namesNotStored 4 2 (List.replicate 66 0)).buf =
      literal_bytes "_not_stored_" ∧
    exm_get_coord_names exodusII_h namesNotStored 4 4 (List.replicate 132 0) =
      ⟨.literal "invalid spatial dimension given to exm_get_coord_names()",
        List.replicate 132 0, []⟩ :=
  ⟨⟨by decide, by decide, by decide, by decide, by decide⟩,
    ((coord_names_not_stored exodusII_h namesNotStored 4 2 (List.replicate 66 0)).1
      (by decide) (by decide) (by decide) (by decide)).2.2.1,
    (coord_names_not_stored exodusII_h namesNotStored 4 4 (List.replicate 132 0)).2
      (by decide)⟩

end Exomod

namespace ExomodLib

/-! ## The method table -/

/-- C22: every function of exomod.c documented with a `GENMOD: DOC:` block is
declared by a prototype in exomod_lib.c and has exactly one row in the table
`exomod_lib_methods`: the row with its own name, its wrapper `..._lib` (a wrapper
defined in exomod_lib.c, which calls this function) and its doc string
`..._lib_doc` (defined in exomod_lib.c).  The table is these rows followed by the
sentinel: every row before the sentinel is the row of a documented function. -/
theorem method_table_binds_each_documented_function :
    (∀ f ∈ exomod_c, f.genmod_doc = true →
      f.name ∈ prototypes ∧
      exomod_lib_methods.filter (fun e => e.ml_name = some f.name) =
        [⟨some f.name, some (f.name ++ "_lib"), .METH_VARARGS, some (f.name ++ "_lib_doc")⟩] ∧
      (⟨f.name ++ "_lib", f.name⟩ : Wrapper) ∈ wrappers ∧
      f.name ++ "_lib_doc" ∈ doc_strings) ∧
    exomod_lib_methods =
      exomod_lib_methods.takeWhile (fun e => e.ml_name.isSome) ++ [⟨none, none, .zero, none⟩] ∧
    (∀ e ∈ exomod_lib_methods.takeWhile (fun e => e.ml_name.isSome),
      ∃ f ∈ exomod_c, f.genmod_doc = true ∧ e.ml_name = some f.name) := by
  refine ⟨by decide, by decide, by decide⟩

end ExomodLib
